import Mathlib

/-!
xfce4-weather-plugin: forecast store, expiry, disk cache, astronomical data,
update scheduler, configuration and location names

A shallow embedding of `panel-plugin/weather-parsers.c`, of the cache codec,
the update scheduler, the configuration reader and the scrollbox update of
`panel-plugin/weather.c`, and of `sanitize_location_name` of
`panel-plugin/weather-config.c`, followed by the properties proved about
them.

Conventions of the embedding
* a `gchar *` that may be `NULL` is an `Option String`;
* `time_t` and `gint` values are `Int`; `difftime` is the exact difference
  (the `double` it returns is exact for every instant below `2^53` seconds);
* the `GArray` of `xml_time *` is a `List xml_time`: every pointer the code
  appends comes from `make_timeslice` and is not `NULL`; a pointer to an
  element of the array is its index;
* a `NULL` dereference (`strtol (NULL, ...)`) is the result `none`;
* every call of `time (NULL)` within one function call returns the instant
  `now_t` that the function takes as an argument;
* local time is UTC shifted by the offset of the time zone, which has a
  standard and a daylight-saving offset and tells for every instant which one
  is in force;
* functions of `weather-data.c`, which is not among the sources, are
  parameters or are modelled from the specification, as their comments say.
-/

namespace Weather

/-! ## libxml2 tree -/

/-- The node kinds of libxml2 that can occur below a document root. -/
inductive xmlElementType where
  | XML_ELEMENT_NODE
  | XML_TEXT_NODE
  | XML_CDATA_SECTION_NODE
  | XML_PI_NODE
  | XML_COMMENT_NODE
  deriving DecidableEq, Repr

/-- An `xmlNode`: kind, name, attribute list and child list (the `next`
chain of `children`). -/
inductive xmlNode where
  | mk (type : xmlElementType) (name : String)
       (properties : List (String × String)) (children : List xmlNode)

namespace xmlNode

/-- Field `type` of the node. -/
def type : xmlNode → xmlElementType
  | mk t _ _ _ => t

/-- Field `name` of the node. -/
def name : xmlNode → String
  | mk _ n _ _ => n

/-- Field `properties` of the node. -/
def properties : xmlNode → List (String × String)
  | mk _ _ p _ => p

/-- Field `children` of the node, as the list obtained by following `next`. -/
def children : xmlNode → List xmlNode
  | mk _ _ _ c => c

end xmlNode

/-- The first value bound to `key` in an attribute list. -/
def lookupProp (key : String) : List (String × String) → Option String
  | [] => none
  | (k, v) :: rest => if k = key then some v else lookupProp key rest

/-- Model of `xmlGetProp`: the value of attribute `prop`, `NULL` when the node is not
an element or has no such attribute. -/
def xmlGetProp (node : xmlNode) (prop : String) : Option String :=
  if node.type = xmlElementType.XML_ELEMENT_NODE then
    lookupProp prop node.properties
  else none

/-- Macro `PROP(node, prop)`. -/
def PROP (node : xmlNode) (prop : String) : Option String :=
  xmlGetProp node prop

/-- Macro `NODE_IS_TYPE(node, type)`: `xmlStrEqual (node->name, type)`. -/
def NODE_IS_TYPE (node : xmlNode) (type : String) : Bool :=
  decide (node.name = type)

/-- The `casemap` table of libxml2: ASCII upper case to lower case. -/
def casemap (c : Char) : Int :=
  if 65 ≤ c.toNat ∧ c.toNat ≤ 90 then (c.toNat + 32 : Nat) else (c.toNat : Nat)

/-- The comparison loop of `xmlStrcasecmp` on two non-`NULL` strings. -/
def strcasecmp_chars : List Char → List Char → Int
  | [], [] => 0
  | [], b :: _ => 0 - casemap b
  | a :: _, [] => casemap a
  | a :: as, b :: bs =>
    if casemap a - casemap b ≠ 0 then casemap a - casemap b
    else strcasecmp_chars as bs

/-- Model of `xmlStrcasecmp`: zero exactly when both strings are equal up to ASCII
case; a `NULL` string differs from every string but `NULL`. -/
def xmlStrcasecmp : Option String → Option String → Int
  | none, none => 0
  | none, some _ => -1
  | some _, none => 1
  | some a, some b => strcasecmp_chars a.data b.data

/-! ## C library: `strptime`, `mktime` in UTC, `strtol` -/

/-- The fields of `struct tm` that `mktime` reads; `tm_isdst` is positive in
daylight-saving time, zero in standard time and negative when that is not
known. -/
structure tm where
  tm_sec : Int
  tm_min : Int
  tm_hour : Int
  tm_mday : Int
  tm_mon : Int
  tm_year : Int
  tm_isdst : Int := 0
  deriving DecidableEq, Repr

/-- Model of `isspace` in the C locale. -/
def isspace (c : Char) : Bool :=
  c = ' ' || c = '\t' || c = '\n' || c = '\x0b' || c = '\x0c' || c = '\r'

/-- Model of `isdigit`. -/
def isdigit (c : Char) : Bool :=
  decide (48 ≤ c.toNat ∧ c.toNat ≤ 57)

/-- Value of a decimal digit. -/
def digitVal (c : Char) : Nat := c.toNat - 48

/-- Drop leading white space. -/
def skip_space : List Char → List Char
  | [] => []
  | c :: cs => if isspace c then skip_space cs else c :: cs

/-- The digit loop of `get_number`: `val` holds the digits read so far, `n`
is the number of digits that may still be read. -/
def get_number_loop (hi : Nat) : Nat → Nat → List Char → Nat × List Char
  | 0, val, rp => (val, rp)
  | _ + 1, val, [] => (val, [])
  | n + 1, val, c :: cs =>
    if val * 10 ≤ hi ∧ isdigit c then
      get_number_loop hi n (val * 10 + digitVal c) cs
    else (val, c :: cs)

/-- Macro `get_number (lo, hi, n)` of `strptime`: skip white space, read
at least one and at most `n` digits, fail when the value is out of range. -/
def get_number (lo hi n : Nat) (rp : List Char) : Option (Nat × List Char) :=
  match skip_space rp with
  | [] => none
  | c :: cs =>
    if isdigit c then
      let r := get_number_loop hi (n - 1) (digitVal c) cs
      if r.1 < lo ∨ hi < r.1 then none else some r
    else none

/-- Macro `match_char` of `strptime`: the next input character must be `ch`. -/
def match_char (ch : Char) : List Char → Option (List Char)
  | [] => none
  | c :: cs => if c = ch then some cs else none

/-- Model of `strptime (ts, "%Y-%m-%dT%H:%M:%SZ", &tm)` on the `tm` that
`parse_xml_timestring` hands to it, zeroed and with `tm_isdst` set to -1:
`none` is the `NULL` result; input left over after the final `Z` is ignored. -/
def strptime (ts : List Char) : Option tm := do
  let (year, rp) ← get_number 0 9999 4 ts
  let rp ← match_char '-' rp
  let (mon, rp) ← get_number 1 12 2 rp
  let rp ← match_char '-' rp
  let (mday, rp) ← get_number 1 31 2 rp
  let rp ← match_char 'T' rp
  let (hour, rp) ← get_number 0 23 2 rp
  let rp ← match_char ':' rp
  let (min, rp) ← get_number 0 59 2 rp
  let rp ← match_char ':' rp
  let (sec, rp) ← get_number 0 61 2 rp
  let _ ← match_char 'Z' rp
  pure { tm_sec := sec, tm_min := min, tm_hour := hour, tm_mday := mday,
         tm_mon := (mon : Int) - 1, tm_year := (year : Int) - 1900, tm_isdst := -1 }

/-- Days from 1970-01-01 to the first day of month `m` (1..12) of the
proleptic Gregorian year `y`. -/
def days_from_civil (y m : Int) : Int :=
  let y := if m ≤ 2 then y - 1 else y
  let era := y / 400
  let yoe := y - era * 400
  let doy := (153 * (if m > 2 then m - 3 else m + 9) + 2) / 5
  let doe := yoe * 365 + yoe / 4 - yoe / 100 + doy
  era * 146097 + doe - 719468

/-- Model of `my_timegm`: `mktime` with `TZ` set to UTC, where `tm_isdst` has
no bearing. Out-of-range fields are carried over as `mktime` does. -/
def my_timegm (t : tm) : Int :=
  let year := t.tm_year + 1900 + t.tm_mon / 12
  let mon := t.tm_mon % 12 + 1
  (days_from_civil year mon + (t.tm_mday - 1)) * 86400
    + t.tm_hour * 3600 + t.tm_min * 60 + t.tm_sec

/-- Model of `parse_xml_timestring (ts, NULL)`: zero for `NULL` and for a string that
`strptime` rejects. -/
def parse_xml_timestring (ts : Option String) : Int :=
  match ts with
  | none => 0
  | some s =>
    match strptime s.data with
    | none => 0
    | some t => my_timegm t

/-- The digit loop of `strtol` in base 10. -/
def strtol_digits : Nat → List Char → Nat
  | acc, [] => acc
  | acc, c :: cs => if isdigit c then strtol_digits (acc * 10 + digitVal c) cs else acc

/-- Model of `strtol (s, &end, 10)`: the value and the rest of the input; without a
digit the value is zero and the rest is the whole input. -/
def strtol_end (s : List Char) : Int × List Char :=
  let body := skip_space s
  let neg := match body with
    | '-' :: _ => true
    | _ => false
  let digits := match body with
    | '-' :: cs => cs
    | '+' :: cs => cs
    | cs => cs
  match digits with
  | c :: _ =>
    if isdigit c then
      let v : Int := strtol_digits 0 digits
      (if neg then max (-v) (-9223372036854775808) else min v 9223372036854775807,
       digits.dropWhile isdigit)
    else (0, s)
  | [] => (0, s)

/-- Model of `strtol (s, NULL, 10)` on a non-`NULL` string: optional white
space and sign, then digits; the result saturates at `LONG_MIN` and
`LONG_MAX`. -/
def strtol (s : List Char) : Int := (strtol_end s).1

/-- Conversion of a `long` to `gint` (32 bit, two's complement). -/
def to_gint (v : Int) : Int :=
  (v + 2147483648) % 4294967296 - 2147483648

/-! ## Data model of `weather-parsers.h` -/

/-- Record `xml_location`: the attributes of one forecast interval. The four
slots of `clouds_percent` are the fields `clouds_percent_low`, `_med`,
`_high` and `_cloudiness`. -/
@[ext] structure xml_location where
  altitude : Option String
  latitude : Option String
  longitude : Option String
  temperature_value : Option String
  temperature_unit : Option String
  wind_dir_deg : Option String
  wind_dir_name : Option String
  wind_speed_mps : Option String
  wind_speed_beaufort : Option String
  humidity_value : Option String
  humidity_unit : Option String
  pressure_value : Option String
  pressure_unit : Option String
  clouds_percent_low : Option String
  clouds_percent_med : Option String
  clouds_percent_high : Option String
  clouds_percent_cloudiness : Option String
  fog_percent : Option String
  precipitation_value : Option String
  precipitation_unit : Option String
  symbol_id : Int
  symbol : Option String
  deriving DecidableEq, Repr

/-- Record `xml_time`: one timeslice. -/
@[ext] structure xml_time where
  start : Int
  «end» : Int
  point : Int
  location : xml_location
  deriving DecidableEq, Repr

/-- Record `xml_weather`: the array of timeslices (`none` is the `NULL`
array) and the current conditions. -/
structure xml_weather where
  timeslices : Option (List xml_time)
  current_conditions : Option xml_time
  deriving DecidableEq, Repr

/-- A zero-filled `xml_location` (`g_slice_new0`). -/
def xml_location_new0 : xml_location :=
  { altitude := none, latitude := none, longitude := none,
    temperature_value := none, temperature_unit := none,
    wind_dir_deg := none, wind_dir_name := none,
    wind_speed_mps := none, wind_speed_beaufort := none,
    humidity_value := none, humidity_unit := none,
    pressure_value := none, pressure_unit := none,
    clouds_percent_low := none, clouds_percent_med := none,
    clouds_percent_high := none, clouds_percent_cloudiness := none,
    fog_percent := none, precipitation_value := none,
    precipitation_unit := none, symbol_id := 0, symbol := none }

/-- Model of `make_timeslice`: a zero-filled timeslice with a zero-filled location. -/
def make_timeslice : xml_time :=
  { start := 0, «end» := 0, point := 0, location := xml_location_new0 }

/-! ## `weather-parsers.c` -/

/-- The loop of `get_timeslice` from index `i` on: the index of the first
timeslice with the given start and end. -/
def get_timeslice_from (start_t end_t : Int) : Nat → List xml_time → Option Nat
  | _, [] => none
  | i, ts :: rest =>
    if ts.start = start_t ∧ ts.«end» = end_t then some i
    else get_timeslice_from start_t end_t (i + 1) rest

/-- Model of `get_timeslice`: pointer to (index of) the first timeslice with the given
start and end, `none` for `NULL`. -/
def get_timeslice (timeslices : List xml_time) (start_t end_t : Int) : Option Nat :=
  get_timeslice_from start_t end_t 0 timeslices

/-- The body of the loop of `parse_location` for one child node. -/
def parse_location_child (child_node : xmlNode) (loc : xml_location) :
    Option xml_location :=
  let loc := if NODE_IS_TYPE child_node "temperature" then
    { loc with temperature_unit := PROP child_node "unit",
               temperature_value := PROP child_node "value" } else loc
  let loc := if NODE_IS_TYPE child_node "windDirection" then
    { loc with wind_dir_deg := PROP child_node "deg",
               wind_dir_name := PROP child_node "name" } else loc
  let loc := if NODE_IS_TYPE child_node "windSpeed" then
    { loc with wind_speed_mps := PROP child_node "mps",
               wind_speed_beaufort := PROP child_node "beaufort" } else loc
  let loc := if NODE_IS_TYPE child_node "humidity" then
    { loc with humidity_unit := PROP child_node "unit",
               humidity_value := PROP child_node "value" } else loc
  let loc := if NODE_IS_TYPE child_node "pressure" then
    { loc with pressure_unit := PROP child_node "unit",
               pressure_value := PROP child_node "value" } else loc
  let loc := if NODE_IS_TYPE child_node "cloudiness" then
    { loc with clouds_percent_cloudiness := PROP child_node "percent" } else loc
  let loc := if NODE_IS_TYPE child_node "fog" then
    { loc with fog_percent := PROP child_node "percent" } else loc
  let loc := if NODE_IS_TYPE child_node "lowClouds" then
    { loc with clouds_percent_low := PROP child_node "percent" } else loc
  let loc := if NODE_IS_TYPE child_node "mediumClouds" then
    { loc with clouds_percent_med := PROP child_node "percent" } else loc
  let loc := if NODE_IS_TYPE child_node "highClouds" then
    { loc with clouds_percent_high := PROP child_node "percent" } else loc
  let loc := if NODE_IS_TYPE child_node "precipitation" then
    { loc with precipitation_unit := PROP child_node "unit",
               precipitation_value := PROP child_node "value" } else loc
  if NODE_IS_TYPE child_node "symbol" then
    match PROP child_node "number" with
    | none => none
    | some number =>
      some { loc with symbol := PROP child_node "id",
                      symbol_id := to_gint (strtol number.data) }
  else some loc

/-- Model of `parse_location`: the three attributes of the node overwrite altitude,
latitude and longitude, then every child node is visited in order. -/
def parse_location (cur_node : xmlNode) (loc : xml_location) : Option xml_location :=
  let loc := { loc with altitude := PROP cur_node "altitude" }
  let loc := { loc with latitude := PROP cur_node "latitude" }
  let loc := { loc with longitude := PROP cur_node "longitude" }
  cur_node.children.foldlM (fun l child_node => parse_location_child child_node l) loc

/-- Run `f` on the location of the timeslice at index `i`; the other
timeslices, and a list without index `i`, are left as they are. -/
def with_location_at (f : xml_location → Option xml_location) :
    Nat → List xml_time → Option (List xml_time)
  | _, [] => some []
  | 0, ts :: rest => (f ts.location).map fun l => { ts with location := l } :: rest
  | i + 1, ts :: rest => (with_location_at f i rest).map fun r => ts :: r

/-- The final loop of `parse_time`, as it acts on `timeslice->location`:
every child named `location` is parsed into it, in order. -/
def parse_time_locations (cur_node : xmlNode) (loc : xml_location) :
    Option xml_location :=
  cur_node.children.foldlM
    (fun l child_node =>
      if NODE_IS_TYPE child_node "location" then parse_location child_node l
      else some l)
    loc

/-- Model of `parse_time` on the timeslice array: a time element that is not a
forecast, or whose `from` or `to` parses to zero, is skipped; otherwise the
timeslice with that start and end is looked up, appended when there is none,
and every `location` child is parsed into it. -/
def parse_time (cur_node : xmlNode) (timeslices : List xml_time) :
    Option (List xml_time) :=
  if xmlStrcasecmp (PROP cur_node "datatype") (some "forecast") ≠ 0 then
    some timeslices
  else
    let start_t := parse_xml_timestring (PROP cur_node "from")
    let end_t := parse_xml_timestring (PROP cur_node "to")
    if start_t = 0 ∨ end_t = 0 then some timeslices
    else
      match get_timeslice timeslices start_t end_t with
      | some timeslice =>
        with_location_at (parse_time_locations cur_node) timeslice timeslices
      | none =>
        with_location_at (parse_time_locations cur_node) timeslices.length
          (timeslices ++ [{ make_timeslice with start := start_t, «end» := end_t }])

/-- The body of the outer loop of `parse_weather` for one child of the root. -/
def parse_weather_child (cur_node : xmlNode) (timeslices : List xml_time) :
    Option (List xml_time) :=
  if cur_node.type ≠ xmlElementType.XML_ELEMENT_NODE then some timeslices
  else if NODE_IS_TYPE cur_node "product" then
    if xmlStrcasecmp (PROP cur_node "class") (some "pointData") ≠ 0 then
      some timeslices
    else
      cur_node.children.foldlM
        (fun ts child_node =>
          if NODE_IS_TYPE child_node "time" then parse_time child_node ts
          else some ts)
        timeslices
  else some timeslices

/-- Model of `parse_weather`: nothing happens unless the root is named `weatherdata`;
a `NULL` array is replaced by an empty one; then every child is visited. -/
def parse_weather (cur_node : xmlNode) (wd : xml_weather) : Option xml_weather :=
  if ¬ NODE_IS_TYPE cur_node "weatherdata" then some wd
  else
    let timeslices := match wd.timeslices with
      | none => []
      | some ts => ts
    (cur_node.children.foldlM
        (fun ts child => parse_weather_child child ts) timeslices).map
      fun ts => { wd with timeslices := some ts }

/-- The timeslices of a store, the `NULL` array counting as empty. -/
def slices (wd : xml_weather) : List xml_time :=
  match wd.timeslices with
  | none => []
  | some ts => ts

/-! ## Astronomical data: `parse_astro` -/

/-- Record `xml_astro`: sun and moon facts of one day. -/
structure xml_astro where
  sunrise : Int
  sunset : Int
  sun_never_rises : Bool
  sun_never_sets : Bool
  moonrise : Int
  moonset : Int
  moon_never_rises : Bool
  moon_never_sets : Bool
  moon_phase : Option String
  deriving DecidableEq, Repr

/-- A zero-filled `xml_astro` (`g_slice_new0`). -/
def xml_astro_new0 : xml_astro :=
  { sunrise := 0, sunset := 0, sun_never_rises := false, sun_never_sets := false,
    moonrise := 0, moonset := 0, moon_never_rises := false, moon_never_sets := false,
    moon_phase := none }

/-- The test that `parse_astro_location` applies to a `never_rise` or
`never_set` attribute: the attribute is there and `strcmp` finds it equal to
`true` or to `1`. -/
def never_flag (value : Option String) : Bool :=
  match value with
  | none => false
  | some v => decide (v = "true") || decide (v = "1")

/-- The body of the loop of `parse_astro_location` for one child node. -/
def parse_astro_location_child (child_node : xmlNode) (astro : xml_astro) : xml_astro :=
  let astro := if NODE_IS_TYPE child_node "sun" then
    { astro with
      sun_never_rises := never_flag (PROP child_node "never_rise"),
      sun_never_sets := never_flag (PROP child_node "never_set"),
      sunrise := parse_xml_timestring (PROP child_node "rise"),
      sunset := parse_xml_timestring (PROP child_node "set") } else astro
  if NODE_IS_TYPE child_node "moon" then
    { astro with
      moon_never_rises := never_flag (PROP child_node "never_rise"),
      moon_never_sets := never_flag (PROP child_node "never_set"),
      moonrise := parse_xml_timestring (PROP child_node "rise"),
      moonset := parse_xml_timestring (PROP child_node "set"),
      moon_phase := PROP child_node "phase" } else astro

/-- Model of `parse_astro_location`: every child of the location is visited in
order. -/
def parse_astro_location (cur_node : xmlNode) (astro : xml_astro) : xml_astro :=
  cur_node.children.foldl (fun a child_node => parse_astro_location_child child_node a) astro

/-- The first loop of `parse_astro`: the first child named `time`. -/
def first_time_node : List xmlNode → Option xmlNode
  | [] => none
  | child_node :: rest =>
    if NODE_IS_TYPE child_node "time" then some child_node else first_time_node rest

/-- Model of `parse_astro`: `NULL` for a `NULL` root and for a root that is not
named `astrodata`; otherwise a zero-filled record into which every `location`
child of the first `time` child is parsed. -/
def parse_astro (cur_node : Option xmlNode) : Option xml_astro :=
  match cur_node with
  | none => none
  | some cur_node =>
    if ¬ NODE_IS_TYPE cur_node "astrodata" then none
    else
      match first_time_node cur_node.children with
      | none => some xml_astro_new0
      | some time_node =>
        some (time_node.children.foldl
          (fun astro child_node =>
            if NODE_IS_TYPE child_node "location" then
              parse_astro_location child_node astro
            else astro)
          xml_astro_new0)

/-! ## Expiry: `xml_weather_clean` -/

/-- The loop of `xml_weather_clean` with the `guint` index `i`. An expired
timeslice is removed with `g_array_remove_index (.., i--)`, after which the
`i++` of the loop runs: both steps are taken modulo `2^32`, so that at
`i = 0` the index wraps to `UINT_MAX` and back to zero. The first argument
bounds the number of iterations; `none` means the bound was too small.
`DATA_EXPIRY_TIME` is defined in `weather-parsers.h` and is a parameter here;
the debug output of the loop is not part of the state. -/
def xml_weather_clean_loop (now_t DATA_EXPIRY_TIME : Int) :
    Nat → Nat → List xml_time → Option (List xml_time)
  | 0, _, _ => none
  | fuel + 1, i, timeslices =>
    match timeslices[i]? with
    | none => some timeslices
    | some timeslice =>
      if now_t - timeslice.«end» > DATA_EXPIRY_TIME then
        xml_weather_clean_loop now_t DATA_EXPIRY_TIME fuel
          (((i + 4294967295) % 4294967296 + 1) % 4294967296) (timeslices.eraseIdx i)
      else
        xml_weather_clean_loop now_t DATA_EXPIRY_TIME fuel
          ((i + 1) % 4294967296) timeslices

/-- Model of `xml_weather_clean` at the instant `now_t` (the value of `time (NULL)`):
nothing happens for a `NULL` array, otherwise the loop runs from index 0. -/
def xml_weather_clean (now_t DATA_EXPIRY_TIME : Int) (wd : xml_weather) :
    Option xml_weather :=
  match wd.timeslices with
  | none => some wd
  | some timeslices =>
    (xml_weather_clean_loop now_t DATA_EXPIRY_TIME (timeslices.length + 1) 0
        timeslices).map
      fun ts => { wd with timeslices := some ts }

/-- A timeslice ending at `end_t`, with one attribute to tell it apart. -/
def slice_ending (end_t : Int) (tag : String) : xml_time :=
  { start := end_t - 3600, «end» := end_t, point := 0,
    location := { xml_location_new0 with symbol := some tag } }

/-- A store at instant 200000 with expiry time 86400: the first two
timeslices and the last one have expired. -/
def stale_store : xml_weather :=
  { timeslices := some [slice_ending 1000 "a", slice_ending 2000 "b",
                        slice_ending 150000 "c", slice_ending 3000 "d",
                        slice_ending 113600 "e", slice_ending 113599 "f"],
    current_conditions := none }

/-! ## C library and GLib functions used by the cache codec -/

/-- Conversion `%d` of `printf`. -/
def fmt_d (n : Int) : String :=
  match n with
  | Int.ofNat m => String.mk (Nat.toDigits 10 m)
  | Int.negSucc m => String.mk ('-' :: Nat.toDigits 10 (m + 1))

/-- Conversion `%s` of glibc `printf`: a `NULL` argument prints `(null)`. -/
def fmt_s (s : Option String) : String :=
  match s with
  | none => "(null)"
  | some v => v

/-- A two-digit field of `strftime` (`%m`, `%d`, `%H`, `%M`, `%S`). -/
def fmt_02d (n : Int) : String :=
  if 0 ≤ n ∧ n < 10 then "0" ++ fmt_d n else fmt_d n

/-- Model of `gmtime`: the broken-down UTC time of an instant. -/
def gmtime (t : Int) : tm :=
  let days := t / 86400
  let rem := t % 86400
  let z := days + 719468
  let era := z / 146097
  let doe := z - era * 146097
  let yoe := (doe - doe / 1460 + doe / 36524 - doe / 146096) / 365
  let doy := doe - (365 * yoe + yoe / 4 - yoe / 100)
  let mp := (5 * doy + 2) / 153
  let d := doy - (153 * mp + 2) / 5 + 1
  let m := if mp < 10 then mp + 3 else mp - 9
  let y := yoe + era * 400 + (if m ≤ 2 then 1 else 0)
  { tm_sec := rem % 60, tm_min := rem / 60 % 60, tm_hour := rem / 3600,
    tm_mday := d, tm_mon := m - 1, tm_year := y - 1900 }

/-- Model of `cache_file_strftime_t`: the instant in UTC as `%Y-%m-%dT%H:%M:%SZ`; the
empty string when the text does not fit the buffer of 21 bytes. -/
def cache_file_strftime_t (t : Int) : String :=
  let tm := gmtime t
  let str := fmt_d (tm.tm_year + 1900) ++ "-" ++ fmt_02d (tm.tm_mon + 1) ++ "-" ++
    fmt_02d tm.tm_mday ++ "T" ++ fmt_02d tm.tm_hour ++ ":" ++ fmt_02d tm.tm_min ++ ":" ++
    fmt_02d tm.tm_sec ++ "Z"
  if str.length ≤ 20 then str else ""

/-- Model of `g_key_file_parse_value_as_integer`: the whole value must be a decimal
number that fits a `gint`, white space may follow; `none` is the error. -/
def g_key_file_parse_value_as_integer (value : String) : Option Int :=
  let r := strtol_end value.data
  match value.data, r.2 with
  | [], _ => none
  | _ :: _, [] =>
    if -2147483648 ≤ r.1 ∧ r.1 ≤ 2147483647 then some r.1 else none
  | _ :: _, c :: _ =>
    if isspace c ∧ -2147483648 ≤ r.1 ∧ r.1 ≤ 2147483647 then some r.1 else none

/-- A loaded `GKeyFile`: the groups in file order, each with its key-value
pairs in file order. -/
abbrev GKeyFile := List (String × List (String × String))

/-- Model of `g_key_file_has_group`. -/
def g_key_file_has_group (keyfile : GKeyFile) (group : String) : Bool :=
  keyfile.any fun g => decide (g.1 = group)

/-- The raw value of a key: the last pair with that key among the groups
with that name. -/
def g_key_file_get_value (keyfile : GKeyFile) (group key : String) : Option String :=
  (((keyfile.filter fun g => decide (g.1 = group)).map fun g => g.2).flatten.filter
    fun kv => decide (kv.1 = key)).getLast?.map fun kv => kv.2

/-- Model of `g_key_file_has_key`. -/
def g_key_file_has_key (keyfile : GKeyFile) (group key : String) : Bool :=
  (g_key_file_get_value keyfile group key).isSome

/-- Decoding of the escape sequences of a key-file value. -/
def g_key_file_parse_value_as_string : List Char → List Char
  | [] => []
  | '\\' :: 's' :: rest => ' ' :: g_key_file_parse_value_as_string rest
  | '\\' :: 'n' :: rest => '\n' :: g_key_file_parse_value_as_string rest
  | '\\' :: 't' :: rest => '\t' :: g_key_file_parse_value_as_string rest
  | '\\' :: 'r' :: rest => '\r' :: g_key_file_parse_value_as_string rest
  | '\\' :: '\\' :: rest => '\\' :: g_key_file_parse_value_as_string rest
  | c :: rest => c :: g_key_file_parse_value_as_string rest

/-- Model of `g_key_file_get_string`: `NULL` without the key, else the decoded value. -/
def g_key_file_get_string (keyfile : GKeyFile) (group key : String) : Option String :=
  (g_key_file_get_value keyfile group key).map fun v =>
    String.mk (g_key_file_parse_value_as_string v.data)

/-- Model of `g_key_file_get_integer`: zero when the key is missing or its value is
not an integer. -/
def g_key_file_get_integer (keyfile : GKeyFile) (group key : String) : Int :=
  match g_key_file_get_value keyfile group key with
  | none => 0
  | some v =>
    match g_key_file_parse_value_as_integer v with
    | none => 0
    | some n => n

/-- Split a text at every newline. -/
def split_lines : List Char → List (List Char)
  | [] => [[]]
  | c :: cs =>
    match split_lines cs with
    | [] => [[c]]
    | l :: ls => if c = '\n' then [] :: l :: ls else (c :: l) :: ls

/-- Remove white space at the end. -/
def trim_right (s : List Char) : List Char :=
  (s.reverse.dropWhile isspace).reverse

/-- The locale tag of a key: the text between the last `[` and the final
character when at least one character stands between them. -/
def key_get_locale (key : List Char) : Option (List Char) :=
  match (key.reverse.takeWhile fun c => c ≠ '[').reverse with
  | tag =>
    if tag.length < key.length ∧ 2 ≤ tag.length then some tag.dropLast else none

/-- One line of `g_key_file_parse_data`: the state is the list of groups read
so far (latest first, pairs latest first); `none` is a parse error. A line is
a comment, a group header or a key-value pair; a pair whose key carries a
locale tag that is not among `locales` is dropped, as the loader does without
`G_KEY_FILE_KEEP_TRANSLATIONS`. Name validation is not modelled. -/
def g_key_file_parse_line (locales : List String)
    (groups : List (String × List (String × String))) (line : List Char) :
    Option (List (String × List (String × String))) :=
  match skip_space line with
  | [] => some groups
  | '#' :: _ => some groups
  | c :: cs =>
    let body := c :: cs
    let after := (cs.dropWhile fun x => x ≠ ']')
    if c = '[' ∧ after ≠ [] ∧
        (after.drop 1).all (fun x => x = ' ' || x = '\t') then
      some ((String.mk (cs.takeWhile fun x => x ≠ ']'), []) :: groups)
    else if c ≠ '=' ∧ body.any (fun x => x = '=') then
      match groups with
      | [] => none
      | (g, kvs) :: rest =>
        let key := trim_right (body.takeWhile fun x => x ≠ '=')
        let value := skip_space ((body.dropWhile fun x => x ≠ '=').drop 1)
        match key_get_locale key with
        | none => some ((g, (String.mk key, String.mk value) :: kvs) :: rest)
        | some tag =>
          if locales.any (fun l => decide (l.data = tag)) then
            some ((g, (String.mk key, String.mk value) :: kvs) :: rest)
          else some ((g, kvs) :: rest)
    else none

/-- Model of `g_key_file_load_from_file` on the content of the file (`none` when the
file cannot be read): the loaded key file, `none` on failure. -/
def g_key_file_load_from_file (locales : List String) (content : Option String) :
    Option GKeyFile :=
  match content with
  | none => none
  | some text =>
    ((split_lines text.data).foldlM (g_key_file_parse_line locales) []).map fun groups =>
      (groups.map fun g => (g.1, g.2.reverse)).reverse

/-! ## Cache codec of `weather.c` -/

/-- The completion callbacks that `update_weatherdata` hands to the session. -/
inductive SoupSessionCallback where
  | cb_astro_update
  | cb_weather_update
  deriving DecidableEq, Repr

/-- A request queued on the `SoupSession` by `weather_http_queue_request` and
not yet completed: the URI of the `GET` and the callback. -/
structure SoupMessage where
  uri : String
  callback_func : SoupSessionCallback
  deriving DecidableEq, Repr

/-- The fields of `plugin_data` that the cache codec, the update scheduler,
the configuration reader and the scrollbox use. The weather data is not
`NULL`; `session` holds the requests that are queued and not completed,
oldest first; a zero `updatetimeout` means that no timer runs; `labels` holds
the `data_types` values of the label array. -/
structure plugin_data where
  location_name : Option String
  lat : Option String
  lon : Option String
  msl : Int
  timezone : Int
  cache_file_max_age : Int
  weatherdata : xml_weather
  astrodata : Option xml_astro := none
  updatetimeout : Nat := 0
  last_astro_update : Int := 0
  last_data_update : Int := 0
  last_conditions_update : Int := 0
  night_time : Bool := false
  session : List SoupMessage := []
  forecast_layout : Int := 0
  forecast_days : Int := 1
  scrollbox_lines : Int := 1
  labels : List Nat := []
  deriving DecidableEq, Repr

/-- Macro `CACHE_APPEND (str, val)` for a format `key=%s\n`: nothing is
appended for a `NULL` value. -/
def CACHE_APPEND (out key : String) (val : Option String) : String :=
  match val with
  | none => out
  | some v => out ++ key ++ "=" ++ v ++ "\n"

/-- The section that `write_cache_file` writes for the timeslice at index
`i`. The four `clouds_percent` slots are printed without the `NULL` test of
`CACHE_APPEND`. -/
def write_cache_timeslice (out : String) (i : Nat) (timeslice : xml_time) : String :=
  let loc := timeslice.location
  let start := cache_file_strftime_t timeslice.start
  let «end» := cache_file_strftime_t timeslice.«end»
  let point := cache_file_strftime_t timeslice.point
  let out := out ++ "[timeslice" ++ fmt_d i ++ "]\n"
  let out := CACHE_APPEND out "start" (some start)
  let out := CACHE_APPEND out "end" (some «end»)
  let out := CACHE_APPEND out "point" (some point)
  let out := CACHE_APPEND out "altitude" loc.altitude
  let out := CACHE_APPEND out "latitude" loc.latitude
  let out := CACHE_APPEND out "longitude" loc.longitude
  let out := CACHE_APPEND out "temperature_value" loc.temperature_value
  let out := CACHE_APPEND out "temperature_unit" loc.temperature_unit
  let out := CACHE_APPEND out "wind_dir_deg" loc.wind_dir_deg
  let out := CACHE_APPEND out "wind_dir_name" loc.wind_dir_name
  let out := CACHE_APPEND out "wind_speed_mps" loc.wind_speed_mps
  let out := CACHE_APPEND out "wind_speed_beaufort" loc.wind_speed_beaufort
  let out := CACHE_APPEND out "humidity_value" loc.humidity_value
  let out := CACHE_APPEND out "humidity_unit" loc.humidity_unit
  let out := CACHE_APPEND out "pressure_value" loc.pressure_value
  let out := CACHE_APPEND out "pressure_unit" loc.pressure_unit
  let out := out ++ "clouds_percent[0]=" ++ fmt_s loc.clouds_percent_low ++ "\n"
  let out := out ++ "clouds_percent[1]=" ++ fmt_s loc.clouds_percent_med ++ "\n"
  let out := out ++ "clouds_percent[2]=" ++ fmt_s loc.clouds_percent_high ++ "\n"
  let out := out ++ "clouds_percent[3]=" ++ fmt_s loc.clouds_percent_cloudiness ++ "\n"
  let out := CACHE_APPEND out "fog_percent" loc.fog_percent
  let out := CACHE_APPEND out "precipitation_value" loc.precipitation_value
  let out := CACHE_APPEND out "precipitation_unit" loc.precipitation_unit
  let out := match loc.symbol with
    | none => out
    | some symbol =>
      out ++ "symbol_id=" ++ fmt_d loc.symbol_id ++ "\nsymbol=" ++ symbol ++ "\n"
  out ++ "\n"

/-- The loop of `write_cache_file` over the timeslices from index `i` on. -/
def write_cache_timeslices (out : String) : Nat → List xml_time → String
  | _, [] => out
  | i, timeslice :: rest =>
    write_cache_timeslices (write_cache_timeslice out i timeslice) (i + 1) rest

/-- Model of `write_cache_file` at the instant `now_t`: the text handed to
`g_file_set_contents`. `some none` when nothing is written because latitude
or longitude is `NULL`; `none` when the `NULL` timeslice array is
dereferenced. -/
def write_cache_file (now_t : Int) (data : plugin_data) : Option (Option String) :=
  if data.lat = none ∨ data.lon = none then some none
  else
    match data.weatherdata.timeslices with
    | none => none
    | some timeslices =>
      let out := "# xfce4-weather-plugin cache file\n\n[info]\n"
      let out := CACHE_APPEND out "location_name" data.location_name
      let out := CACHE_APPEND out "lat" data.lat
      let out := CACHE_APPEND out "lon" data.lon
      let out := out ++ "msl=" ++ fmt_d data.msl ++ "\ntimezone=" ++ fmt_d data.timezone ++
        "\ntimeslices=" ++ fmt_d timeslices.length ++ "\n"
      let out := out ++ "cache_date=" ++ cache_file_strftime_t now_t ++ "\n\n"
      some (some (write_cache_timeslices out 0 timeslices))

/-- Modelled from the spec: `parse_timestring` of `weather-data.c`, which is
not among the sources. The spec fixes the form of every timestamp of the cache
file as `YYYY-MM-DDThh:mm:ssZ`, the form `parse_xml_timestring` reads. -/
def parse_timestring (ts : Option String) : Int :=
  parse_xml_timestring ts

/-- Modelled from the spec: `merge_timeslice` of `weather-data.c`, which is
not among the sources. The spec describes it as the upsert of the store: an
exact match of start and end replaces the attributes of the stored interval,
no match inserts the interval. -/
def merge_timeslice (wd : xml_weather) (timeslice : xml_time) : xml_weather :=
  match get_timeslice (slices wd) timeslice.start timeslice.«end» with
  | some i =>
    { wd with timeslices := some ((slices wd).modify
        (fun old => { old with location := timeslice.location }) i) }
  | none => { wd with timeslices := some (slices wd ++ [timeslice]) }

/-- Macro `CACHE_READ_STRING (var, key)` on a location field: the field is
assigned only when the key is there. -/
def CACHE_READ_STRING (keyfile : GKeyFile) (group key : String) (var : Option String) :
    Option String :=
  if g_key_file_has_key keyfile group key then g_key_file_get_string keyfile group key
  else var

/-- Model of `CACHE_READ_STRING (timestring, key)` followed by `parse_timestring` and
`g_free`: without the key the variable `timestring` is not assigned and holds
an uninitialised or freed pointer, which is the result `none`. -/
def cache_read_time (keyfile : GKeyFile) (group key : String) : Option Int :=
  if g_key_file_has_key keyfile group key then
    some (parse_timestring (g_key_file_get_string keyfile group key))
  else none

/-- The location that `read_cache_file` reads from the section `group` into
the zero-filled location of a new timeslice: every field is read once with
`CACHE_READ_STRING`, except `wind_dir_name`, which the function never reads,
and `symbol_id`, which is read when the symbol is there. -/
def read_cache_location (keyfile : GKeyFile) (group : String) : xml_location :=
  let symbol := CACHE_READ_STRING keyfile group "symbol" make_timeslice.location.symbol
  {
    altitude :=
      CACHE_READ_STRING keyfile group "altitude" make_timeslice.location.altitude,
    latitude :=
      CACHE_READ_STRING keyfile group "latitude" make_timeslice.location.latitude,
    longitude :=
      CACHE_READ_STRING keyfile group "longitude" make_timeslice.location.longitude,
    temperature_value :=
      CACHE_READ_STRING keyfile group "temperature_value" make_timeslice.location.temperature_value,
    temperature_unit :=
      CACHE_READ_STRING keyfile group "temperature_unit" make_timeslice.location.temperature_unit,
    wind_dir_deg :=
      CACHE_READ_STRING keyfile group "wind_dir_deg" make_timeslice.location.wind_dir_deg,
    wind_dir_name := make_timeslice.location.wind_dir_name,
    wind_speed_mps :=
      CACHE_READ_STRING keyfile group "wind_speed_mps" make_timeslice.location.wind_speed_mps,
    wind_speed_beaufort :=
      CACHE_READ_STRING keyfile group "wind_speed_beaufort" make_timeslice.location.wind_speed_beaufort,
    humidity_value :=
      CACHE_READ_STRING keyfile group "humidity_value" make_timeslice.location.humidity_value,
    humidity_unit :=
      CACHE_READ_STRING keyfile group "humidity_unit" make_timeslice.location.humidity_unit,
    pressure_value :=
      CACHE_READ_STRING keyfile group "pressure_value" make_timeslice.location.pressure_value,
    pressure_unit :=
      CACHE_READ_STRING keyfile group "pressure_unit" make_timeslice.location.pressure_unit,
    clouds_percent_low :=
      CACHE_READ_STRING keyfile group "clouds_percent[0]" make_timeslice.location.clouds_percent_low,
    clouds_percent_med :=
      CACHE_READ_STRING keyfile group "clouds_percent[1]" make_timeslice.location.clouds_percent_med,
    clouds_percent_high :=
      CACHE_READ_STRING keyfile group "clouds_percent[2]" make_timeslice.location.clouds_percent_high,
    clouds_percent_cloudiness :=
      CACHE_READ_STRING keyfile group "clouds_percent[3]" make_timeslice.location.clouds_percent_cloudiness,
    fog_percent :=
      CACHE_READ_STRING keyfile group "fog_percent" make_timeslice.location.fog_percent,
    precipitation_value :=
      CACHE_READ_STRING keyfile group "precipitation_value" make_timeslice.location.precipitation_value,
    precipitation_unit :=
      CACHE_READ_STRING keyfile group "precipitation_unit" make_timeslice.location.precipitation_unit,
    symbol_id :=
      if symbol ≠ none ∧ g_key_file_has_key keyfile group "symbol_id" then
        g_key_file_get_integer keyfile group "symbol_id"
      else make_timeslice.location.symbol_id,
    symbol := symbol }

/-- The body of the loop of `read_cache_file` for the section with index `i`. -/
def read_cache_timeslice (keyfile : GKeyFile) (wd : xml_weather) (i : Nat) :
    Option xml_weather :=
  let group := "timeslice" ++ fmt_d i
  if ¬ g_key_file_has_group keyfile group then some wd
  else
    match cache_read_time keyfile group "start",
          cache_read_time keyfile group "end",
          cache_read_time keyfile group "point" with
    | some start, some end_t, some point =>
      some (merge_timeslice wd
        { start := start, «end» := end_t, point := point,
          location := read_cache_location keyfile group })
    | _, _, _ => none

/-- Model of `read_cache_file` at the instant `now_t`. `keyfile` is the result of
`g_key_file_load_from_file` on the cache file of the plugin data. `err` tells
whether the local `GError **err`, which is never initialised, holds a
non-`NULL` value: the code tests it after every read of an integer. The
result is the plugin data afterwards; `none` stands for the use of the
unassigned `timestring`. -/
def read_cache_file (err : Bool) (now_t : Int) (keyfile : Option GKeyFile)
    (data : plugin_data) : Option plugin_data :=
  if data.lat = none ∨ data.lon = none then some data
  else
    match keyfile with
    | none => some data
    | some keyfile =>
      if ¬ g_key_file_has_group keyfile "info" then some data
      else
        let locname := g_key_file_get_string keyfile "info" "location_name"
        let lat := g_key_file_get_string keyfile "info" "lat"
        let lon := g_key_file_get_string keyfile "info" "lon"
        if locname = none ∨ lat = none ∨ lon = none then some data
        else
          let msl := g_key_file_get_integer keyfile "info" "msl"
          if err then some data
          else
            let timezone := g_key_file_get_integer keyfile "info" "timezone"
            let num_timeslices := g_key_file_get_integer keyfile "info" "timeslices"
            if lat ≠ data.lat ∨ lon ≠ data.lon ∨ msl ≠ data.msl ∨
                timezone ≠ data.timezone ∨ num_timeslices < 1 then some data
            else
              match cache_read_time keyfile "info" "cache_date" with
              | none => none
              | some cache_date_t =>
                if now_t - cache_date_t > data.cache_file_max_age then some data
                else
                  ((List.range num_timeslices.toNat).foldlM
                      (read_cache_timeslice keyfile) data.weatherdata).map
                    fun wd => { data with weatherdata := wd }

/-- A plugin context for latitude 52.5, longitude 13.4 without weather data. -/
def example_context : plugin_data :=
  { location_name := some "Berlin", lat := some "52.5", lon := some "13.4",
    msl := 34, timezone := 1, cache_file_max_age := 172800,
    weatherdata := { timeslices := some [], current_conditions := none } }

/-- A dataset of one timeslice with a temperature and the wind direction
name `N`. -/
def example_dataset : plugin_data :=
  { example_context with
    weatherdata :=
      { timeslices := some
          [{ start := 1704067200, «end» := 1704088800, point := 0,
             location := { xml_location_new0 with
               temperature_value := some "5.0", temperature_unit := some "celsius",
               wind_dir_name := some "N" } }],
        current_conditions := none } }

/-- The key file loaded, in the C locale, from the text that
`write_cache_file` writes for `example_dataset` at instant 1704070000; the
empty key file if the text were not written or did not load. -/
def example_keyfile : GKeyFile :=
  match write_cache_file 1704070000 example_dataset with
  | some content =>
    match g_key_file_load_from_file ["C"] content with
    | some keyfile => keyfile
    | none => []
  | none => []

/-! ## Auxiliary definitions for the proofs about the parser -/

/-- The one way `parse_location_child` can fail: a `symbol` element without a
`number` attribute. -/
def child_ok (c : xmlNode) : Bool :=
  !(NODE_IS_TYPE c "symbol") || (PROP c "number").isSome

/-- The location left by `parse_location_child`, the input when it fails. -/
def child_pure (c : xmlNode) (loc : xml_location) : xml_location :=
  (parse_location_child c loc).getD loc

/-- No child of a `location` element makes `parse_location` fail. -/
def location_ok (n : xmlNode) : Bool := n.children.all child_ok

/-- The location left by `parse_location`, the input when it fails. -/
def location_pure (n : xmlNode) (loc : xml_location) : xml_location :=
  (parse_location n loc).getD loc

/-- No `location` child of a time element makes `parse_location` fail. -/
def locations_ok (t : xmlNode) : Bool :=
  t.children.all fun c => !(NODE_IS_TYPE c "location") || location_ok c

/-- The location left by `parse_time_locations`, the input when it fails. -/
def locations_pure (t : xmlNode) (loc : xml_location) : xml_location :=
  (parse_time_locations t loc).getD loc

/-- The time element passes the two guards of `parse_time`: it is a forecast
and both `from` and `to` parse to a non-zero instant. -/
def time_accepted (t : xmlNode) : Bool :=
  decide (xmlStrcasecmp (PROP t "datatype") (some "forecast") = 0) &&
  !(decide (parse_xml_timestring (PROP t "from") = 0 ∨
            parse_xml_timestring (PROP t "to") = 0))

/-- The child of the root is visited by `parse_weather`: an element named
`product` whose class is `pointData` up to case. -/
def product_selected (p : xmlNode) : Bool :=
  decide (p.type = xmlElementType.XML_ELEMENT_NODE) && NODE_IS_TYPE p "product" &&
  decide (xmlStrcasecmp (PROP p "class") (some "pointData") = 0)

/-- Whether `parse_time` succeeds on the node. -/
def time_ok (t : xmlNode) : Bool := !(time_accepted t) || locations_ok t

/-- Whether `parse_weather_child` succeeds on the node. -/
def product_ok (p : xmlNode) : Bool :=
  !(product_selected p) ||
    p.children.all fun t => !(NODE_IS_TYPE t "time") || time_ok t

/-- Whether `parse_weather` succeeds on the document. -/
def doc_ok (root : xmlNode) : Bool :=
  !(NODE_IS_TYPE root "weatherdata") || root.children.all product_ok

/-- A merge operation: start, end and the update of the attributes. -/
abbrev MergeOp := Int × Int × (xml_location → xml_location)

/-- Whether the timeslice has the key of the merge operation. -/
def MergeOp.hits (o : MergeOp) (ts : xml_time) : Bool :=
  decide (ts.start = o.1 ∧ ts.«end» = o.2.1)

/-- The merge operation of a child of a product: one for an accepted `time`
element, none otherwise. -/
def time_ops (t : xmlNode) : List MergeOp :=
  if NODE_IS_TYPE t "time" && time_accepted t then
    [(parse_xml_timestring (PROP t "from"), parse_xml_timestring (PROP t "to"),
      locations_pure t)]
  else []

/-- The merge operations of one child of the root. -/
def product_ops (p : xmlNode) : List MergeOp :=
  if product_selected p then (p.children.map time_ops).flatten else []

/-- The merge operations of a document, in document order. -/
def doc_ops (root : xmlNode) : List MergeOp :=
  if NODE_IS_TYPE root "weatherdata" then (root.children.map product_ops).flatten else []

/-- Upsert on the array: the first timeslice with the key gets its location
updated; without one, a new timeslice is appended. -/
def upsert (o : MergeOp) : List xml_time → List xml_time
  | [] => [{ start := o.1, «end» := o.2.1, point := 0,
             location := o.2.2 xml_location_new0 }]
  | ts :: rest =>
    if o.hits ts then { ts with location := o.2.2 ts.location } :: rest
    else ts :: upsert o rest

/-- All merge operations applied in order. -/
def run_ops (ops : List MergeOp) (timeslices : List xml_time) : List xml_time :=
  ops.foldl (fun ts o => upsert o ts) timeslices

/-- The operations with the key of `ts` applied to `ts`, in order. -/
def apply_ops (ops : List MergeOp) (ts : xml_time) : xml_time :=
  ops.foldl (fun x o => if o.hits x then { x with location := o.2.2 x.location } else x) ts

/-- The attribute fields of `xml_location` that hold a string. -/
def string_fields : List (xml_location → Option String) :=
  [xml_location.altitude, xml_location.latitude, xml_location.longitude,
   xml_location.temperature_value, xml_location.temperature_unit,
   xml_location.wind_dir_deg, xml_location.wind_dir_name,
   xml_location.wind_speed_mps, xml_location.wind_speed_beaufort,
   xml_location.humidity_value, xml_location.humidity_unit,
   xml_location.pressure_value, xml_location.pressure_unit,
   xml_location.clouds_percent_low, xml_location.clouds_percent_med,
   xml_location.clouds_percent_high, xml_location.clouds_percent_cloudiness,
   xml_location.fog_percent, xml_location.precipitation_value,
   xml_location.precipitation_unit, xml_location.symbol]

/-- Every field of `a` is the field of `b` or the field of `c`. -/
def Mix (a b c : xml_location) : Prop :=
  (∀ f ∈ string_fields, f a = f b ∨ f a = f c) ∧
  (a.symbol_id = b.symbol_id ∨ a.symbol_id = c.symbol_id)

/-- An update of the attributes that, field by field, keeps the old value or
writes a value that does not depend on the old attributes. -/
def Overwrite (g : xml_location → xml_location) : Prop :=
  ∀ x y, Mix (g x) x (g y)

/-- The key of a timeslice. -/
def key (ts : xml_time) : Int × Int := (ts.start, ts.«end»)

/-! ## Concrete documents and stores used as examples -/

/-- An element node. -/
def element (name : String) (properties : List (String × String))
    (children : List xmlNode) : xmlNode :=
  xmlNode.mk xmlElementType.XML_ELEMENT_NODE name properties children

/-- A forecast `time` element from 2024-01-01T00:00:00Z to 06:00:00Z with the
given children of its single `location`. -/
def example_time (location_children : List xmlNode) : xmlNode :=
  element "time"
    [("datatype", "forecast"), ("from", "2024-01-01T00:00:00Z"),
     ("to", "2024-01-01T06:00:00Z")]
    [element "location" [] location_children]

/-- A `temperature` element in celsius. -/
def example_temperature (value : String) : xmlNode :=
  element "temperature" [("value", value), ("unit", "celsius")] []

/-- A forecast document with one time element whose location holds one
temperature. -/
def example_doc (value : String) : xmlNode :=
  element "weatherdata" []
    [element "product" [("class", "pointData")]
      [example_time [example_temperature value]]]

/-- The store without timeslices. -/
def empty_store : xml_weather := { timeslices := none, current_conditions := none }

/-- A store with one timeslice for 2024-01-01T00:00:00Z to 06:00:00Z that
holds a humidity and no temperature. -/
def humid_store : List xml_time :=
  [{ start := 1704067200, «end» := 1704088800, point := 0,
     location := { xml_location_new0 with humidity_value := some "80",
                                          humidity_unit := some "percent" } }]

/-- A time element with the key of `example_time` whose `to` attribute is
not a timestamp. -/
def malformed_time : xmlNode :=
  element "time"
    [("datatype", "forecast"), ("from", "2024-01-01T00:00:00Z"), ("to", "tomorrow")]
    [element "location" [] [example_temperature "9.9"]]

/-- The document without the time children of a product that are not
forecast `time` elements, and without the children of the root that are not
`pointData` products. -/
def keep_forecast (root : xmlNode) : xmlNode :=
  xmlNode.mk root.type root.name root.properties
    ((root.children.filter product_selected).map fun p =>
      xmlNode.mk p.type p.name p.properties
        (p.children.filter fun t =>
          NODE_IS_TYPE t "time" &&
            decide (xmlStrcasecmp (PROP t "datatype") (some "forecast") = 0)))

/-- A document whose root is not `weatherdata`. -/
def wrong_root_doc : xmlNode :=
  element "astrodata" []
    [element "product" [("class", "pointData")]
      [example_time [example_temperature "5.0"]]]

/-- A product whose class is not `pointData`. -/
def other_class_product : xmlNode :=
  element "product" [("class", "gridData")] [example_time [example_temperature "5.0"]]

/-- A time element whose datatype is not `forecast`. -/
def other_datatype_time : xmlNode :=
  element "time"
    [("datatype", "observation"), ("from", "2024-01-01T00:00:00Z"),
     ("to", "2024-01-01T06:00:00Z")]
    [element "location" [] [example_temperature "5.0"]]

/-! ## Update scheduler of `weather.c` -/

/-- The time zone of the process as `localtime` and `mktime` use it: the
offset of local time from UTC in seconds in standard time and in
daylight-saving time, and whether daylight-saving time is in force at an
instant. In a zone without daylight-saving time `is_dst` is false
throughout. -/
structure timezone where
  utc_offset : Int
  dst_offset : Int
  is_dst : Int → Bool

/-- The zone UTC. -/
def UTC : timezone :=
  { utc_offset := 0, dst_offset := 0, is_dst := fun _ => false }

/-- What the scheduler takes from outside the sources at hand: the time zone,
and the functions `is_night_time` and `make_current_conditions` of
`weather-data.c`, the first one with the instant at which it is called. -/
structure plugin_env where
  tz : timezone
  is_night_time : Option xml_astro → Int → Bool
  make_current_conditions : xml_weather → Int → Option xml_time

/-- Model of `localtime`: the broken-down local time of an instant, with
`tm_isdst` 1 in daylight-saving time and 0 in standard time. -/
def localtime (tz : timezone) (t : Int) : tm :=
  if tz.is_dst t then { gmtime (t + tz.dst_offset) with tm_isdst := 1 }
  else { gmtime (t + tz.utc_offset) with tm_isdst := 0 }

/-- Model of `mktime`: the fields are read as local time, in daylight-saving
time when `tm_isdst` is positive and in standard time otherwise (a negative
`tm_isdst`, which `localtime` never sets, is read as standard time).
Out-of-range fields are carried over. -/
def mktime (tz : timezone) (t : tm) : Int :=
  if t.tm_isdst > 0 then my_timegm t - tz.dst_offset
  else my_timegm t - tz.utc_offset

/-- The operator `%` of C on `int`: the remainder has the sign of the
dividend. -/
def c_mod (a b : Int) : Int := Int.tmod a b

/-- Conversion `%04d` of `printf`. -/
def fmt_04d (n : Int) : String :=
  if 0 ≤ n ∧ n < 10 then "000" ++ fmt_d n
  else if 0 ≤ n ∧ n < 100 then "00" ++ fmt_d n
  else if 0 ≤ n ∧ n < 1000 then "0" ++ fmt_d n
  else if -10 < n ∧ n < 0 then "-00" ++ fmt_d (-n)
  else if -100 < n ∧ n < 0 then "-0" ++ fmt_d (-n)
  else fmt_d n

/-- Model of `weather_http_queue_request` on the session of the plugin data. -/
def weather_http_queue_request (data : plugin_data) (uri : String)
    (callback_func : SoupSessionCallback) : plugin_data :=
  { data with session := data.session ++ [{ uri := uri, callback_func := callback_func }] }

/-- The lines of `update_current_conditions` that bring the broken-down local
time to the five-minute grid: the remainder of the minute modulo 5 is taken
off, a negative minute becomes zero, the second becomes zero. -/
def five_minute_tm (now_tm : tm) : tm :=
  let now_tm := if c_mod now_tm.tm_min 5 < 5 then
    { now_tm with tm_min := now_tm.tm_min - c_mod now_tm.tm_min 5 } else now_tm
  let now_tm := if now_tm.tm_min < 0 then { now_tm with tm_min := 0 } else now_tm
  { now_tm with tm_sec := 0 }

/-- Model of `update_current_conditions` at the instant `now_t`: the current
conditions are freed and set to `NULL`, the instant is brought to the
five-minute grid and stored in `last_conditions_update`, the selector is
called with it, and the night-time flag is refreshed. Icon and scrollbox are
not part of the state. -/
def update_current_conditions (env : plugin_env) (now_t : Int) (data : plugin_data) :
    plugin_data :=
  let wd := { data.weatherdata with current_conditions := none }
  let last_conditions_update :=
    mktime env.tz (five_minute_tm (localtime env.tz now_t))
  { data with
    last_conditions_update := last_conditions_update,
    weatherdata :=
      { wd with current_conditions := env.make_current_conditions wd last_conditions_update },
    night_time := env.is_night_time data.astrodata now_t }

/-- Model of `need_astro_update` at the instant `now_t`. -/
def need_astro_update (tz : timezone) (now_t : Int) (data : plugin_data) : Bool :=
  if data.updatetimeout = 0 ∨ data.last_astro_update = 0 then true
  else if (localtime tz now_t).tm_mday ≠
      (localtime tz data.last_astro_update).tm_mday then true
  else false

/-- Macro `DATA_MAX_AGE`. -/
def DATA_MAX_AGE : Int := 20 * 60

/-- Model of `need_data_update` at the instant `now_t`. The difference of the
two instants is converted to `gint`: exact when it fits 32 bits, and modelled
as the two's complement wrap-around otherwise, a case that C leaves
undefined. -/
def need_data_update (now_t : Int) (data : plugin_data) : Bool :=
  if data.updatetimeout = 0 ∨ data.last_data_update = 0 then true
  else if to_gint (now_t - data.last_data_update) ≥ DATA_MAX_AGE then true
  else false

/-- Model of `need_conditions_update` at the instant `now_t`. -/
def need_conditions_update (tz : timezone) (now_t : Int) (data : plugin_data) : Bool :=
  if data.updatetimeout = 0 ∨ data.last_conditions_update = 0 then true
  else
    decide (now_t - data.last_conditions_update > 300) &&
      (decide (c_mod (localtime tz now_t).tm_min 5 = 0) ||
        decide ((localtime tz now_t).tm_min = 0))

/-- The URI of the astronomical request for the local date of `now_t`. -/
def astro_uri (tz : timezone) (now_t : Int) (lat lon : String) : String :=
  let now_tm := localtime tz now_t
  "http://api.yr.no/weatherapi/sunrise/1.0/?lat=" ++ lat ++ ";lon=" ++ lon ++ ";date=" ++
    fmt_04d (now_tm.tm_year + 1900) ++ "-" ++ fmt_02d (now_tm.tm_mon + 1) ++ "-" ++
    fmt_02d now_tm.tm_mday

/-- The URI of the forecast request. -/
def weather_uri (lat lon : String) (msl : Int) : String :=
  "http://api.yr.no/weatherapi/locationforecastlts/1.1/?lat=" ++ lat ++ ";lon=" ++ lon ++
    ";msl=" ++ fmt_d msl

/-- Model of `update_weatherdata`, one tick of the scheduler at the instant
`now_t`: nothing happens without coordinates; an astronomical request is
queued when `need_astro_update` holds; a forecast request is queued when
`need_data_update` holds, and the tick ends there; otherwise the current
conditions are recomputed when `need_conditions_update` holds, and the
night-time flag is brought up to date. -/
def update_weatherdata (env : plugin_env) (now_t : Int) (data : plugin_data) :
    plugin_data :=
  match data.lat, data.lon with
  | some lat, some lon =>
    if lat.length = 0 ∨ lon.length = 0 then data
    else
      let data :=
        if need_astro_update env.tz now_t data then
          weather_http_queue_request data (astro_uri env.tz now_t lat lon)
            SoupSessionCallback.cb_astro_update
        else data
      if need_data_update now_t data then
        weather_http_queue_request data (weather_uri lat lon data.msl)
          SoupSessionCallback.cb_weather_update
      else
        let data :=
          if need_conditions_update env.tz now_t data then
            update_current_conditions env now_t data
          else data
        let night_time := env.is_night_time data.astrodata now_t
        if data.night_time ≠ night_time then { data with night_time := night_time }
        else data
  | _, _ => data

/-- The number of queued requests with the given callback. -/
def outstanding (callback_func : SoupSessionCallback) (data : plugin_data) : Nat :=
  (data.session.filter fun msg => decide (msg.callback_func = callback_func)).length

/-- An environment in UTC in which it is never night and the selector finds
nothing. -/
def example_env : plugin_env :=
  { tz := UTC, is_night_time := fun _ _ => false,
    make_current_conditions := fun _ _ => none }

/-- The timeslice of `example_dataset`. -/
def example_timeslice : xml_time :=
  { start := 1704067200, «end» := 1704088800, point := 0,
    location := { xml_location_new0 with
      temperature_value := some "5.0", temperature_unit := some "celsius",
      wind_dir_name := some "N" } }

/-- An `astrodata` document with the given children of the location of its
`time` child. -/
def example_astro_doc (location_children : List xmlNode) : xmlNode :=
  element "astrodata" []
    [element "time" [("date", "2024-01-01")]
      [element "location" [("latitude", "78"), ("longitude", "15")] location_children]]

/-! ## Auxiliary definitions for the proofs about `parse_astro` -/

/-- The nodes that `parse_astro` hands to the loop of `parse_astro_location`:
the children of every `location` child of the first `time` child, in
document order. -/
def astro_children (root : xmlNode) : List xmlNode :=
  match first_time_node root.children with
  | none => []
  | some time_node =>
    ((time_node.children.filter fun c => NODE_IS_TYPE c "location").map
      fun c => c.children).flatten

/-- The last node with the given name in a list. -/
def last_named (name : String) : List xmlNode → Option xmlNode
  | [] => none
  | c :: cs =>
    match last_named name cs with
    | some s => some s
    | none => if NODE_IS_TYPE c name then some c else none

/-- The sun facts of a snapshot: never rises, never sets, sunrise, sunset. -/
def sun_fields (a : xml_astro) : Bool × Bool × Int × Int :=
  (a.sun_never_rises, a.sun_never_sets, a.sunrise, a.sunset)

/-- The sun facts that a `sun` element carries. -/
def sun_element_fields (s : xmlNode) : Bool × Bool × Int × Int :=
  (never_flag (PROP s "never_rise"), never_flag (PROP s "never_set"),
   parse_xml_timestring (PROP s "rise"), parse_xml_timestring (PROP s "set"))

/-- The moon facts of a snapshot: never rises, never sets, moonrise, moonset,
phase. -/
def moon_fields (a : xml_astro) : Bool × Bool × Int × Int × Option String :=
  (a.moon_never_rises, a.moon_never_sets, a.moonrise, a.moonset, a.moon_phase)

/-- The moon facts that a `moon` element carries. -/
def moon_element_fields (s : xmlNode) : Bool × Bool × Int × Int × Option String :=
  (never_flag (PROP s "never_rise"), never_flag (PROP s "never_set"),
   parse_xml_timestring (PROP s "rise"), parse_xml_timestring (PROP s "set"),
   PROP s "phase")

/-! ## Completion callbacks and reset of `weather.c` -/

/-- Model of `cb_weather_update` at the instant `now_t`. `doc` is what
`get_xml_document` and `xmlDocGetRootElement` give for the completed message:
`none` when there is no document (no response body, text that is not XML),
`some none` for a document without root element, else the root. With a root,
`parse_weather` runs and `last_data_update` is set; in every case
`xml_weather_clean`, `update_current_conditions` and `write_cache_file` follow.
The result is the plugin data and the text written to the cache file, if one
is written; `none` when `parse_location` or `write_cache_file` dereferences
`NULL`. The completed message is taken off the queue by the session, not by
the callback. -/
def cb_weather_update (env : plugin_env) (now_t DATA_EXPIRY_TIME : Int)
    (doc : Option (Option xmlNode)) (data : plugin_data) :
    Option (plugin_data × Option String) :=
  let parsed : Option plugin_data :=
    match doc with
    | some (some root_node) =>
      (parse_weather root_node data.weatherdata).map fun wd =>
        { data with weatherdata := wd, last_data_update := now_t }
    | _ => some data
  match parsed with
  | none => none
  | some data =>
    match xml_weather_clean now_t DATA_EXPIRY_TIME data.weatherdata with
    | none => none
    | some wd =>
      (write_cache_file now_t
          (update_current_conditions env now_t { data with weatherdata := wd })).map
        fun file => (update_current_conditions env now_t { data with weatherdata := wd }, file)

/-- Model of `cb_astro_update` at the instant `now_t`, with `doc` as for
`cb_weather_update`: the snapshot and `last_astro_update` are replaced only
when `parse_astro` returns a snapshot. -/
def cb_astro_update (now_t : Int) (doc : Option (Option xmlNode)) (data : plugin_data) :
    plugin_data :=
  match doc with
  | some (some root_node) =>
    match parse_astro (some root_node) with
    | some astro => { data with astrodata := some astro, last_astro_update := now_t }
    | none => data
  | _ => data

/-- Model of `update_weatherdata_with_reset` at the instant `now_t`: the timer
is removed, the three timestamps are set to zero, with `clear` the weather
data is replaced by the result of `make_weather_data` and `read_cache_file`
runs on it, then one tick runs and a new timer with the identifier
`timeout_id` is started. `make_weather_data` belongs to `weather-data.c`, which
is not among the sources, and is a parameter; `err` and `keyfile` are the
arguments of `read_cache_file`. -/
def update_weatherdata_with_reset (env : plugin_env) (now_t : Int) (err : Bool)
    (keyfile : Option GKeyFile) (make_weather_data : xml_weather) (timeout_id : Nat)
    (data : plugin_data) (clear : Bool) : Option plugin_data :=
  let data := { data with updatetimeout := 0, last_data_update := 0,
                          last_astro_update := 0, last_conditions_update := 0 }
  let cleared : Option plugin_data :=
    if clear then read_cache_file err now_t keyfile { data with weatherdata := make_weather_data }
    else some data
  cleared.map fun data =>
    { update_weatherdata env now_t data with updatetimeout := timeout_id }

/-- An environment in UTC in which it is always night and the selector finds
nothing. -/
def night_env : plugin_env :=
  { tz := UTC, is_night_time := fun _ _ => true,
    make_current_conditions := fun _ _ => none }

/-- The plugin data of `example_context` with the store of `stale_store`, a
running timer and the last forecast fetch at instant 5. -/
def stale_data : plugin_data :=
  { example_context with weatherdata := stale_store, updatetimeout := 1,
                         last_data_update := 5 }

/-- The store without the timeslices that have expired at `now_t`: what
`xml_weather_clean` leaves. -/
def without_expired (now_t DATA_EXPIRY_TIME : Int) (wd : xml_weather) : xml_weather :=
  { wd with
    timeslices := wd.timeslices.map fun ts =>
      ts.filter fun x => decide (now_t - x.«end» ≤ DATA_EXPIRY_TIME) }

/-- A store of two timeslices: one ending at 150000 and the humid one of
`humid_store`. -/
def two_slice_store : xml_weather :=
  { timeslices := some (slice_ending 150000 "c" :: humid_store),
    current_conditions := none }

/-- The store `two_slice_store` after the document `example_doc "6.0"`. -/
def two_slice_store_merged : xml_weather :=
  { timeslices := some
      [slice_ending 150000 "c",
       { start := 1704067200, «end» := 1704088800, point := 0,
         location := { xml_location_new0 with
           humidity_value := some "80", humidity_unit := some "percent",
           temperature_value := some "6.0", temperature_unit := some "celsius" } }],
    current_conditions := none }

/-- The plugin data of `example_dataset` with current conditions. -/
def conditions_data : plugin_data :=
  { example_dataset with
    weatherdata :=
      { timeslices := example_dataset.weatherdata.timeslices,
        current_conditions := some example_timeslice } }

/-! ## `sanitize_location_name` of `weather-config.c` -/

/-- Macro `LOC_NAME_MAX_LEN`. -/
def LOC_NAME_MAX_LEN : Nat := 50

/-- The number of bytes of a text in UTF-8. -/
def utf8_bytes : List Char → Nat
  | [] => 0
  | c :: cs => c.utf8Size + utf8_bytes cs

/-- Model of `g_utf8_strlen (p, max)` for a positive `max`: the number of
characters that lie completely within the first `max` bytes. -/
def g_utf8_strlen : List Char → Nat → Nat
  | [], _ => 0
  | c :: cs, max => if c.utf8Size ≤ max then 1 + g_utf8_strlen cs (max - c.utf8Size) else 0

/-- Model of `g_utf8_strncpy (sane, src, n)` into the buffer `sane` of
`LOC_NAME_MAX_LEN * 4` bytes, followed by `g_strdup (sane)`: the first `n`
characters; `none` when they and the terminating zero do not fit the buffer. -/
def strncpy_sane (src : List Char) (n : Nat) : Option String :=
  if utf8_bytes (src.take n) + 1 ≤ LOC_NAME_MAX_LEN * 4 then some (String.mk (src.take n))
  else none

/-- Model of `sanitize_location_name`. With a comma in the name, the name is
cut before its second comma and after at most `LOC_NAME_MAX_LEN` characters;
the search for the second comma does not stop at the end of the string, so a
name with exactly one comma is the result `none` (a read past the end).
Without a comma, `len` is the number of characters within the first
`LOC_NAME_MAX_LEN` bytes: the name is cut when `len` reaches
`LOC_NAME_MAX_LEN`, returned as it is when `len` is positive, and the text
`Unset` (untranslated) is returned for the empty name. -/
def sanitize_location_name (location_name : String) : Option String :=
  let name := location_name.data
  if ',' ∈ name then
    let pos := name.indexOf ','
    let rest := name.drop (pos + 1)
    if ',' ∈ rest then
      let offset := pos + 1 + rest.indexOf ','
      let offset := if offset > LOC_NAME_MAX_LEN then LOC_NAME_MAX_LEN else offset
      strncpy_sane name offset
    else none
  else
    let len := g_utf8_strlen name LOC_NAME_MAX_LEN
    if len ≥ LOC_NAME_MAX_LEN then strncpy_sane name len
    else if len > 0 then some location_name
    else some "Unset"

/-! ## Configuration reader and scrollbox of `weather.c` -/

/-- The constants of the header files that `xfceweather_read_config` uses; the
headers are not among the sources. -/
structure config_constants where
  FC_LAYOUT_LIST : Int
  FC_LAYOUT_CALENDAR : Int
  DEFAULT_FORECAST_DAYS : Int
  MAX_FORECAST_DAYS : Int
  MAX_SCROLLBOX_LINES : Int

/-- An opened resource file: the text of an entry, and the integer that
`xfce_rc_read_int_entry` finds for an entry, `none` when the entry is missing. -/
structure XfceRc where
  read_entry : String → Option String
  read_int_entry : String → Option Int

/-- Model of `xfce_rc_read_int_entry`. -/
def xfce_rc_read_int_entry (rc : XfceRc) (key : String) (fallback : Int) : Int :=
  match rc.read_int_entry key with
  | some v => v
  | none => fallback

/-- Macro `CACHE_FILE_MAX_AGE`. -/
def CACHE_FILE_MAX_AGE : Int := 48 * 3600

/-- An entry read with `xfce_rc_read_entry` replaces the string when it is
there. -/
def read_string_entry (rc : XfceRc) (key : String) (old : Option String) : Option String :=
  match rc.read_entry key with
  | some value => some value
  | none => old

/-- Model of `xfceweather_read_config` on the fields of the model; `rc` is
`none` when there is no resource file or it cannot be opened. The entries for
units, tooltip, icon theme, fonts, colours and labels are not modelled. -/
def xfceweather_read_config (c : config_constants) (rc : Option XfceRc)
    (data : plugin_data) : plugin_data :=
  match rc with
  | none => data
  | some rc =>
    let layout := xfce_rc_read_int_entry rc "forecast_layout" c.FC_LAYOUT_LIST
    let days := xfce_rc_read_int_entry rc "forecast_days" c.DEFAULT_FORECAST_DAYS
    let lines := xfce_rc_read_int_entry rc "scrollbox_lines" 1
    { data with
      location_name := read_string_entry rc "loc_name" data.location_name,
      lat := read_string_entry rc "lat" data.lat,
      lon := read_string_entry rc "lon" data.lon,
      msl := xfce_rc_read_int_entry rc "msl" 0,
      timezone := xfce_rc_read_int_entry rc "timezone" 0,
      cache_file_max_age := xfce_rc_read_int_entry rc "cache_file_max_age" CACHE_FILE_MAX_AGE,
      forecast_layout :=
        if layout = c.FC_LAYOUT_CALENDAR ∨ layout = c.FC_LAYOUT_LIST then layout
        else c.FC_LAYOUT_LIST,
      forecast_days :=
        if days > 0 ∧ days ≤ c.MAX_FORECAST_DAYS then days else c.DEFAULT_FORECAST_DAYS,
      scrollbox_lines :=
        if lines < 1 ∨ lines > c.MAX_SCROLLBOX_LINES then 1 else lines }

/-- Conversion of a `gint` to `guint` for a comparison with a `guint`. -/
def to_guint (v : Int) : Nat := (v % 4294967296).toNat

/-- The inner loop of `update_scrollbox` for the group that starts at index
`i`: `j` counts the labels of the group, `out` is its text. The first argument
bounds the number of iterations; `none` means the bound was too small. The
sum `i + j` never exceeds the number of labels, itself a `guint`, so it does
not wrap. -/
def scrollbox_group (make_label : Nat → String) (labels : List Nat)
    (scrollbox_lines : Int) (i : Nat) : Nat → Nat → String → Option (Nat × String)
  | 0, _, _ => none
  | fuel + 1, j, out =>
    if i + j < labels.length ∧ j < to_guint scrollbox_lines then
      scrollbox_group make_label labels scrollbox_lines i fuel (j + 1)
        (out ++ make_label (labels.getD (i + j) 0) ++
          (if j < to_guint (scrollbox_lines - 1) then "\n" else ""))
    else some (j, out)

/-- The outer loop of `update_scrollbox`: one scrollbox entry for each group,
then `i = i + j`. The first argument bounds the number of iterations; `none`
means the bound was too small. -/
def scrollbox_entries (make_label : Nat → String) (labels : List Nat)
    (scrollbox_lines : Int) : Nat → Nat → List String → Option (List String)
  | 0, _, _ => none
  | fuel + 1, i, entries =>
    if i < labels.length then
      match scrollbox_group make_label labels scrollbox_lines i (labels.length + 1) 0 "" with
      | none => none
      | some (j, out) =>
        scrollbox_entries make_label labels scrollbox_lines fuel (i + j) (entries ++ [out])
    else some entries

/-- Model of `update_scrollbox`: the entries set on the scrollbox. With current
conditions the labels are grouped, `scrollbox_lines` to an entry; without them
the single entry `No Data` is set. `make_label` gives the text of a label for
the plugin data at hand. -/
def update_scrollbox (make_label : Nat → String) (data : plugin_data) :
    Option (List String) :=
  match data.weatherdata.current_conditions with
  | some _ =>
    scrollbox_entries make_label data.labels data.scrollbox_lines
      (data.labels.length + 1) 0 []
  | none => some ["No Data"]

/-- Constants as in the released plugin: list 0, calendar 1, five forecast
days by default, at most ten, at most ten scrollbox lines. -/
def example_constants : config_constants :=
  { FC_LAYOUT_LIST := 0, FC_LAYOUT_CALENDAR := 1, DEFAULT_FORECAST_DAYS := 5,
    MAX_FORECAST_DAYS := 10, MAX_SCROLLBOX_LINES := 10 }

/-- A resource file that holds 0 scrollbox lines, 42 forecast days and the
forecast layout 7. -/
def example_rc : XfceRc :=
  { read_entry := fun _ => none,
    read_int_entry := fun key =>
      if key = "scrollbox_lines" then some 0
      else if key = "forecast_days" then some 42
      else if key = "forecast_layout" then some 7
      else none }

/-- A location name of 60 characters of two bytes each, without a comma. -/
def long_name : String := String.mk (List.replicate 60 'é')

/-! ## Examples with a change of the offset from UTC -/

/-- Central European time in 2024: one hour east of UTC in standard time, two
hours in daylight-saving time, which is in force from 2024-03-31 01:00:00 UTC
until 2024-10-27 01:00:00 UTC. -/
def central_europe_2024 : timezone :=
  { utc_offset := 3600, dst_offset := 7200,
    is_dst := fun t => decide (1711846800 ≤ t ∧ t < 1729990800) }

/-- Modelled from the spec: a selector that returns the first timeslice whose
start and end enclose the instant, and nothing when there is none. -/
def enclosing_timeslice (wd : xml_weather) (now_t : Int) : Option xml_time :=
  (slices wd).find? fun x => decide (x.start ≤ now_t ∧ now_t ≤ x.«end»)

/-- An environment in Central European time in which it is never night and
the selector is `enclosing_timeslice`. -/
def fall_back_env : plugin_env :=
  { tz := central_europe_2024, is_night_time := fun _ _ => false,
    make_current_conditions := enclosing_timeslice }

/-- A dataset with the two timeslices 00:00 to 01:00 UTC and 01:00 to 02:00
UTC of 2024-10-27, the night in which the clocks go back at 01:00 UTC. -/
def fall_back_data : plugin_data :=
  { example_context with
    weatherdata :=
      { timeslices := some [slice_ending 1729990800 "first", slice_ending 1729994400 "second"],
        current_conditions := none } }

/-! ## Auxiliary definitions for the field-wise effect of `parse_time` -/

/-- The value that the last node named `name` of the list carries, the stored
value when no node has that name. -/
def carried {β : Type} (name : String) (value : xmlNode → β) (nodes : List xmlNode)
    (stored : β) : β :=
  match last_named name nodes with
  | some e => value e
  | none => stored

/-- The nodes that the loop of `parse_time` hands, through `parse_location`, to
the body of its loop: the children of every child named `location`, in
document order. -/
def location_elements (children : List xmlNode) : List xmlNode :=
  ((children.filter fun c => NODE_IS_TYPE c "location").map fun c => c.children).flatten

/-- The number that `parse_location` stores for a `symbol` element; a `symbol`
element without `number` does not get that far. -/
def symbol_number (e : xmlNode) : Int :=
  match PROP e "number" with
  | some number => to_gint (strtol number.data)
  | none => 0

/-- The attributes `loc` after the elements `es` were written over them: a
field of an element kind has the value that the last element of that kind
carries, and its stored value when `es` has no element of that kind;
altitude, latitude and longitude are the stored ones. -/
def merged_fields (es : List xmlNode) (loc : xml_location) : xml_location :=
  { altitude := loc.altitude,
    latitude := loc.latitude,
    longitude := loc.longitude,
    temperature_value :=
      carried "temperature" (fun e => PROP e "value") es loc.temperature_value,
    temperature_unit :=
      carried "temperature" (fun e => PROP e "unit") es loc.temperature_unit,
    wind_dir_deg := carried "windDirection" (fun e => PROP e "deg") es loc.wind_dir_deg,
    wind_dir_name := carried "windDirection" (fun e => PROP e "name") es loc.wind_dir_name,
    wind_speed_mps := carried "windSpeed" (fun e => PROP e "mps") es loc.wind_speed_mps,
    wind_speed_beaufort :=
      carried "windSpeed" (fun e => PROP e "beaufort") es loc.wind_speed_beaufort,
    humidity_value := carried "humidity" (fun e => PROP e "value") es loc.humidity_value,
    humidity_unit := carried "humidity" (fun e => PROP e "unit") es loc.humidity_unit,
    pressure_value := carried "pressure" (fun e => PROP e "value") es loc.pressure_value,
    pressure_unit := carried "pressure" (fun e => PROP e "unit") es loc.pressure_unit,
    clouds_percent_low :=
      carried "lowClouds" (fun e => PROP e "percent") es loc.clouds_percent_low,
    clouds_percent_med :=
      carried "mediumClouds" (fun e => PROP e "percent") es loc.clouds_percent_med,
    clouds_percent_high :=
      carried "highClouds" (fun e => PROP e "percent") es loc.clouds_percent_high,
    clouds_percent_cloudiness :=
      carried "cloudiness" (fun e => PROP e "percent") es loc.clouds_percent_cloudiness,
    fog_percent := carried "fog" (fun e => PROP e "percent") es loc.fog_percent,
    precipitation_value :=
      carried "precipitation" (fun e => PROP e "value") es loc.precipitation_value,
    precipitation_unit :=
      carried "precipitation" (fun e => PROP e "unit") es loc.precipitation_unit,
    symbol_id := carried "symbol" symbol_number es loc.symbol_id,
    symbol := carried "symbol" (fun e => PROP e "id") es loc.symbol }

/-- The attributes `loc` of a timeslice after a time element with the given
children was merged into them: altitude, latitude and longitude are those of
the last `location` child, the fields of an element kind are those of the last
element of that kind below a `location` child, and every field for which the
time element has nothing keeps its stored value. -/
def merged_location (children : List xmlNode) (loc : xml_location) : xml_location :=
  { merged_fields (location_elements children) loc with
    altitude := carried "location" (fun c => PROP c "altitude") children loc.altitude,
    latitude := carried "location" (fun c => PROP c "latitude") children loc.latitude,
    longitude := carried "location" (fun c => PROP c "longitude") children loc.longitude }

/-! ## Properties -/

theorem foldlM_uniform {α β : Type} (f : α → β → Option α) (ok : β → Bool)
    (g : α → β → α) (h : ∀ x c, f x c = if ok c then some (g x c) else none) :
    ∀ (cs : List β) (x : α),
      cs.foldlM f x = if cs.all ok then some (cs.foldl g x) else none := by
  intro cs
  induction cs with
  | nil => intro x; simp
  | cons c cs ih =>
    intro x
    simp only [List.foldlM_cons, List.all_cons, List.foldl_cons, h]
    by_cases hc : ok c = true
    · simp [hc, ih]
    · simp [hc]

theorem parse_location_child_eq (c : xmlNode) (loc : xml_location) :
    parse_location_child c loc =
      if child_ok c then some (child_pure c loc) else none := by
  unfold child_pure child_ok parse_location_child
  by_cases hs : NODE_IS_TYPE c "symbol" = true
  · cases hn : PROP c "number" <;> simp [hs, hn]
  · simp [hs]

theorem parse_location_eq (n : xmlNode) (loc : xml_location) :
    parse_location n loc =
      if location_ok n then some (location_pure n loc) else none := by
  have h := foldlM_uniform (fun l c => parse_location_child c l) child_ok
    (fun l c => child_pure c l) (fun x c => parse_location_child_eq c x) n.children
  unfold location_pure location_ok parse_location
  simp only [h]
  split <;> simp

theorem parse_time_locations_eq (t : xmlNode) (loc : xml_location) :
    parse_time_locations t loc =
      if locations_ok t then some (locations_pure t loc) else none := by
  have h := foldlM_uniform
    (fun l c => if NODE_IS_TYPE c "location" then parse_location c l else some l)
    (fun c => !(NODE_IS_TYPE c "location") || location_ok c)
    (fun l c => if NODE_IS_TYPE c "location" then location_pure c l else l)
    (by
      intro x c
      by_cases hl : NODE_IS_TYPE c "location" = true
      · simp [hl, parse_location_eq]
      · simp [hl]) t.children
  unfold locations_pure locations_ok parse_time_locations
  simp only [h]
  split <;> simp

theorem get_timeslice_from_succ (s e : Int) (S : List xml_time) :
    ∀ k, get_timeslice_from s e (k + 1) S = (get_timeslice_from s e k S).map (· + 1) := by
  induction S with
  | nil => intro k; simp [get_timeslice_from]
  | cons x xs ih =>
    intro k
    simp only [get_timeslice_from]
    split
    · simp
    · exact ih (k + 1)

theorem get_timeslice_cons (s e : Int) (x : xml_time) (xs : List xml_time) :
    get_timeslice (x :: xs) s e =
      if x.start = s ∧ x.«end» = e then some 0
      else (get_timeslice xs s e).map (· + 1) := by
  simp only [get_timeslice, get_timeslice_from]
  split
  · rfl
  · exact get_timeslice_from_succ s e xs 0

theorem upsert_lookup (o : MergeOp) (ok : Bool) (F : xml_location → Option xml_location)
    (hF : ∀ l, F l = if ok then some (o.2.2 l) else none) (S : List xml_time) :
    (match get_timeslice S o.1 o.2.1 with
      | some timeslice => with_location_at F timeslice S
      | none => with_location_at F S.length
          (S ++ [{ make_timeslice with start := o.1, «end» := o.2.1 }])) =
      if ok then some (upsert o S) else none := by
  induction S with
  | nil =>
    cases ok <;>
      simp [get_timeslice, get_timeslice_from, with_location_at, hF, upsert, make_timeslice]
  | cons x xs ih =>
    rw [get_timeslice_cons]
    by_cases hx : x.start = o.1 ∧ x.«end» = o.2.1
    · cases ok <;> simp [hx, with_location_at, hF, upsert, MergeOp.hits]
    · simp only [hx, if_false]
      cases hg : get_timeslice xs o.1 o.2.1 with
      | some i =>
        rw [hg] at ih
        simp only [Option.map_some', with_location_at] 
        simp only at ih
        rw [ih]
        cases ok <;> simp [upsert, MergeOp.hits, hx]
      | none =>
        rw [hg] at ih
        simp only [Option.map_none', List.length_cons, List.cons_append, with_location_at]
        simp only at ih
        have ih2 : with_location_at F xs.length (xs.append
          [{ make_timeslice with start := o.1, «end» := o.2.1 }]) =
            if ok = true then some (upsert o xs) else none := ih
        rw [ih2]
        cases ok <;> simp [upsert, MergeOp.hits, hx]

theorem parse_time_eq (t : xmlNode) (S : List xml_time) :
    parse_time t S =
      if time_accepted t then
        (if locations_ok t then
          some (upsert (parse_xml_timestring (PROP t "from"),
                        parse_xml_timestring (PROP t "to"), locations_pure t) S)
         else none)
      else some S := by
  unfold parse_time time_accepted
  by_cases h1 : xmlStrcasecmp (PROP t "datatype") (some "forecast") = 0
  · by_cases h2 : parse_xml_timestring (PROP t "from") = 0 ∨
        parse_xml_timestring (PROP t "to") = 0
    · simp [h1, h2]
    · have := upsert_lookup (parse_xml_timestring (PROP t "from"),
                        parse_xml_timestring (PROP t "to"), locations_pure t)
          (locations_ok t) (parse_time_locations t) (parse_time_locations_eq t) S
      simp only at this
      simp only [h1, h2, ne_eq, not_true_eq_false, if_false, decide_True, decide_False,
        Bool.not_false, Bool.and_self, if_true]
      exact this
  · simp [h1]


theorem run_ops_append (a b : List MergeOp) (S : List xml_time) :
    run_ops (a ++ b) S = run_ops b (run_ops a S) := by
  simp [run_ops, List.foldl_append]

theorem run_ops_flatten {β : Type} (h : β → List MergeOp) (cs : List β) :
    ∀ S, cs.foldl (fun ts c => run_ops (h c) ts) S = run_ops (cs.map h).flatten S := by
  induction cs with
  | nil => intro S; simp [run_ops]
  | cons c cs ih =>
    intro S
    simp only [List.foldl_cons, List.map_cons, List.flatten_cons, run_ops_append]
    exact ih _

theorem parse_time_step_eq (c : xmlNode) (S : List xml_time) :
    (if NODE_IS_TYPE c "time" then parse_time c S else some S) =
      if (!(NODE_IS_TYPE c "time") || time_ok c) then some (run_ops (time_ops c) S)
      else none := by
  by_cases ht : NODE_IS_TYPE c "time" = true
  · by_cases ha : time_accepted c = true
    · by_cases hl : locations_ok c = true
      · simp [ht, ha, hl, parse_time_eq, time_ok, time_ops, run_ops]
      · simp [ht, ha, hl, parse_time_eq, time_ok, time_ops, run_ops]
    · simp [ht, ha, parse_time_eq, time_ok, time_ops, run_ops]
  · simp [ht, time_ops, run_ops]

theorem parse_weather_child_eq (p : xmlNode) (S : List xml_time) :
    parse_weather_child p S =
      if product_ok p then some (run_ops (product_ops p) S) else none := by
  unfold parse_weather_child product_ok product_ops product_selected
  by_cases h1 : p.type = xmlElementType.XML_ELEMENT_NODE
  · by_cases h2 : NODE_IS_TYPE p "product" = true
    · by_cases h3 : xmlStrcasecmp (PROP p "class") (some "pointData") = 0
      · have h := foldlM_uniform
          (fun ts c => if NODE_IS_TYPE c "time" then parse_time c ts else some ts)
          (fun c => !(NODE_IS_TYPE c "time") || time_ok c)
          (fun ts c => run_ops (time_ops c) ts)
          (fun x c => parse_time_step_eq c x) p.children S
        simp only [h1, h2, h3, h, run_ops_flatten]
        simp
      · simp [h1, h2, h3, run_ops]
    · simp [h1, h2, run_ops]
  · simp [h1, run_ops]

theorem parse_weather_eq (root : xmlNode) (wd : xml_weather) :
    parse_weather root wd =
      if NODE_IS_TYPE root "weatherdata" then
        (if doc_ok root then
          some { wd with timeslices := some (run_ops (doc_ops root) (slices wd)) }
         else none)
      else some wd := by
  unfold parse_weather doc_ok doc_ops
  by_cases h1 : NODE_IS_TYPE root "weatherdata" = true
  · have h := foldlM_uniform (fun ts c => parse_weather_child c ts) product_ok
      (fun ts c => run_ops (product_ops c) ts)
      (fun x c => parse_weather_child_eq c x) root.children
    simp only [h1, h, run_ops_flatten]
    by_cases hok : root.children.all product_ok = true
    · simp [hok, slices]
    · simp [hok]
  · simp [h1]


/-! ### Keys -/

theorem hits_iff (o : MergeOp) (x : xml_time) :
    o.hits x = true ↔ key x = (o.1, o.2.1) := by
  simp [MergeOp.hits, key, Prod.ext_iff]

theorem hits_congr (o : MergeOp) {x y : xml_time} (h : key x = key y) :
    o.hits x = o.hits y := by
  simp only [MergeOp.hits, key, Prod.mk.injEq] at *
  simp [h.1, h.2]

theorem upsert_keys (o : MergeOp) (S : List xml_time) :
    (upsert o S).map key =
      if (o.1, o.2.1) ∈ S.map key then S.map key else S.map key ++ [(o.1, o.2.1)] := by
  induction S with
  | nil => simp [upsert, key]
  | cons x xs ih =>
    cases hx : o.hits x with
    | true =>
      have hk := (hits_iff o x).1 hx
      have hm : (o.1, o.2.1) ∈ List.map key (x :: xs) := by
        rw [List.map_cons, ← hk]; exact List.mem_cons_self _ _
      rw [if_pos hm]
      simp [upsert, hx, key]
    | false =>
      have hk : ¬ (o.1, o.2.1) = key x := by
        intro h
        have := (hits_iff o x).2 h.symm
        rw [hx] at this
        cases this
      have hu : upsert o (x :: xs) = x :: upsert o xs := by simp [upsert, hx]
      rw [hu, List.map_cons, ih, List.map_cons]
      by_cases hm : (o.1, o.2.1) ∈ List.map key xs
      · rw [if_pos hm, if_pos (List.mem_cons_of_mem _ hm)]
      · have hm2 : ¬ (o.1, o.2.1) ∈ key x :: List.map key xs := by
          intro h
          rcases List.mem_cons.1 h with h | h
          · exact hk h
          · exact hm h
        rw [if_neg hm, if_neg hm2]
        rfl

theorem upsert_nodup (o : MergeOp) (S : List xml_time) (h : (S.map key).Nodup) :
    ((upsert o S).map key).Nodup := by
  rw [upsert_keys]
  split
  · exact h
  · rename_i hn
    exact List.Nodup.append h (List.nodup_singleton _) (by simpa using hn)

theorem run_ops_nodup (ops : List MergeOp) :
    ∀ S : List xml_time, (S.map key).Nodup → ((run_ops ops S).map key).Nodup := by
  induction ops with
  | nil => intro S h; simpa [run_ops] using h
  | cons o rest ih =>
    intro S h
    simp only [run_ops, List.foldl_cons]
    exact ih _ (upsert_nodup o S h)

theorem parse_weather_nodup (d : xmlNode) (wd wd1 : xml_weather)
    (h : ((slices wd).map key).Nodup) (h1 : parse_weather d wd = some wd1) :
    ((slices wd1).map key).Nodup := by
  rw [parse_weather_eq] at h1
  by_cases hr : NODE_IS_TYPE d "weatherdata" = true
  · by_cases hok : doc_ok d = true
    · simp only [hr, hok, if_true, Option.some.injEq] at h1
      subst h1
      exact run_ops_nodup _ _ h
    · simp [hr, hok] at h1
  · simp only [hr] at h1
    simp only [Bool.false_eq_true, if_false, Option.some.injEq] at h1
    subst h1
    exact h

theorem parse_weather_isSome (d : xmlNode) (wd : xml_weather) (h : doc_ok d = true) :
    (parse_weather d wd).isSome = true := by
  rw [parse_weather_eq]
  split <;> simp [h]

theorem parse_all_nodup (docs : List xmlNode) :
    ∀ wd0 wd : xml_weather, ((slices wd0).map key).Nodup →
      docs.foldlM (fun w d => parse_weather d w) wd0 = some wd →
      ((slices wd).map key).Nodup := by
  induction docs with
  | nil =>
    intro wd0 wd h0 h
    simp only [List.foldlM_nil] at h
    cases h
    exact h0
  | cons d ds ih =>
    intro wd0 wd h0 h
    simp only [List.foldlM_cons] at h
    cases h1 : parse_weather d wd0 with
    | none => simp [h1] at h
    | some w1 =>
      rw [h1] at h
      exact ih w1 wd (parse_weather_nodup d wd0 w1 h0 h1) h

theorem parse_all_isSome (docs : List xmlNode) :
    ∀ wd0 : xml_weather, (∀ d ∈ docs, doc_ok d = true) →
      (docs.foldlM (fun w d => parse_weather d w) wd0).isSome = true := by
  induction docs with
  | nil => intro wd0 _; simp
  | cons d ds ih =>
    intro wd0 h
    simp only [List.foldlM_cons]
    have h1 := parse_weather_isSome d wd0 (h d (List.mem_cons_self _ _))
    cases h2 : parse_weather d wd0 with
    | none => simp [h2] at h1
    | some w1 =>
      exact ih w1 (fun d hd => h d (List.mem_cons_of_mem _ hd))

theorem pairwise_of_nodup_keys (S : List xml_time) (h : (S.map key).Nodup) :
    S.Pairwise (fun a b => ¬ (a.start = b.start ∧ a.«end» = b.«end»)) := by
  have h2 := List.pairwise_map.1 h
  refine h2.imp ?_
  intro a b hab hk
  exact hab (by simp [key, hk.1, hk.2])

/-- C1. Key uniqueness: for every finite sequence of forecast documents
applied with `parse_weather` to a store that starts without timeslices, no two
stored timeslices have the same start and end; the sequence is parsed to the
end unless a document makes `parse_location` read a missing `number`. -/
theorem C1_key_uniqueness (docs : List xmlNode) (wd0 : xml_weather)
    (h0 : slices wd0 = []) :
    (∀ wd, docs.foldlM (fun w d => parse_weather d w) wd0 = some wd →
      (slices wd).Pairwise (fun a b => ¬ (a.start = b.start ∧ a.«end» = b.«end»))) ∧
    ((∀ d ∈ docs, doc_ok d = true) →
      (docs.foldlM (fun w d => parse_weather d w) wd0).isSome = true) := by
  refine ⟨?_, parse_all_isSome docs wd0⟩
  intro wd h
  exact pairwise_of_nodup_keys _ (parse_all_nodup docs wd0 wd (by simp [h0]) h)

/-! ### Field-wise overwrites -/

theorem location_eq_of_fields {a b : xml_location}
    (h : ∀ f ∈ string_fields, f a = f b) (hs : a.symbol_id = b.symbol_id) : a = b := by
  simp only [string_fields, List.mem_cons, List.mem_singleton, forall_eq_or_imp,
    forall_eq, List.not_mem_nil, false_implies, implies_true, and_true] at h
  obtain ⟨h1, h2, h3, h4, h5, h6, h7, h8, h9, h10, h11, h12, h13, h14, h15, h16, h17,
    h18, h19, h20, h21⟩ := h
  apply xml_location.ext <;> assumption

theorem or_mix {β : Type} {a b c d e : β} (h1 : a = b ∨ a = c) (h2 : b = d ∨ b = e)
    (h3 : c = e ∨ c = a) : a = d ∨ a = c := by
  rcases h1 with h1 | h1
  · rcases h2 with h2 | h2
    · exact Or.inl (h1.trans h2)
    · rcases h3 with h3 | h3
      · exact Or.inr ((h1.trans h2).trans h3.symm)
      · exact Or.inr h3.symm
  · exact Or.inr h1

theorem mix_comp {a b c d e : xml_location} (h1 : Mix a b c) (h2 : Mix b d e)
    (h3 : Mix c e a) : Mix a d c :=
  ⟨fun f hf => or_mix (h1.1 f hf) (h2.1 f hf) (h3.1 f hf), or_mix h1.2 h2.2 h3.2⟩

theorem overwrite_id : Overwrite (fun l => l) :=
  fun _ _ => ⟨fun _ _ => Or.inl rfl, Or.inl rfl⟩

theorem overwrite_comp {g h : xml_location → xml_location} (hg : Overwrite g)
    (hh : Overwrite h) : Overwrite (fun l => g (h l)) :=
  fun x y => mix_comp (hg (h x) (h y)) (hh x y) (hg (h y) (h x))

theorem overwrite_idem {g : xml_location → xml_location} (hg : Overwrite g)
    (x : xml_location) : g (g x) = g x := by
  have h := hg (g x) x
  exact location_eq_of_fields (fun f hf => (h.1 f hf).elim (fun e => e) (fun e => e))
    (h.2.elim (fun e => e) (fun e => e))

theorem overwrite_ite {g : xml_location → xml_location} (hg : Overwrite g) (b : Bool) :
    Overwrite (fun l => if b then g l else l) := by
  cases b
  · exact overwrite_id
  · exact hg

theorem overwrite_foldl {β : Type} (g : β → xml_location → xml_location)
    (cs : List β) (hg : ∀ c ∈ cs, Overwrite (g c)) :
    Overwrite (fun l => cs.foldl (fun l c => g c l) l) := by
  induction cs with
  | nil => exact overwrite_id
  | cons c cs ih =>
    simp only [List.foldl_cons]
    exact overwrite_comp (g := fun l => cs.foldl (fun l c => g c l) l)
      (ih (fun c hc => hg c (List.mem_cons_of_mem _ hc)))
      (hg c (List.mem_cons_self _ _))

theorem overwrite_child_pure (c : xmlNode) : Overwrite (child_pure c) := by
  intro x y
  unfold Weather.child_pure parse_location_child NODE_IS_TYPE
  by_cases h1 : c.name = "temperature"
  · simp [h1, Mix, string_fields]
  by_cases h2 : c.name = "windDirection"
  · simp [h2, Mix, string_fields]
  by_cases h3 : c.name = "windSpeed"
  · simp [h3, Mix, string_fields]
  by_cases h4 : c.name = "humidity"
  · simp [h4, Mix, string_fields]
  by_cases h5 : c.name = "pressure"
  · simp [h5, Mix, string_fields]
  by_cases h6 : c.name = "cloudiness"
  · simp [h6, Mix, string_fields]
  by_cases h7 : c.name = "fog"
  · simp [h7, Mix, string_fields]
  by_cases h8 : c.name = "lowClouds"
  · simp [h8, Mix, string_fields]
  by_cases h9 : c.name = "mediumClouds"
  · simp [h9, Mix, string_fields]
  by_cases h10 : c.name = "highClouds"
  · simp [h10, Mix, string_fields]
  by_cases h11 : c.name = "precipitation"
  · simp [h11, Mix, string_fields]
  by_cases h12 : c.name = "symbol"
  · cases hn : PROP c "number" <;> simp [h12, hn, Mix, string_fields]
  · simp [h1, h2, h3, h4, h5, h6, h7, h8, h9, h10, h11, h12, Mix, string_fields]


theorem location_pure_eq (n : xmlNode) (loc : xml_location) :
    location_pure n loc =
      if location_ok n then
        n.children.foldl (fun l c => child_pure c l)
          { loc with altitude := PROP n "altitude", latitude := PROP n "latitude",
                     longitude := PROP n "longitude" }
      else loc := by
  have h := foldlM_uniform (fun l c => parse_location_child c l) child_ok
    (fun l c => child_pure c l) (fun x c => parse_location_child_eq c x) n.children
  unfold location_pure parse_location location_ok
  simp only [h]
  split <;> simp

theorem overwrite_location_pure (n : xmlNode) : Overwrite (location_pure n) := by
  have hset : Overwrite (fun loc : xml_location =>
      { loc with altitude := PROP n "altitude", latitude := PROP n "latitude",
                 longitude := PROP n "longitude" }) := by
    intro x y
    simp [Mix, string_fields]
  have hfold := overwrite_foldl (fun c l => child_pure c l) n.children
    (fun c _ => overwrite_child_pure c)
  have h := overwrite_ite (overwrite_comp hfold hset) (location_ok n)
  have e : location_pure n = fun l => if location_ok n = true then
      (fun l => n.children.foldl (fun l c => child_pure c l) l)
        ((fun loc : xml_location =>
          { loc with altitude := PROP n "altitude", latitude := PROP n "latitude",
                     longitude := PROP n "longitude" }) l) else l := by
    funext l
    exact location_pure_eq n l
  rw [e]
  exact h

theorem locations_pure_eq (t : xmlNode) (loc : xml_location) :
    locations_pure t loc =
      if locations_ok t then
        t.children.foldl
          (fun l c => if NODE_IS_TYPE c "location" then location_pure c l else l) loc
      else loc := by
  have h := foldlM_uniform
    (fun l c => if NODE_IS_TYPE c "location" then parse_location c l else some l)
    (fun c => !(NODE_IS_TYPE c "location") || location_ok c)
    (fun l c => if NODE_IS_TYPE c "location" then location_pure c l else l)
    (by
      intro x c
      by_cases hl : NODE_IS_TYPE c "location" = true
      · simp [hl, parse_location_eq]
      · simp [hl]) t.children
  unfold locations_pure locations_ok parse_time_locations
  simp only [h]
  split <;> simp

theorem overwrite_locations_pure (t : xmlNode) : Overwrite (locations_pure t) := by
  have hfold := overwrite_foldl
    (fun c l => if NODE_IS_TYPE c "location" then location_pure c l else l) t.children
    (fun c _ => overwrite_ite (overwrite_location_pure c) (NODE_IS_TYPE c "location"))
  have h := overwrite_ite hfold (locations_ok t)
  have e : locations_pure t = fun l => if locations_ok t = true then
      (fun l => t.children.foldl
        (fun l c => if NODE_IS_TYPE c "location" then location_pure c l else l) l) l
      else l := by
    funext l
    exact locations_pure_eq t l
  rw [e]
  exact h

theorem time_ops_overwrite (t : xmlNode) : ∀ o ∈ time_ops t, Overwrite o.2.2 := by
  intro o ho
  unfold time_ops at ho
  split at ho
  · simp only [List.mem_singleton] at ho
    subst ho
    exact overwrite_locations_pure t
  · cases ho

theorem product_ops_overwrite (p : xmlNode) : ∀ o ∈ product_ops p, Overwrite o.2.2 := by
  intro o ho
  unfold product_ops at ho
  split at ho
  · simp only [List.mem_flatten, List.mem_map] at ho
    obtain ⟨l, ⟨t, _, rfl⟩, hol⟩ := ho
    exact time_ops_overwrite t o hol
  · cases ho

theorem doc_ops_overwrite (root : xmlNode) : ∀ o ∈ doc_ops root, Overwrite o.2.2 := by
  intro o ho
  unfold doc_ops at ho
  split at ho
  · simp only [List.mem_flatten, List.mem_map] at ho
    obtain ⟨l, ⟨p, _, rfl⟩, hol⟩ := ho
    exact product_ops_overwrite p o hol
  · cases ho

/-! ### Merging a list of operations -/

theorem apply_ops_key (ops : List MergeOp) : ∀ x, key (apply_ops ops x) = key x := by
  induction ops with
  | nil => intro x; rfl
  | cons o rest ih =>
    intro x
    simp only [apply_ops, List.foldl_cons]
    split
    · exact ih _
    · exact ih _

theorem apply_ops_eq (ops : List MergeOp) :
    ∀ x, apply_ops ops x =
      { x with location :=
          (ops.filter fun o => o.hits x).foldl (fun l o => o.2.2 l) x.location } := by
  induction ops with
  | nil => intro x; rfl
  | cons o rest ih =>
    intro x
    cases hx : o.hits x with
    | true =>
      have e : apply_ops (o :: rest) x =
          apply_ops rest { x with location := o.2.2 x.location } := by
        simp [apply_ops, hx]
      have hc : ∀ o2 : MergeOp,
          o2.hits { x with location := o.2.2 x.location } = o2.hits x :=
        fun o2 => hits_congr o2 rfl
      rw [e, ih]
      simp [hc, hx, List.filter_cons]
    | false =>
      have e : apply_ops (o :: rest) x = apply_ops rest x := by
        simp [apply_ops, hx]
      rw [e, ih]
      simp [hx, List.filter_cons]

theorem apply_ops_idem (ops : List MergeOp) (h : ∀ o ∈ ops, Overwrite o.2.2)
    (x : xml_time) : apply_ops ops (apply_ops ops x) = apply_ops ops x := by
  have hk := apply_ops_key ops x
  have hf : (ops.filter fun o => o.hits (apply_ops ops x)) = ops.filter fun o => o.hits x := by
    congr 1
    funext o
    exact hits_congr o hk
  have how := overwrite_foldl (fun (o : MergeOp) l => o.2.2 l) (ops.filter fun o => o.hits x)
    (fun o ho => h o (List.mem_of_mem_filter ho))
  rw [apply_ops_eq ops (apply_ops ops x), hf]
  rw [apply_ops_eq ops x]
  simp only
  rw [overwrite_idem how]

theorem run_ops_cons (ops : List MergeOp) :
    ∀ (x : xml_time) (xs : List xml_time),
      run_ops ops (x :: xs) =
        apply_ops ops x :: run_ops (ops.filter fun o => !o.hits x) xs := by
  induction ops with
  | nil => intro x xs; rfl
  | cons o rest ih =>
    intro x xs
    cases hx : o.hits x with
    | true =>
      have e : run_ops (o :: rest) (x :: xs) =
          run_ops rest ({ x with location := o.2.2 x.location } :: xs) := by
        simp [run_ops, upsert, hx]
      have hc : ∀ o2 : MergeOp,
          o2.hits { x with location := o.2.2 x.location } = o2.hits x :=
        fun o2 => hits_congr o2 rfl
      rw [e, ih]
      simp [hc, hx, List.filter_cons, apply_ops]
    | false =>
      have e : run_ops (o :: rest) (x :: xs) = run_ops rest (x :: upsert o xs) := by
        simp [run_ops, upsert, hx]
      rw [e, ih]
      simp [hx, List.filter_cons, apply_ops, run_ops]

theorem run_ops_nil_cons (o : MergeOp) (rest : List MergeOp) :
    run_ops (o :: rest) [] =
      apply_ops (o :: rest) { start := o.1, «end» := o.2.1, point := 0,
                              location := xml_location_new0 } ::
        run_ops (rest.filter fun o2 => !o2.hits
          { start := o.1, «end» := o.2.1, point := 0, location := xml_location_new0 }) [] := by
  have e : run_ops (o :: rest) [] =
      run_ops rest [{ start := o.1, «end» := o.2.1, point := 0,
                      location := o.2.2 xml_location_new0 }] := by
    simp [run_ops, upsert]
  have hc : ∀ o2 : MergeOp,
      o2.hits { start := o.1, «end» := o.2.1, point := 0,
                location := o.2.2 xml_location_new0 } =
      o2.hits { start := o.1, «end» := o.2.1, point := 0, location := xml_location_new0 } :=
    fun o2 => hits_congr o2 rfl
  have ho : o.hits { start := o.1, «end» := o.2.1, point := 0,
                     location := xml_location_new0 } = true := by
    simp [MergeOp.hits]
  rw [e, run_ops_cons]
  simp [hc, apply_ops, ho]

theorem run_ops_idem_aux : ∀ (n : Nat) (ops : List MergeOp) (S : List xml_time),
    ops.length + S.length ≤ n → (∀ o ∈ ops, Overwrite o.2.2) →
    run_ops ops (run_ops ops S) = run_ops ops S := by
  intro n
  induction n with
  | zero =>
    intro ops S hn _
    have h1 : ops = [] := List.eq_nil_of_length_eq_zero (by omega)
    subst h1
    rfl
  | succ n ih =>
    intro ops S hn how
    cases S with
    | nil =>
      cases ops with
      | nil => rfl
      | cons o rest =>
        rw [run_ops_nil_cons, run_ops_cons]
        have hk := apply_ops_key (o :: rest)
          { start := o.1, «end» := o.2.1, point := 0, location := xml_location_new0 }
        have hf : ((o :: rest).filter fun o2 => !o2.hits (apply_ops (o :: rest)
              { start := o.1, «end» := o.2.1, point := 0, location := xml_location_new0 })) =
            rest.filter fun o2 => !o2.hits
              { start := o.1, «end» := o.2.1, point := 0, location := xml_location_new0 } := by
          have hc : ∀ o2 : MergeOp, o2.hits (apply_ops (o :: rest)
              { start := o.1, «end» := o.2.1, point := 0, location := xml_location_new0 }) =
              o2.hits { start := o.1, «end» := o.2.1, point := 0,
                        location := xml_location_new0 } :=
            fun o2 => hits_congr o2 hk
          have ho : o.hits { start := o.1, «end» := o.2.1, point := 0,
                             location := xml_location_new0 } = true := by
            simp [MergeOp.hits]
          simp only [hc]
          rw [List.filter_cons]
          simp [ho]
        rw [hf, apply_ops_idem _ how]
        congr 1
        apply ih
        · have := List.length_filter_le (fun o2 : MergeOp => !o2.hits
            { start := o.1, «end» := o.2.1, point := 0, location := xml_location_new0 }) rest
          simp only [List.length_cons, List.length_nil] at hn ⊢
          omega
        · intro o2 ho2
          exact how o2 (List.mem_cons_of_mem _ (List.mem_of_mem_filter ho2))
    | cons x xs =>
      rw [run_ops_cons, run_ops_cons]
      have hk := apply_ops_key ops x
      have hf : (ops.filter fun o2 => !o2.hits (apply_ops ops x)) =
          ops.filter fun o2 => !o2.hits x := by
        congr 1
        funext o2
        rw [hits_congr o2 hk]
      rw [hf, apply_ops_idem _ how]
      congr 1
      apply ih
      · have := List.length_filter_le (fun o2 : MergeOp => !o2.hits x) ops
        simp only [List.length_cons] at hn
        omega
      · intro o2 ho2
        exact how o2 (List.mem_of_mem_filter ho2)

theorem run_ops_idem (ops : List MergeOp) (S : List xml_time)
    (h : ∀ o ∈ ops, Overwrite o.2.2) : run_ops ops (run_ops ops S) = run_ops ops S :=
  run_ops_idem_aux _ ops S (Nat.le_refl _) h

/-- C2. Merge idempotence: for every store and every forecast document,
applying `parse_weather` with the document to the result of applying it once
gives that same result (same timeslices in the same order with the same
attribute values); when the first application fails, so does the pair. -/
theorem C2_merge_idempotence (d : xmlNode) (wd : xml_weather) :
    (parse_weather d wd).bind (parse_weather d) = parse_weather d wd := by
  by_cases hr : NODE_IS_TYPE d "weatherdata" = true
  · by_cases hok : doc_ok d = true
    · simp [parse_weather_eq, hr, hok, slices, run_ops_idem _ _ (doc_ops_overwrite d)]
    · simp [parse_weather_eq, hr, hok]
  · simp [parse_weather_eq, hr]

/-- Witness of C1 on two documents with the same time element. -/
theorem C1_key_uniqueness_witness :
    slices empty_store = [] ∧
    ((∀ wd, [example_doc "5.0", example_doc "6.0"].foldlM
        (fun w d => parse_weather d w) empty_store = some wd →
      (slices wd).Pairwise (fun a b => ¬ (a.start = b.start ∧ a.«end» = b.«end»))) ∧
    ((∀ d ∈ [example_doc "5.0", example_doc "6.0"], doc_ok d = true) →
      ([example_doc "5.0", example_doc "6.0"].foldlM
        (fun w d => parse_weather d w) empty_store).isSome = true)) :=
  ⟨rfl, C1_key_uniqueness [example_doc "5.0", example_doc "6.0"] empty_store rfl⟩

/-! ### `parse_time` as an upsert -/

theorem with_location_at_eq (F : xml_location → Option xml_location) :
    ∀ (S : List xml_time) (i : Nat),
      with_location_at F i S =
        match S[i]? with
        | some x => (F x.location).map fun l => S.set i { x with location := l }
        | none => some S := by
  intro S
  induction S with
  | nil => intro i; simp [with_location_at]
  | cons x xs ih =>
    intro i
    cases i with
    | zero => simp [with_location_at]
    | succ i =>
      simp only [with_location_at, ih, List.getElem?_cons_succ, List.set_cons_succ]
      cases xs[i]? with
      | none => simp
      | some y => cases hF : F y.location <;> simp [hF]

theorem get_timeslice_some (s e : Int) :
    ∀ (S : List xml_time) (i : Nat), get_timeslice S s e = some i →
      ∃ x, S[i]? = some x ∧ x.start = s ∧ x.«end» = e := by
  intro S
  induction S with
  | nil => intro i h; simp [get_timeslice, get_timeslice_from] at h
  | cons x xs ih =>
    intro i h
    rw [get_timeslice_cons] at h
    by_cases hx : x.start = s ∧ x.«end» = e
    · simp only [hx, and_self, if_true, Option.some.injEq] at h
      subst h
      exact ⟨x, by simp, hx.1, hx.2⟩
    · simp only [hx, if_false, Option.map_eq_some'] at h
      obtain ⟨j, hj, rfl⟩ := h
      obtain ⟨y, hy, hk⟩ := ih j hj
      exact ⟨y, by simpa using hy, hk⟩

theorem get_timeslice_none (s e : Int) :
    ∀ (S : List xml_time), get_timeslice S s e = none →
      ∀ x ∈ S, ¬ (x.start = s ∧ x.«end» = e) := by
  intro S
  induction S with
  | nil => intro _ x hx; cases hx
  | cons y ys ih =>
    intro h x hx
    rw [get_timeslice_cons] at h
    by_cases hy : y.start = s ∧ y.«end» = e
    · simp [hy] at h
    · simp only [hy, if_false, Option.map_eq_none'] at h
      rcases List.mem_cons.1 hx with rfl | hx
      · exact hy
      · exact ih h x hx

/-! ### The field-wise effect of a time element -/

theorem carried_cons {β : Type} (name : String) (value : xmlNode → β) (c : xmlNode)
    (cs : List xmlNode) (stored : β) :
    carried name value (c :: cs) stored =
      carried name value cs (if NODE_IS_TYPE c name then value c else stored) := by
  unfold carried
  simp only [last_named]
  cases last_named name cs with
  | some e => rfl
  | none => cases NODE_IS_TYPE c name <;> rfl

theorem carried_append {β : Type} (name : String) (value : xmlNode → β)
    (a b : List xmlNode) (stored : β) :
    carried name value (a ++ b) stored = carried name value b (carried name value a stored) := by
  induction a generalizing stored with
  | nil => rfl
  | cons c cs ih => rw [List.cons_append, carried_cons, ih, carried_cons]

theorem carried_nil {β : Type} (name : String) (value : xmlNode → β) (stored : β) :
    carried name value [] stored = stored := rfl

theorem merged_fields_nil (loc : xml_location) : merged_fields [] loc = loc := rfl

theorem merged_fields_append (a b : List xmlNode) (loc : xml_location) :
    merged_fields (a ++ b) loc = merged_fields b (merged_fields a loc) := by
  simp only [merged_fields, carried_append]

theorem child_pure_other (c : xmlNode) (loc : xml_location)
    (h1 : ¬ c.name = "temperature") (h2 : ¬ c.name = "windDirection")
    (h3 : ¬ c.name = "windSpeed") (h4 : ¬ c.name = "humidity") (h5 : ¬ c.name = "pressure")
    (h6 : ¬ c.name = "cloudiness") (h7 : ¬ c.name = "fog") (h8 : ¬ c.name = "lowClouds")
    (h9 : ¬ c.name = "mediumClouds") (h10 : ¬ c.name = "highClouds")
    (h11 : ¬ c.name = "precipitation") (h12 : ¬ c.name = "symbol") :
    child_pure c loc = merged_fields [c] loc := by
  cases loc
  unfold Weather.child_pure parse_location_child merged_fields
  simp only [carried_cons, carried_nil]
  unfold NODE_IS_TYPE
  simp only [h1, h2, h3, h4, h5, h6, h7, h8, h9, h10, h11, h12, decide_False,
    Bool.false_eq_true, if_false, Option.getD_some]

theorem child_pure_symbol (c : xmlNode) (loc : xml_location) (number : String)
    (h : c.name = "symbol") (hn : PROP c "number" = some number) :
    child_pure c loc = merged_fields [c] loc := by
  cases loc
  unfold Weather.child_pure parse_location_child merged_fields symbol_number
  simp only [carried_cons, carried_nil]
  unfold NODE_IS_TYPE
  simp [h, hn]

theorem child_pure_element (c : xmlNode) (loc : xml_location) (name : String)
    (hname : name ∈ ["temperature", "windDirection", "windSpeed", "humidity", "pressure",
      "cloudiness", "fog", "lowClouds", "mediumClouds", "highClouds", "precipitation"])
    (h : c.name = name) :
    child_pure c loc = merged_fields [c] loc := by
  cases loc
  unfold Weather.child_pure parse_location_child merged_fields
  simp only [carried_cons, carried_nil]
  unfold NODE_IS_TYPE
  simp only [List.mem_cons, List.mem_singleton, List.not_mem_nil, or_false] at hname
  rcases hname with r | r | r | r | r | r | r | r | r | r | r <;> subst r <;> simp [h]

theorem child_pure_eq (c : xmlNode) (loc : xml_location) (hok : child_ok c = true) :
    child_pure c loc = merged_fields [c] loc := by
  by_cases h1 : c.name = "temperature"
  · exact child_pure_element c loc _ (by simp) h1
  by_cases h2 : c.name = "windDirection"
  · exact child_pure_element c loc _ (by simp) h2
  by_cases h3 : c.name = "windSpeed"
  · exact child_pure_element c loc _ (by simp) h3
  by_cases h4 : c.name = "humidity"
  · exact child_pure_element c loc _ (by simp) h4
  by_cases h5 : c.name = "pressure"
  · exact child_pure_element c loc _ (by simp) h5
  by_cases h6 : c.name = "cloudiness"
  · exact child_pure_element c loc _ (by simp) h6
  by_cases h7 : c.name = "fog"
  · exact child_pure_element c loc _ (by simp) h7
  by_cases h8 : c.name = "lowClouds"
  · exact child_pure_element c loc _ (by simp) h8
  by_cases h9 : c.name = "mediumClouds"
  · exact child_pure_element c loc _ (by simp) h9
  by_cases h10 : c.name = "highClouds"
  · exact child_pure_element c loc _ (by simp) h10
  by_cases h11 : c.name = "precipitation"
  · exact child_pure_element c loc _ (by simp) h11
  by_cases h12 : c.name = "symbol"
  · cases hn : PROP c "number" with
    | none => simp [child_ok, NODE_IS_TYPE, h12, hn] at hok
    | some number => exact child_pure_symbol c loc number h12 hn
  · exact child_pure_other c loc h1 h2 h3 h4 h5 h6 h7 h8 h9 h10 h11 h12

theorem foldl_child_pure (cs : List xmlNode) :
    ∀ loc : xml_location, cs.all child_ok = true →
      cs.foldl (fun l c => child_pure c l) loc = merged_fields cs loc := by
  induction cs with
  | nil => intro loc _; rfl
  | cons c cs ih =>
    intro loc hok
    simp only [List.all_cons, Bool.and_eq_true] at hok
    rw [List.foldl_cons, ih _ hok.2, child_pure_eq c loc hok.1, ← merged_fields_append]
    rfl

theorem merged_location_cons (c : xmlNode) (cs : List xmlNode) (loc : xml_location) :
    merged_location (c :: cs) loc =
      merged_location cs
        (if NODE_IS_TYPE c "location" then
          merged_fields c.children
            { loc with altitude := PROP c "altitude", latitude := PROP c "latitude",
                       longitude := PROP c "longitude" }
         else loc) := by
  cases hl : NODE_IS_TYPE c "location"
  · simp only [merged_location, location_elements, List.filter_cons, hl, carried_cons,
      Bool.false_eq_true, if_false]
  · simp only [merged_location, location_elements, List.filter_cons, hl, carried_cons,
      if_true, List.map_cons, List.flatten_cons, merged_fields_append]
    simp only [merged_fields]

theorem foldl_location_pure (cs : List xmlNode) :
    ∀ loc : xml_location,
      (cs.all fun c => !(NODE_IS_TYPE c "location") || location_ok c) = true →
      cs.foldl (fun l c => if NODE_IS_TYPE c "location" then location_pure c l else l) loc =
        merged_location cs loc := by
  induction cs with
  | nil => intro loc _; rfl
  | cons c cs ih =>
    intro loc hok
    simp only [List.all_cons, Bool.and_eq_true] at hok
    rw [List.foldl_cons, ih _ hok.2, merged_location_cons]
    cases hl : NODE_IS_TYPE c "location"
    · rfl
    · have hc : location_ok c = true := by simpa [hl] using hok.1
      simp only [if_true]
      rw [location_pure_eq, if_pos hc, foldl_child_pure _ _ (by simpa [location_ok] using hc)]

theorem parse_time_locations_merged (t : xmlNode) (loc : xml_location) :
    parse_time_locations t loc =
      if locations_ok t then some (merged_location t.children loc) else none := by
  rw [parse_time_locations_eq]
  by_cases h : locations_ok t = true
  · rw [if_pos h, if_pos h, locations_pure_eq, if_pos h,
      foldl_location_pure _ _ (by simpa [locations_ok] using h)]
  · rw [if_neg h, if_neg h]

theorem carried_or {β : Type} (name : String) (value : xmlNode → β) (nodes : List xmlNode)
    (stored fresh : β) :
    carried name value nodes stored = stored ∨
      carried name value nodes stored = carried name value nodes fresh := by
  unfold carried
  cases last_named name nodes with
  | some e => exact Or.inr rfl
  | none => exact Or.inl rfl

theorem merged_location_mix (children : List xmlNode) (loc : xml_location) :
    Mix (merged_location children loc) loc (merged_location children xml_location_new0) := by
  refine ⟨?_, carried_or _ _ _ _ _⟩
  intro f hf
  simp only [string_fields, List.mem_cons, List.mem_singleton, List.not_mem_nil, or_false] at hf
  rcases hf with r | r | r | r | r | r | r | r | r | r | r | r | r | r | r | r | r | r | r |
    r | r <;> subst r <;> exact carried_or _ _ _ _ _

/-- C3 (as amended). Upsert: for every store and every forecast `time` element
with non-zero `from` and `to`, if the store holds a timeslice with that start
and end then `parse_time` keeps the number of timeslices and parses the
location children of the element into the attributes of that timeslice:
altitude, latitude and longitude become those of the last `location` child,
the fields of every element kind present below a `location` child become those
of the last element of that kind, and every other field keeps its stored
value, so that each field has its stored value or the value it has after
parsing the element into a fresh timeslice. Otherwise `parse_time` appends
exactly one timeslice with that key whose attributes are those obtained by
parsing the element into a fresh timeslice. In both cases `parse_time`
returns unless a `symbol` element below a `location` child has no `number`. -/
theorem C3_upsert_merges (t : xmlNode) (S : List xml_time)
    (h : time_accepted t = true) :
    match get_timeslice S (parse_xml_timestring (PROP t "from"))
        (parse_xml_timestring (PROP t "to")) with
    | some i =>
      ∃ x, S[i]? = some x ∧ x.start = parse_xml_timestring (PROP t "from") ∧
        x.«end» = parse_xml_timestring (PROP t "to") ∧
        parse_time t S =
          (parse_time_locations t x.location).map (fun l =>
            S.set i { x with location := l }) ∧
        parse_time t S =
          (if locations_ok t then
            some (S.set i { x with location := merged_location t.children x.location })
          else none) ∧
        (S.set i { x with location := merged_location t.children x.location }).length =
          S.length ∧
        Mix (merged_location t.children x.location) x.location
          (merged_location t.children xml_location_new0)
    | none =>
      (∀ x ∈ S, ¬ (x.start = parse_xml_timestring (PROP t "from") ∧
          x.«end» = parse_xml_timestring (PROP t "to"))) ∧
      parse_time t S =
        (parse_time_locations t xml_location_new0).map (fun l =>
          S ++ [{ start := parse_xml_timestring (PROP t "from"),
                  «end» := parse_xml_timestring (PROP t "to"),
                  point := 0, location := l }]) ∧
      parse_time t S =
        (if locations_ok t then
          some (S ++ [{ start := parse_xml_timestring (PROP t "from"),
                        «end» := parse_xml_timestring (PROP t "to"),
                        point := 0,
                        location := merged_location t.children xml_location_new0 }])
        else none) := by
  simp only [time_accepted, Bool.and_eq_true, decide_eq_true_eq, Bool.not_eq_true',
    decide_eq_false_iff_not] at h
  obtain ⟨h1, h2⟩ := h
  cases hg : get_timeslice S (parse_xml_timestring (PROP t "from"))
      (parse_xml_timestring (PROP t "to")) with
  | some i =>
    obtain ⟨x, hx, hs, he⟩ := get_timeslice_some _ _ S i hg
    have hp : parse_time t S =
        (parse_time_locations t x.location).map (fun l =>
          S.set i { x with location := l }) := by
      unfold parse_time
      simp only [h1, h2, hg, ne_eq, not_true_eq_false, if_false, with_location_at_eq, hx]
    refine ⟨x, hx, hs, he, hp, ?_, List.length_set _ _ _, merged_location_mix _ _⟩
    rw [hp, parse_time_locations_merged]
    split <;> rfl
  | none =>
    have hp : parse_time t S =
        (parse_time_locations t xml_location_new0).map (fun l =>
          S ++ [{ start := parse_xml_timestring (PROP t "from"),
                  «end» := parse_xml_timestring (PROP t "to"),
                  point := 0, location := l }]) := by
      unfold parse_time
      simp only [h1, h2, hg, ne_eq, not_true_eq_false, if_false, with_location_at_eq]
      simp [make_timeslice]
    refine ⟨get_timeslice_none _ _ S hg, hp, ?_⟩
    rw [hp, parse_time_locations_merged]
    split <;> rfl

/-- Witness of C3 on a store that holds the key of the element with a
humidity: the element carries a temperature, and afterwards the timeslice has
both. -/
theorem C3_upsert_merges_witness :
    time_accepted (example_time [example_temperature "5.0"]) = true ∧
    (∃ x, humid_store[0]? = some x ∧ x.start = 1704067200 ∧ x.«end» = 1704088800 ∧
      parse_time (example_time [example_temperature "5.0"]) humid_store =
        (parse_time_locations (example_time [example_temperature "5.0"]) x.location).map
          (fun l => humid_store.set 0 { x with location := l }) ∧
      parse_time (example_time [example_temperature "5.0"]) humid_store =
        (if locations_ok (example_time [example_temperature "5.0"]) then
          some (humid_store.set 0
            { x with
              location :=
                merged_location (example_time [example_temperature "5.0"]).children x.location })
        else none) ∧
      (humid_store.set 0
          { x with
            location :=
              merged_location (example_time [example_temperature "5.0"]).children
                x.location }).length = humid_store.length ∧
      Mix (merged_location (example_time [example_temperature "5.0"]).children x.location)
        x.location
        (merged_location (example_time [example_temperature "5.0"]).children
          xml_location_new0)) ∧
    merged_location (example_time [example_temperature "5.0"]).children
        { xml_location_new0 with humidity_value := some "80",
                                 humidity_unit := some "percent" } =
      { xml_location_new0 with humidity_value := some "80", humidity_unit := some "percent",
                               temperature_value := some "5.0",
                               temperature_unit := some "celsius" } :=
  ⟨by decide, C3_upsert_merges (example_time [example_temperature "5.0"]) humid_store
    (by decide), by decide⟩

/-- Counterexample to C3 as stated: the store holds the key of the element
with a humidity, the element carries a temperature only, and after
`parse_time` the attributes of the timeslice are not those obtained by
parsing the element into a fresh timeslice: the humidity is still there. -/
theorem C3_counterexample :
    time_accepted (example_time [example_temperature "5.0"]) = true ∧
    get_timeslice humid_store
      (parse_xml_timestring (PROP (example_time [example_temperature "5.0"]) "from"))
      (parse_xml_timestring (PROP (example_time [example_temperature "5.0"]) "to")) =
        some 0 ∧
    (parse_time (example_time [example_temperature "5.0"]) humid_store).map
        (List.map fun x => x.location.humidity_value) = some [some "80"] ∧
    (parse_time_locations (example_time [example_temperature "5.0"])
        xml_location_new0).map (fun l => l.humidity_value) = some none ∧
    ¬ ((parse_time (example_time [example_temperature "5.0"]) humid_store).map
        (List.map fun x => x.location) =
      (parse_time_locations (example_time [example_temperature "5.0"])
        xml_location_new0).map fun l => [l]) := by
  decide

/-! ### Skipped elements -/

theorem PROP_mk (p : xmlNode) (cs : List xmlNode) (k : String) :
    PROP (xmlNode.mk p.type p.name p.properties cs) k = PROP p k := by
  cases p; rfl

theorem NODE_IS_TYPE_mk (p : xmlNode) (cs : List xmlNode) (k : String) :
    NODE_IS_TYPE (xmlNode.mk p.type p.name p.properties cs) k = NODE_IS_TYPE p k := by
  cases p; rfl

theorem product_selected_mk (p : xmlNode) (cs : List xmlNode) :
    product_selected (xmlNode.mk p.type p.name p.properties cs) = product_selected p := by
  cases p; rfl

theorem children_mk (ty : xmlElementType) (n : String) (ps : List (String × String))
    (cs : List xmlNode) : (xmlNode.mk ty n ps cs).children = cs := rfl

theorem time_ops_of_not_accepted (t : xmlNode) (h : time_accepted t = false) :
    time_ops t = [] := by
  simp [time_ops, h]

theorem time_ok_of_not_accepted (t : xmlNode) (h : time_accepted t = false) :
    time_ok t = true := by
  simp [time_ok, h]

theorem flatten_map_filter {β γ : Type} (q : β → Bool) (f : β → List γ) (cs : List β)
    (h : ∀ c ∈ cs, q c = false → f c = []) :
    ((cs.filter q).map f).flatten = (cs.map f).flatten := by
  induction cs with
  | nil => rfl
  | cons c cs ih =>
    have ih2 := ih (fun c hc => h c (List.mem_cons_of_mem _ hc))
    cases hq : q c with
    | true => simp [List.filter_cons, hq, ih2]
    | false => simp [List.filter_cons, hq, ih2, h c (List.mem_cons_self _ _) hq]

theorem all_filter {β : Type} (q ok : β → Bool) (cs : List β)
    (h : ∀ c ∈ cs, q c = false → ok c = true) :
    (cs.filter q).all ok = cs.all ok := by
  induction cs with
  | nil => rfl
  | cons c cs ih =>
    have ih2 := ih (fun c hc => h c (List.mem_cons_of_mem _ hc))
    cases hq : q c with
    | true => simp only [List.filter_cons, hq, if_true, List.all_cons, ih2]
    | false =>
      rw [List.filter_cons, hq, if_neg (by simp), List.all_cons,
        h c (List.mem_cons_self _ _) hq, Bool.true_and]
      exact ih2

theorem parse_weather_congr (r1 r2 : xmlNode) (wd : xml_weather)
    (hn : NODE_IS_TYPE r1 "weatherdata" = NODE_IS_TYPE r2 "weatherdata")
    (hok : doc_ok r1 = doc_ok r2) (hops : doc_ops r1 = doc_ops r2) :
    parse_weather r1 wd = parse_weather r2 wd := by
  rw [parse_weather_eq, parse_weather_eq, hn, hok, hops]

/-- C4. Malformed entries are skipped without aborting: a missing or
unparseable timestamp parses to zero; a `time` element whose `from` or `to`
parses to zero leaves the timeslice array as it is; and `parse_weather` on a
document that holds such an element gives the same result as on the document
with that element removed. -/
theorem C4_malformed_time_skipped (root p t : xmlNode)
    (ps1 ps2 l1 l2 : List xmlNode) (wd : xml_weather)
    (hroot : root.children = ps1 ++ p :: ps2) (hp : p.children = l1 ++ t :: l2)
    (hbad : parse_xml_timestring (PROP t "from") = 0 ∨
      parse_xml_timestring (PROP t "to") = 0) :
    parse_xml_timestring none = 0 ∧
    (∀ s : String, strptime s.data = none → parse_xml_timestring (some s) = 0) ∧
    (∀ S, parse_time t S = some S) ∧
    parse_weather root wd =
      parse_weather
        (xmlNode.mk root.type root.name root.properties
          (ps1 ++ xmlNode.mk p.type p.name p.properties (l1 ++ l2) :: ps2)) wd := by
  have hna : time_accepted t = false := by
    simp only [time_accepted, hbad, decide_True, Bool.not_true, Bool.and_false]
  refine ⟨rfl, ?_, ?_, ?_⟩
  · intro s hs
    simp [parse_xml_timestring, hs]
  · intro S
    rw [parse_time_eq, hna]
    rfl
  · have hops : product_ops (xmlNode.mk p.type p.name p.properties (l1 ++ l2)) =
        product_ops p := by
      simp only [product_ops, product_selected_mk, children_mk, hp, List.map_append,
        List.map_cons, List.flatten_append, List.flatten_cons,
        time_ops_of_not_accepted t hna, List.nil_append]
    have hpok : product_ok (xmlNode.mk p.type p.name p.properties (l1 ++ l2)) =
        product_ok p := by
      simp only [product_ok, product_selected_mk, children_mk, hp, List.all_append,
        List.all_cons, time_ok_of_not_accepted t hna, Bool.or_true, Bool.true_and]
    apply parse_weather_congr
    · rw [NODE_IS_TYPE_mk]
    · simp only [doc_ok, NODE_IS_TYPE_mk, children_mk, hroot, List.all_append,
        List.all_cons, hpok]
    · simp only [doc_ops, NODE_IS_TYPE_mk, children_mk, hroot, List.map_append,
        List.map_cons, hops]

/-- Witness of C4: a forecast document whose second time element has a `to`
attribute that is not a timestamp. -/
theorem C4_malformed_time_skipped_witness :
    (parse_xml_timestring (PROP malformed_time "from") = 0 ∨
      parse_xml_timestring (PROP malformed_time "to") = 0) ∧
    (∀ S, parse_time malformed_time S = some S) ∧
    parse_weather
        (element "weatherdata" []
          [element "product" [("class", "pointData")]
            [example_time [example_temperature "5.0"], malformed_time]]) empty_store =
      parse_weather (example_doc "5.0") empty_store :=
  ⟨by decide,
   (C4_malformed_time_skipped
      (element "weatherdata" []
        [element "product" [("class", "pointData")]
          [example_time [example_temperature "5.0"], malformed_time]])
      (element "product" [("class", "pointData")]
        [example_time [example_temperature "5.0"], malformed_time])
      malformed_time [] [] [example_time [example_temperature "5.0"]] [] empty_store
      rfl rfl (by decide)).2.2.1,
   (C4_malformed_time_skipped
      (element "weatherdata" []
        [element "product" [("class", "pointData")]
          [example_time [example_temperature "5.0"], malformed_time]])
      (element "product" [("class", "pointData")]
        [example_time [example_temperature "5.0"], malformed_time])
      malformed_time [] [] [example_time [example_temperature "5.0"]] [] empty_store
      rfl rfl (by decide)).2.2.2⟩

/-! ### The element filter -/

theorem casemap_eq_zero (c : Char) (h : casemap c = 0) : c.toNat = 0 := by
  unfold casemap at h
  split at h <;> omega

theorem strcasecmp_chars_eq_zero :
    ∀ a b : List Char, (∀ c ∈ a, c.toNat ≠ 0) → (∀ c ∈ b, c.toNat ≠ 0) →
      (strcasecmp_chars a b = 0 ↔ a.map casemap = b.map casemap) := by
  intro a
  induction a with
  | nil =>
    intro b _ hb
    cases b with
    | nil => simp [strcasecmp_chars]
    | cons y ys =>
      have hy := hb y (List.mem_cons_self _ _)
      have : casemap y ≠ 0 := fun h => hy (casemap_eq_zero y h)
      simp only [strcasecmp_chars, List.map_nil, List.map_cons]
      constructor
      · intro h; omega
      · intro h; cases h
  | cons x xs ih =>
    intro b ha hb
    cases b with
    | nil =>
      have hx := ha x (List.mem_cons_self _ _)
      have : casemap x ≠ 0 := fun h => hx (casemap_eq_zero x h)
      simp only [strcasecmp_chars, List.map_nil, List.map_cons]
      constructor
      · intro h; omega
      · intro h; cases h
    | cons y ys =>
      have ih2 := ih ys (fun c hc => ha c (List.mem_cons_of_mem _ hc))
        (fun c hc => hb c (List.mem_cons_of_mem _ hc))
      simp only [strcasecmp_chars, List.map_cons, List.cons.injEq]
      by_cases hxy : casemap x = casemap y
      · simp [hxy, ih2]
      · have : casemap x - casemap y ≠ 0 := by omega
        simp [hxy, this]

theorem keep_forecast_time_ops (t : xmlNode)
    (h : (NODE_IS_TYPE t "time" &&
      decide (xmlStrcasecmp (PROP t "datatype") (some "forecast") = 0)) = false) :
    time_ops t = [] ∧ (!(NODE_IS_TYPE t "time") || time_ok t) = true := by
  cases ht : NODE_IS_TYPE t "time" with
  | false => simp [time_ops, ht]
  | true =>
    rw [ht] at h
    simp only [Bool.true_and, decide_eq_false_iff_not] at h
    have hna : time_accepted t = false := by
      simp [time_accepted, h]
    simp [time_ops, time_ok, hna]

theorem keep_forecast_product (p : xmlNode) :
    product_ops (xmlNode.mk p.type p.name p.properties
        (p.children.filter fun t => NODE_IS_TYPE t "time" &&
          decide (xmlStrcasecmp (PROP t "datatype") (some "forecast") = 0))) =
      product_ops p ∧
    product_ok (xmlNode.mk p.type p.name p.properties
        (p.children.filter fun t => NODE_IS_TYPE t "time" &&
          decide (xmlStrcasecmp (PROP t "datatype") (some "forecast") = 0))) =
      product_ok p := by
  constructor
  · simp only [product_ops, product_selected_mk, children_mk]
    rw [flatten_map_filter _ _ _ (fun t _ h => (keep_forecast_time_ops t h).1)]
  · simp only [product_ok, product_selected_mk, children_mk]
    rw [all_filter _ _ _ (fun t _ h => (keep_forecast_time_ops t h).2)]

theorem keep_forecast_eq (root : xmlNode) (wd : xml_weather) :
    parse_weather root wd = parse_weather (keep_forecast root) wd := by
  apply parse_weather_congr
  · simp only [keep_forecast, NODE_IS_TYPE_mk]
  · simp only [doc_ok, keep_forecast, NODE_IS_TYPE_mk, children_mk, List.all_map]
    congr 1
    have e : (product_ok ∘ fun p => xmlNode.mk p.type p.name p.properties
          (p.children.filter fun t => NODE_IS_TYPE t "time" &&
            decide (xmlStrcasecmp (PROP t "datatype") (some "forecast") = 0))) =
        product_ok := by
      funext p
      exact (keep_forecast_product p).2
    rw [e]
    exact (all_filter _ _ _ (fun p _ h => by simp [product_ok, h])).symm
  · simp only [doc_ops, keep_forecast, NODE_IS_TYPE_mk, children_mk, List.map_map]
    congr 1
    have e : (product_ops ∘ fun p => xmlNode.mk p.type p.name p.properties
          (p.children.filter fun t => NODE_IS_TYPE t "time" &&
            decide (xmlStrcasecmp (PROP t "datatype") (some "forecast") = 0))) =
        product_ops := by
      funext p
      exact (keep_forecast_product p).1
    rw [e]
    exact (flatten_map_filter _ _ _ (fun p _ h => by simp [product_ops, h])).symm

/-- C5. Element filter of `parse_weather`: a document whose root is not named
`weatherdata` leaves the store unchanged; a child of the root that is not an
element named `product` with a class equal to `pointData` up to ASCII case
(another class, no class) leaves the timeslices unchanged; a `time` element
whose datatype is not `forecast` up to ASCII case (another datatype, none)
leaves them unchanged; and the result of `parse_weather` is the result on the
document reduced to the forecast `time` children of its `pointData` products. -/
theorem C5_element_filter (root : xmlNode) (wd : xml_weather) :
    (NODE_IS_TYPE root "weatherdata" = false → parse_weather root wd = some wd) ∧
    (∀ p S, (p.type ≠ xmlElementType.XML_ELEMENT_NODE ∨ NODE_IS_TYPE p "product" = false ∨
        xmlStrcasecmp (PROP p "class") (some "pointData") ≠ 0) →
      parse_weather_child p S = some S) ∧
    (∀ p S, PROP p "class" = none → parse_weather_child p S = some S) ∧
    (∀ t S, xmlStrcasecmp (PROP t "datatype") (some "forecast") ≠ 0 →
      parse_time t S = some S) ∧
    (∀ t S, PROP t "datatype" = none → parse_time t S = some S) ∧
    (∀ a b : String, (∀ c ∈ a.data, c.toNat ≠ 0) → (∀ c ∈ b.data, c.toNat ≠ 0) →
      (xmlStrcasecmp (some a) (some b) = 0 ↔ a.data.map casemap = b.data.map casemap)) ∧
    parse_weather root wd = parse_weather (keep_forecast root) wd := by
  refine ⟨?_, ?_, ?_, ?_, ?_, ?_, keep_forecast_eq root wd⟩
  · intro h
    simp [parse_weather, h]
  · intro p S h
    unfold parse_weather_child
    rcases h with h | h | h
    · simp [h]
    · simp [h]
    · by_cases h1 : p.type = xmlElementType.XML_ELEMENT_NODE
      · by_cases h2 : NODE_IS_TYPE p "product" = true
        · simp [h1, h2, h]
        · simp [h1, h2]
      · simp [h1]
  · intro p S h
    unfold parse_weather_child
    by_cases h1 : p.type = xmlElementType.XML_ELEMENT_NODE
    · by_cases h2 : NODE_IS_TYPE p "product" = true
      · simp [h1, h2, h, xmlStrcasecmp]
      · simp [h1, h2]
    · simp [h1]
  · intro t S h
    simp [parse_time, h]
  · intro t S h
    simp [parse_time, h, xmlStrcasecmp]
  · intro a b ha hb
    exact strcasecmp_chars_eq_zero a.data b.data ha hb

/-- Witness of C5: a wrong root, a product of another class and a time
element of another datatype. -/
theorem C5_element_filter_witness :
    (NODE_IS_TYPE wrong_root_doc "weatherdata" = false ∧
      parse_weather wrong_root_doc empty_store = some empty_store) ∧
    (xmlStrcasecmp (PROP other_class_product "class") (some "pointData") ≠ 0 ∧
      parse_weather_child other_class_product humid_store = some humid_store) ∧
    (xmlStrcasecmp (PROP other_datatype_time "datatype") (some "forecast") ≠ 0 ∧
      parse_time other_datatype_time humid_store = some humid_store) :=
  ⟨⟨by decide, (C5_element_filter wrong_root_doc empty_store).1 (by decide)⟩,
   ⟨by decide, (C5_element_filter wrong_root_doc empty_store).2.1 other_class_product
      humid_store (Or.inr (Or.inr (by decide)))⟩,
   ⟨by decide, (C5_element_filter wrong_root_doc empty_store).2.2.2.1 other_datatype_time
      humid_store (by decide)⟩⟩

/-- C6. Concrete overwrite scenario: parsing into the empty store a document
with one forecast time element from 2024-01-01T00:00:00Z to
2024-01-01T06:00:00Z whose location has temperature 5.0 celsius yields exactly
one timeslice with that key and that temperature; parsing a second document
with the same key and temperature 6.0 leaves exactly one timeslice, with
temperature 6.0. -/
theorem C6_overwrite_scenario :
    parse_xml_timestring (some "2024-01-01T00:00:00Z") = 1704067200 ∧
    parse_xml_timestring (some "2024-01-01T06:00:00Z") = 1704088800 ∧
    parse_weather (example_doc "5.0") empty_store =
      some { timeslices := some
               [{ start := 1704067200, «end» := 1704088800, point := 0,
                  location := { xml_location_new0 with
                    temperature_value := some "5.0",
                    temperature_unit := some "celsius" } }],
             current_conditions := none } ∧
    (parse_weather (example_doc "5.0") empty_store).bind
        (parse_weather (example_doc "6.0")) =
      some { timeslices := some
               [{ start := 1704067200, «end» := 1704088800, point := 0,
                  location := { xml_location_new0 with
                    temperature_value := some "6.0",
                    temperature_unit := some "celsius" } }],
             current_conditions := none } := by
  decide

/-! ### Expiry -/

theorem clean_loop_eq (now_t E : Int) :
    ∀ (fuel i : Nat) (ts : List xml_time), i ≤ ts.length → ts.length < 4294967296 →
      ts.length - i < fuel →
      xml_weather_clean_loop now_t E fuel i ts =
        some (ts.take i ++ (ts.drop i).filter fun x => decide (now_t - x.«end» ≤ E)) := by
  intro fuel
  induction fuel with
  | zero => intro i ts _ _ h; omega
  | succ fuel ih =>
    intro i ts hi hlen hfuel
    unfold xml_weather_clean_loop
    cases hx : ts[i]? with
    | none =>
      have : ts.length ≤ i := List.getElem?_eq_none_iff.1 hx
      have hil : i = ts.length := by omega
      subst hil
      simp
    | some x =>
      have hlt : i < ts.length := (List.getElem?_eq_some_iff.1 hx).1
      have hxe : ts[i] = x := (List.getElem?_eq_some_iff.1 hx).2
      have hdrop : ts.drop i = x :: ts.drop (i + 1) := by
        rw [← hxe]; exact List.drop_eq_getElem_cons hlt
      simp only
      by_cases hexp : now_t - x.«end» > E
      · have hi2 : ((i + 4294967295) % 4294967296 + 1) % 4294967296 = i := by omega
        rw [if_pos hexp, hi2]
        have hle : (ts.eraseIdx i).length = ts.length - 1 := List.length_eraseIdx_of_lt hlt
        rw [ih i (ts.eraseIdx i) (by omega) (by omega) (by omega)]
        have he : ts.eraseIdx i = ts.take i ++ ts.drop (i + 1) :=
          List.eraseIdx_eq_take_drop_succ ts i
        have ht : (ts.take i ++ ts.drop (i + 1)).take i = ts.take i := by
          rw [List.take_append_of_le_length (by simp; omega)]
          simp
        have hd : (ts.take i ++ ts.drop (i + 1)).drop i = ts.drop (i + 1) := by
          rw [List.drop_append_of_le_length (by simp; omega)]
          simp [List.drop_take]
        rw [he, ht, hd, hdrop]
        have : decide (now_t - x.«end» ≤ E) = false := by
          simp only [decide_eq_false_iff_not]; omega
        rw [List.filter_cons, this]
        rfl
      · have hi2 : (i + 1) % 4294967296 = i + 1 := by omega
        rw [if_neg hexp, hi2]
        rw [ih (i + 1) ts (by omega) hlen (by omega)]
        have : decide (now_t - x.«end» ≤ E) = true := by
          simp only [decide_eq_true_eq]; omega
        rw [hdrop, List.filter_cons, this, if_pos rfl, List.take_succ, hx]
        simp

theorem xml_weather_clean_eq (now_t E : Int) (wd : xml_weather)
    (hlen : (slices wd).length < 4294967296) :
    xml_weather_clean now_t E wd =
      some { wd with timeslices :=
        wd.timeslices.map fun ts => ts.filter fun x => decide (now_t - x.«end» ≤ E) } := by
  unfold xml_weather_clean
  cases wd with
  | mk timeslices current_conditions =>
  cases timeslices with
  | none => rfl
  | some ts =>
    have hl : ts.length < 4294967296 := by simpa [slices] using hlen
    simp only
    rw [clean_loop_eq now_t E (ts.length + 1) 0 ts (by omega) hl (by omega)]
    simp

/-- C7. Expiry postcondition: for every store (whose array length fits the
`guint` length field) and every instant `now_t`, `xml_weather_clean` returns
and every remaining timeslice satisfies `now_t - end <= DATA_EXPIRY_TIME`. -/
theorem C7_expiry_postcondition (now_t DATA_EXPIRY_TIME : Int) (wd : xml_weather)
    (hlen : (slices wd).length < 4294967296) :
    ∃ wd1, xml_weather_clean now_t DATA_EXPIRY_TIME wd = some wd1 ∧
      ∀ ts ∈ slices wd1, now_t - ts.«end» ≤ DATA_EXPIRY_TIME := by
  refine ⟨_, xml_weather_clean_eq now_t DATA_EXPIRY_TIME wd hlen, ?_⟩
  intro ts hts
  cases h : wd.timeslices with
  | none => simp [slices, h] at hts
  | some l =>
    simp only [slices, h, Option.map_some', List.mem_filter, decide_eq_true_eq] at hts
    exact hts.2

/-- Witness of C7: the first two timeslices and a later one are expired. -/
theorem C7_expiry_postcondition_witness :
    (slices stale_store).length < 4294967296 ∧
    ∃ wd1, xml_weather_clean 200000 86400 stale_store = some wd1 ∧
      ∀ ts ∈ slices wd1, (200000 : Int) - ts.«end» ≤ 86400 :=
  ⟨by decide, C7_expiry_postcondition 200000 86400 stale_store (by decide)⟩

/-- C8. Expiry idempotence: for every store (whose array length fits the
`guint` length field) and every instant `now_t`, `xml_weather_clean` returns,
and running it a second time at the same instant leaves the store exactly as
the first run left it. -/
theorem C8_expiry_idempotent (now_t DATA_EXPIRY_TIME : Int) (wd : xml_weather)
    (hlen : (slices wd).length < 4294967296) :
    ∃ wd1, xml_weather_clean now_t DATA_EXPIRY_TIME wd = some wd1 ∧
      xml_weather_clean now_t DATA_EXPIRY_TIME wd1 = some wd1 := by
  refine ⟨_, xml_weather_clean_eq now_t DATA_EXPIRY_TIME wd hlen, ?_⟩
  rw [xml_weather_clean_eq]
  · cases h : wd.timeslices with
    | none => simp
    | some l => simp [List.filter_filter]
  · cases h : wd.timeslices with
    | none => simp [slices]
    | some l =>
      have hl : l.length < 4294967296 := by simpa [slices, h] using hlen
      have := List.length_filter_le (fun x : xml_time => decide (now_t - x.«end» ≤ DATA_EXPIRY_TIME)) l
      simp only [slices, Option.map_some']
      omega

/-- Witness of C8 on the store of the witness of C7. -/
theorem C8_expiry_idempotent_witness :
    (slices stale_store).length < 4294967296 ∧
    ∃ wd1, xml_weather_clean 200000 86400 stale_store = some wd1 ∧
      xml_weather_clean 200000 86400 wd1 = some wd1 :=
  ⟨by decide, C8_expiry_idempotent 200000 86400 stale_store (by decide)⟩

/-! ### Disk cache -/

theorem read_cache_location_wind_dir_name (keyfile : GKeyFile) (group : String) :
    (read_cache_location keyfile group).wind_dir_name = none := rfl

set_option maxRecDepth 100000 in
/-- C9 (evaluation at the failing input). The text that `write_cache_file`
writes for a dataset whose timeslice has the wind direction name `N` is read
back by `read_cache_file`, under the same context and 100 seconds later, as a
timeslice without wind direction name: no key file makes `read_cache_file`
set `wind_dir_name`, and the timeslices read back differ from those written. -/
theorem C9_roundtrip_loses_wind_dir_name :
    (∀ (keyfile : GKeyFile) (group : String),
      (read_cache_location keyfile group).wind_dir_name = none) ∧
    ((write_cache_file 1704070000 example_dataset).bind fun content =>
        read_cache_file false 1704070100 (g_key_file_load_from_file ["C"] content)
          example_context) =
      some { example_context with
        weatherdata :=
          { timeslices := some
              [{ start := 1704067200, «end» := 1704088800, point := 0,
                 location := { xml_location_new0 with
                   temperature_value := some "5.0",
                   temperature_unit := some "celsius" } }],
            current_conditions := none } } ∧
    ((write_cache_file 1704070000 example_dataset).bind fun content =>
        read_cache_file false 1704070100 (g_key_file_load_from_file ["C"] content)
          example_context) ≠ some example_dataset := by
  refine ⟨fun _ _ => rfl, ?_, ?_⟩
  · decide
  · decide

/-- C10. Cache rejection on context mismatch: for every loaded cache payload
and every plugin context, if the `lat` or `lon` string, the `msl` or the
`timezone` that the `[info]` header holds differs from the latitude,
longitude, elevation or UTC offset of the context, then `read_cache_file`
returns with the plugin data unchanged: no timeslice is added. This holds for
either value of the uninitialised `err`. -/
theorem C10_cache_rejected_on_mismatch (err : Bool) (now_t : Int) (keyfile : GKeyFile)
    (data : plugin_data)
    (hdiff : g_key_file_get_string keyfile "info" "lat" ≠ data.lat ∨
      g_key_file_get_string keyfile "info" "lon" ≠ data.lon ∨
      g_key_file_get_integer keyfile "info" "msl" ≠ data.msl ∨
      g_key_file_get_integer keyfile "info" "timezone" ≠ data.timezone) :
    read_cache_file err now_t (some keyfile) data = some data := by
  unfold read_cache_file
  by_cases h1 : data.lat = none ∨ data.lon = none
  · rw [if_pos h1]
  rw [if_neg h1]
  simp only
  by_cases h2 : ¬ g_key_file_has_group keyfile "info" = true
  · rw [if_pos h2]
  rw [if_neg h2]
  by_cases h3 : g_key_file_get_string keyfile "info" "location_name" = none ∨
      g_key_file_get_string keyfile "info" "lat" = none ∨
      g_key_file_get_string keyfile "info" "lon" = none
  · rw [if_pos h3]
  rw [if_neg h3]
  cases err with
  | true => rfl
  | false =>
    simp only [Bool.false_eq_true, if_false]
    have h4 : g_key_file_get_string keyfile "info" "lat" ≠ data.lat ∨
        g_key_file_get_string keyfile "info" "lon" ≠ data.lon ∨
        g_key_file_get_integer keyfile "info" "msl" ≠ data.msl ∨
        g_key_file_get_integer keyfile "info" "timezone" ≠ data.timezone ∨
        g_key_file_get_integer keyfile "info" "timeslices" < 1 := by
      rcases hdiff with h | h | h | h
      · exact Or.inl h
      · exact Or.inr (Or.inl h)
      · exact Or.inr (Or.inr (Or.inl h))
      · exact Or.inr (Or.inr (Or.inr (Or.inl h)))
    rw [if_pos h4]

set_option maxRecDepth 100000 in
/-- Witness of C10: the cache written for elevation 34 is read under a
context with elevation 35. -/
theorem C10_cache_rejected_on_mismatch_witness :
    (g_key_file_get_string example_keyfile "info" "lat" ≠
        { example_context with msl := 35 }.lat ∨
      g_key_file_get_string example_keyfile "info" "lon" ≠
        { example_context with msl := 35 }.lon ∨
      g_key_file_get_integer example_keyfile "info" "msl" ≠
        { example_context with msl := 35 }.msl ∨
      g_key_file_get_integer example_keyfile "info" "timezone" ≠
        { example_context with msl := 35 }.timezone) ∧
    read_cache_file false 1704070100 (some example_keyfile)
        { example_context with msl := 35 } =
      some { example_context with msl := 35 } :=
  ⟨by decide,
   C10_cache_rejected_on_mismatch false 1704070100 example_keyfile
     { example_context with msl := 35 } (by decide)⟩

/-! ### Cache: count, age and omitted fields -/

theorem read_cache_rejects_count (err : Bool) (now_t : Int) (keyfile : GKeyFile)
    (data : plugin_data)
    (hcount : g_key_file_get_integer keyfile "info" "timeslices" < 1) :
    read_cache_file err now_t (some keyfile) data = some data := by
  unfold read_cache_file
  by_cases h1 : data.lat = none ∨ data.lon = none
  · rw [if_pos h1]
  rw [if_neg h1]
  simp only
  by_cases h2 : ¬ g_key_file_has_group keyfile "info" = true
  · rw [if_pos h2]
  rw [if_neg h2]
  by_cases h3 : g_key_file_get_string keyfile "info" "location_name" = none ∨
      g_key_file_get_string keyfile "info" "lat" = none ∨
      g_key_file_get_string keyfile "info" "lon" = none
  · rw [if_pos h3]
  rw [if_neg h3]
  cases err with
  | true => rfl
  | false =>
    simp only [Bool.false_eq_true, if_false]
    rw [if_pos (Or.inr (Or.inr (Or.inr (Or.inr hcount))))]

theorem read_cache_rejects_age (err : Bool) (now_t cache_date_t : Int) (keyfile : GKeyFile)
    (data : plugin_data)
    (hdate : cache_read_time keyfile "info" "cache_date" = some cache_date_t)
    (hage : now_t - cache_date_t > data.cache_file_max_age) :
    read_cache_file err now_t (some keyfile) data = some data := by
  unfold read_cache_file
  by_cases h1 : data.lat = none ∨ data.lon = none
  · rw [if_pos h1]
  rw [if_neg h1]
  simp only
  by_cases h2 : ¬ g_key_file_has_group keyfile "info" = true
  · rw [if_pos h2]
  rw [if_neg h2]
  by_cases h3 : g_key_file_get_string keyfile "info" "location_name" = none ∨
      g_key_file_get_string keyfile "info" "lat" = none ∨
      g_key_file_get_string keyfile "info" "lon" = none
  · rw [if_pos h3]
  rw [if_neg h3]
  cases err with
  | true => rfl
  | false =>
    simp only [Bool.false_eq_true, if_false]
    split
    · rfl
    · rw [hdate]
      simp only
      rw [if_pos hage]

theorem read_cache_accepts (now_t cache_date_t : Int) (keyfile : GKeyFile)
    (data : plugin_data) (lat lon : String)
    (hlat : data.lat = some lat) (hlon : data.lon = some lon)
    (hgroup : g_key_file_has_group keyfile "info" = true)
    (hname : g_key_file_get_string keyfile "info" "location_name" ≠ none)
    (hklat : g_key_file_get_string keyfile "info" "lat" = some lat)
    (hklon : g_key_file_get_string keyfile "info" "lon" = some lon)
    (hmsl : g_key_file_get_integer keyfile "info" "msl" = data.msl)
    (htz : g_key_file_get_integer keyfile "info" "timezone" = data.timezone)
    (hcount : 1 ≤ g_key_file_get_integer keyfile "info" "timeslices")
    (hdate : cache_read_time keyfile "info" "cache_date" = some cache_date_t)
    (hage : now_t - cache_date_t ≤ data.cache_file_max_age) :
    read_cache_file false now_t (some keyfile) data =
      ((List.range (g_key_file_get_integer keyfile "info" "timeslices").toNat).foldlM
          (read_cache_timeslice keyfile) data.weatherdata).map
        fun wd => { data with weatherdata := wd } := by
  unfold read_cache_file
  have h1 : ¬ (data.lat = none ∨ data.lon = none) := by simp [hlat, hlon]
  rw [if_neg h1]
  simp only
  rw [if_neg (by simp [hgroup])]
  have h3 : ¬ (g_key_file_get_string keyfile "info" "location_name" = none ∨
      g_key_file_get_string keyfile "info" "lat" = none ∨
      g_key_file_get_string keyfile "info" "lon" = none) := by
    simp [hname, hklat, hklon]
  rw [if_neg h3]
  simp only [Bool.false_eq_true, if_false]
  have h4 : ¬ (g_key_file_get_string keyfile "info" "lat" ≠ data.lat ∨
      g_key_file_get_string keyfile "info" "lon" ≠ data.lon ∨
      g_key_file_get_integer keyfile "info" "msl" ≠ data.msl ∨
      g_key_file_get_integer keyfile "info" "timezone" ≠ data.timezone ∨
      g_key_file_get_integer keyfile "info" "timeslices" < 1) := by
    simp only [hklat, hlat, hklon, hlon, hmsl, htz, ne_eq, not_true_eq_false, false_or]
    omega
  rw [if_neg h4, hdate]
  simp only
  rw [if_neg (by omega)]

set_option maxRecDepth 100000 in
/-- C11 (evaluation at the failing input). The cache written for
`example_dataset` at instant 1704070000 is read 100 seconds later under the
context it was written for: the header matches the context, the count is 1
and the age is below `cache_file_max_age`. When the local `err` of
`read_cache_file`, which is never initialised, holds a non-`NULL` value, the
payload is rejected and the plugin data stays as it was; when it holds
`NULL`, the timeslice is read. -/
theorem C11_valid_cache_rejected_when_err_is_set :
    g_key_file_get_string example_keyfile "info" "lat" = example_context.lat ∧
    g_key_file_get_string example_keyfile "info" "lon" = example_context.lon ∧
    g_key_file_get_integer example_keyfile "info" "msl" = example_context.msl ∧
    g_key_file_get_integer example_keyfile "info" "timezone" = example_context.timezone ∧
    g_key_file_get_integer example_keyfile "info" "timeslices" = 1 ∧
    cache_read_time example_keyfile "info" "cache_date" = some 1704070000 ∧
    (1704070100 : Int) - 1704070000 ≤ example_context.cache_file_max_age ∧
    read_cache_file true 1704070100 (some example_keyfile) example_context =
      some example_context ∧
    (read_cache_file false 1704070100 (some example_keyfile) example_context).map
        (fun d => (slices d.weatherdata).length) = some 1 := by
  decide

set_option maxRecDepth 100000 in
/-- C12 (evaluation at the failing input). In the section that
`write_cache_file` writes for a timeslice whose four `clouds_percent` slots
are absent, each slot has a line, with the text `(null)` as its value, while
the absent humidity has no line. -/
theorem C12_absent_cloud_slots_are_written :
    example_timeslice.location.clouds_percent_low = none ∧
    example_timeslice.location.clouds_percent_med = none ∧
    example_timeslice.location.clouds_percent_high = none ∧
    example_timeslice.location.clouds_percent_cloudiness = none ∧
    example_timeslice.location.humidity_value = none ∧
    split_lines (write_cache_timeslice "" 0 example_timeslice).data =
      ["[timeslice0]".data, "start=2024-01-01T00:00:00Z".data,
       "end=2024-01-01T06:00:00Z".data, "point=1970-01-01T00:00:00Z".data,
       "temperature_value=5.0".data, "temperature_unit=celsius".data,
       "wind_dir_name=N".data,
       "clouds_percent[0]=(null)".data, "clouds_percent[1]=(null)".data,
       "clouds_percent[2]=(null)".data, "clouds_percent[3]=(null)".data,
       [], []] := by
  decide

/-! ### `parse_astro` -/

theorem foldl_location_flatten (cs : List xmlNode) :
    ∀ a : xml_astro,
      cs.foldl (fun astro child_node =>
          if NODE_IS_TYPE child_node "location" then parse_astro_location child_node astro
          else astro) a =
        (((cs.filter fun c => NODE_IS_TYPE c "location").map
          fun c => c.children).flatten).foldl
          (fun a child_node => parse_astro_location_child child_node a) a := by
  induction cs with
  | nil => intro a; rfl
  | cons c cs ih =>
    intro a
    cases hc : NODE_IS_TYPE c "location" with
    | true =>
      simp only [List.foldl_cons, hc, if_true, List.filter_cons, List.map_cons,
        List.flatten_cons, List.foldl_append, ih]
      rfl
    | false =>
      simp only [List.foldl_cons, hc, Bool.false_eq_true, if_false, List.filter_cons, ih]

theorem parse_astro_eq (root : xmlNode) (h : NODE_IS_TYPE root "astrodata" = true) :
    parse_astro (some root) =
      some ((astro_children root).foldl
        (fun a child_node => parse_astro_location_child child_node a) xml_astro_new0) := by
  unfold parse_astro astro_children
  simp only [h, not_true_eq_false, if_false]
  cases first_time_node root.children with
  | none => rfl
  | some t => simp only [foldl_location_flatten]

theorem foldl_sun_fields (cs : List xmlNode) :
    ∀ a : xml_astro,
      sun_fields (cs.foldl (fun a c => parse_astro_location_child c a) a) =
        match last_named "sun" cs with
        | some s => sun_element_fields s
        | none => sun_fields a := by
  induction cs with
  | nil => intro a; rfl
  | cons c cs ih =>
    intro a
    simp only [List.foldl_cons, ih, last_named]
    cases last_named "sun" cs with
    | some s => rfl
    | none =>
      simp only
      cases hs : NODE_IS_TYPE c "sun" <;> cases hm : NODE_IS_TYPE c "moon" <;>
        simp [parse_astro_location_child, hs, hm, sun_fields, sun_element_fields]

theorem foldl_moon_fields (cs : List xmlNode) :
    ∀ a : xml_astro,
      moon_fields (cs.foldl (fun a c => parse_astro_location_child c a) a) =
        match last_named "moon" cs with
        | some s => moon_element_fields s
        | none => moon_fields a := by
  induction cs with
  | nil => intro a; rfl
  | cons c cs ih =>
    intro a
    simp only [List.foldl_cons, ih, last_named]
    cases last_named "moon" cs with
    | some s => rfl
    | none =>
      simp only
      cases hs : NODE_IS_TYPE c "sun" <;> cases hm : NODE_IS_TYPE c "moon" <;>
        simp [parse_astro_location_child, hs, hm, moon_fields, moon_element_fields]

/-- C13 (as amended). `parse_astro` returns no snapshot for a `NULL` root and
for every root that is not named `astrodata`. For every root named
`astrodata` it returns a snapshot; when the root has no `time` child, or its
first `time` child has no `location` child, that snapshot is the zero-filled
one: all four flags false, all four instants zero, no moon phase. -/
theorem C13_parse_astro_none (root : xmlNode) :
    parse_astro none = none ∧
    (NODE_IS_TYPE root "astrodata" = false → parse_astro (some root) = none) ∧
    (NODE_IS_TYPE root "astrodata" = true → (parse_astro (some root)).isSome = true) ∧
    (NODE_IS_TYPE root "astrodata" = true → first_time_node root.children = none →
      parse_astro (some root) = some xml_astro_new0) ∧
    (∀ time_node, NODE_IS_TYPE root "astrodata" = true →
      first_time_node root.children = some time_node →
      (∀ c ∈ time_node.children, NODE_IS_TYPE c "location" = false) →
      parse_astro (some root) = some xml_astro_new0) := by
  refine ⟨rfl, ?_, ?_, ?_, ?_⟩
  · intro h
    simp [parse_astro, h]
  · intro h
    rw [parse_astro_eq root h]
    rfl
  · intro h ht
    rw [parse_astro_eq root h]
    simp [astro_children, ht]
  · intro t h ht hc
    rw [parse_astro_eq root h]
    have : (t.children.filter fun c => NODE_IS_TYPE c "location") = [] := by
      rw [List.filter_eq_nil_iff]
      intro c hcm
      simp [hc c hcm]
    simp [astro_children, ht, this]

/-- Witness of C13: a `weatherdata` root, an `astrodata` root without
children, and an `astrodata` root whose `time` child has no `location`. -/
theorem C13_parse_astro_none_witness :
    (NODE_IS_TYPE (example_doc "5.0") "astrodata" = false ∧
      parse_astro (some (example_doc "5.0")) = none) ∧
    (NODE_IS_TYPE (element "astrodata" [] []) "astrodata" = true ∧
      first_time_node (element "astrodata" [] []).children = none ∧
      parse_astro (some (element "astrodata" [] [])) = some xml_astro_new0) ∧
    (NODE_IS_TYPE (element "astrodata" [] [element "time" [] []]) "astrodata" = true ∧
      first_time_node (element "astrodata" [] [element "time" [] []]).children =
        some (element "time" [] []) ∧
      parse_astro (some (element "astrodata" [] [element "time" [] []])) =
        some xml_astro_new0) :=
  ⟨⟨by decide, (C13_parse_astro_none (example_doc "5.0")).2.1 (by decide)⟩,
   ⟨by decide, rfl,
    (C13_parse_astro_none (element "astrodata" [] [])).2.2.2.1 (by decide) rfl⟩,
   ⟨by decide, rfl,
    (C13_parse_astro_none (element "astrodata" [] [element "time" [] []])).2.2.2.2
      (element "time" [] []) (by decide) rfl (by decide)⟩⟩

/-- Counterexample to C13 as stated: for an `astrodata` root without a `time`
child, and for one whose first `time` child has no `location` child,
`parse_astro` does not return `NULL` but the zero-filled snapshot. -/
theorem C13_counterexample :
    parse_astro (some (element "astrodata" [] [])) ≠ none ∧
    parse_astro (some (element "astrodata" [] [element "time" [] []])) ≠ none ∧
    parse_astro (some (element "astrodata" [] [])) = some xml_astro_new0 ∧
    parse_astro (some (element "astrodata" [] [element "time" [] []])) =
      some xml_astro_new0 := by
  decide

/-- C14. Astro flags: for every `astrodata` document, the sun facts of the
snapshot are those of the last `sun` element under the locations of the first
`time` child, and the moon facts those of the last `moon` element: each flag
is true exactly when its `never_rise` or `never_set` attribute is exactly
`true` or `1`, false for any other value and for a missing attribute, and each
instant is the parsed `rise` or `set` attribute. With `never_rise="true"` and
no `rise` attribute the snapshot has `sun_never_rises` true and `sunrise` 0. -/
theorem C14_astro_flags (root : xmlNode) (h : NODE_IS_TYPE root "astrodata" = true) :
    (∃ astro, parse_astro (some root) = some astro ∧
      (∀ s, last_named "sun" (astro_children root) = some s →
        astro.sun_never_rises = never_flag (PROP s "never_rise") ∧
        astro.sun_never_sets = never_flag (PROP s "never_set") ∧
        astro.sunrise = parse_xml_timestring (PROP s "rise") ∧
        astro.sunset = parse_xml_timestring (PROP s "set")) ∧
      (∀ s, last_named "moon" (astro_children root) = some s →
        astro.moon_never_rises = never_flag (PROP s "never_rise") ∧
        astro.moon_never_sets = never_flag (PROP s "never_set") ∧
        astro.moonrise = parse_xml_timestring (PROP s "rise") ∧
        astro.moonset = parse_xml_timestring (PROP s "set"))) ∧
    (∀ v : Option String, never_flag v = true ↔ (v = some "true" ∨ v = some "1")) ∧
    never_flag none = false ∧
    (parse_astro (some (example_astro_doc
        [element "sun" [("never_rise", "true")] []]))).map
      (fun a => (a.sun_never_rises, a.sunrise)) = some (true, 0) := by
  refine ⟨⟨_, parse_astro_eq root h, ?_, ?_⟩, ?_, rfl, by decide⟩
  · intro s hs
    have := foldl_sun_fields (astro_children root) xml_astro_new0
    rw [hs] at this
    simp only [sun_fields, sun_element_fields, Prod.mk.injEq] at this
    exact this
  · intro s hs
    have := foldl_moon_fields (astro_children root) xml_astro_new0
    rw [hs] at this
    simp only [moon_fields, moon_element_fields, Prod.mk.injEq] at this
    exact ⟨this.1, this.2.1, this.2.2.1, this.2.2.2.1⟩
  · intro v
    cases v with
    | none => simp [never_flag]
    | some s => simp [never_flag]

/-- Witness of C14: a document whose sun never rises and whose moon sets. -/
theorem C14_astro_flags_witness :
    NODE_IS_TYPE (example_astro_doc
      [element "sun" [("never_rise", "true"), ("never_set", "false")] [],
       element "moon" [("never_rise", "1"), ("set", "2024-01-01T06:00:00Z")] []])
      "astrodata" = true ∧
    parse_astro (some (example_astro_doc
      [element "sun" [("never_rise", "true"), ("never_set", "false")] [],
       element "moon" [("never_rise", "1"), ("set", "2024-01-01T06:00:00Z")] []])) =
      some { xml_astro_new0 with sun_never_rises := true, moon_never_rises := true,
                                 moonset := 1704088800 } ∧
    ∃ astro, parse_astro (some (example_astro_doc
      [element "sun" [("never_rise", "true"), ("never_set", "false")] [],
       element "moon" [("never_rise", "1"), ("set", "2024-01-01T06:00:00Z")] []])) =
        some astro ∧
      (∀ s, last_named "sun" (astro_children (example_astro_doc
          [element "sun" [("never_rise", "true"), ("never_set", "false")] [],
           element "moon" [("never_rise", "1"), ("set", "2024-01-01T06:00:00Z")] []])) =
            some s →
        astro.sun_never_rises = never_flag (PROP s "never_rise") ∧
        astro.sun_never_sets = never_flag (PROP s "never_set") ∧
        astro.sunrise = parse_xml_timestring (PROP s "rise") ∧
        astro.sunset = parse_xml_timestring (PROP s "set")) ∧
      (∀ s, last_named "moon" (astro_children (example_astro_doc
          [element "sun" [("never_rise", "true"), ("never_set", "false")] [],
           element "moon" [("never_rise", "1"), ("set", "2024-01-01T06:00:00Z")] []])) =
            some s →
        astro.moon_never_rises = never_flag (PROP s "never_rise") ∧
        astro.moon_never_sets = never_flag (PROP s "never_set") ∧
        astro.moonrise = parse_xml_timestring (PROP s "rise") ∧
        astro.moonset = parse_xml_timestring (PROP s "set")) :=
  ⟨by decide, by decide,
   (C14_astro_flags (example_astro_doc
      [element "sun" [("never_rise", "true"), ("never_set", "false")] [],
       element "moon" [("never_rise", "1"), ("set", "2024-01-01T06:00:00Z")] []])
     (by decide)).1⟩

/-! ### Broken-down time -/

theorem yoe_bounds (d : Int) (h1 : 0 ≤ d) (h2 : d ≤ 146096) :
    0 ≤ (d - d / 1460 + d / 36524 - d / 146096) / 365 ∧
    (d - d / 1460 + d / 36524 - d / 146096) / 365 ≤ 399 := by
  omega

theorem doy_bounds (d b : Int) (h1 : 0 ≤ d) (h2 : d ≤ 146096)
    (hb : b = (d - d / 1460 + d / 36524 - d / 146096) / 365) :
    0 ≤ d - (365 * b + b / 4 - b / 100) ∧ d - (365 * b + b / 4 - b / 100) ≤ 365 := by
  have hy := yoe_bounds d h1 h2
  rw [← hb] at hy
  have hg : d / 36524 = 0 ∨ d / 36524 = 1 ∨ d / 36524 = 2 ∨ d / 36524 = 3 ∨ d / 36524 = 4 := by
    omega
  have hi : d / 146096 = 0 ∨ d / 146096 = 1 := by omega
  have he : b / 100 = 0 ∨ b / 100 = 1 ∨ b / 100 = 2 ∨ b / 100 = 3 := by omega
  rcases hg with hg | hg | hg | hg | hg <;> rcases hi with hi | hi <;>
    rcases he with he | he | he | he <;> omega

theorem my_timegm_civil (z era doe yoe doy mp d m y h mi s : Int)
    (hera : era = z / 146097) (hdoe : doe = z - era * 146097)
    (hyoe : yoe = (doe - doe / 1460 + doe / 36524 - doe / 146096) / 365)
    (hdoy : doy = doe - (365 * yoe + yoe / 4 - yoe / 100))
    (hmp : mp = (5 * doy + 2) / 153) (hd : d = doy - (153 * mp + 2) / 5 + 1)
    (hm : m = if mp < 10 then mp + 3 else mp - 9)
    (hy : y = yoe + era * 400 + (if m ≤ 2 then 1 else 0)) :
    my_timegm { tm_sec := s, tm_min := mi, tm_hour := h, tm_mday := d,
                tm_mon := m - 1, tm_year := y - 1900 } =
      (z - 719468) * 86400 + h * 3600 + mi * 60 + s := by
  have hdoe2 : 0 ≤ doe ∧ doe ≤ 146096 := by omega
  have hyb := yoe_bounds doe hdoe2.1 hdoe2.2
  rw [← hyoe] at hyb
  have hdb := doy_bounds doe yoe hdoe2.1 hdoe2.2 hyoe
  rw [← hdoy] at hdb
  have hmpb : 0 ≤ mp ∧ mp ≤ 11 := by omega
  simp only [my_timegm, days_from_civil]
  by_cases h10 : mp < 10
  · rw [if_pos h10] at hm
    have hm2 : ¬ m ≤ 2 := by omega
    have hm3 : m > 2 := by omega
    rw [if_neg hm2] at hy
    have e1 : (m - 1) / 12 = 0 := by omega
    have e2 : (m - 1) % 12 + 1 = m := by omega
    rw [e1, e2, if_neg hm2, if_pos hm3]
    have e3 : m - 3 = mp := by omega
    have ey : y - 1900 + 1900 + 0 = yoe + era * 400 := by omega
    have eq : (yoe + era * 400) / 400 = era := by omega
    have er : yoe + era * 400 - era * 400 = yoe := by omega
    rw [e3, ey, eq, er]
    omega
  · rw [if_neg h10] at hm
    have hm2 : m ≤ 2 := by omega
    have hm3 : ¬ m > 2 := by omega
    rw [if_pos hm2] at hy
    have e1 : (m - 1) / 12 = 0 := by omega
    have e2 : (m - 1) % 12 + 1 = m := by omega
    rw [e1, e2, if_pos hm2, if_neg hm3]
    have e3 : m + 9 = mp := by omega
    have ey : y - 1900 + 1900 + 0 - 1 = yoe + era * 400 := by omega
    have eq : (yoe + era * 400) / 400 = era := by omega
    have er : yoe + era * 400 - era * 400 = yoe := by omega
    rw [e3, ey, eq, er]
    omega

theorem my_timegm_gmtime (t : Int) : my_timegm (gmtime t) = t := by
  have h := my_timegm_civil (t / 86400 + 719468) _ _ _ _ _ _ _ _
    (t % 86400 / 3600) (t % 86400 / 60 % 60) (t % 86400 % 60) rfl rfl rfl rfl rfl rfl rfl rfl
  simp only [gmtime]
  rw [h]
  omega

theorem gmtime_min_sec (t : Int) :
    0 ≤ (gmtime t).tm_min ∧ (gmtime t).tm_min ≤ 59 ∧
    0 ≤ (gmtime t).tm_sec ∧ (gmtime t).tm_sec ≤ 59 := by
  simp only [gmtime]
  omega

/-! ### The five-minute grid -/

theorem c_mod_five (m : Int) (h : 0 ≤ m) : c_mod m 5 = m % 5 :=
  Int.tmod_eq_emod h (by decide)

theorem five_minute_tm_eq (now_tm : tm) (hm : 0 ≤ now_tm.tm_min) :
    five_minute_tm now_tm =
      { now_tm with tm_min := now_tm.tm_min - now_tm.tm_min % 5, tm_sec := 0 } := by
  unfold five_minute_tm
  rw [c_mod_five _ hm]
  have h1 : now_tm.tm_min % 5 < 5 := by omega
  have h2 : ¬ (now_tm.tm_min - now_tm.tm_min % 5 < 0) := by omega
  simp only [h1, if_true, h2, if_false]

theorem my_timegm_min_sec (t : tm) (a b : Int) :
    my_timegm { t with tm_min := a, tm_sec := b } =
      my_timegm t - t.tm_min * 60 - t.tm_sec + a * 60 + b := by
  simp only [my_timegm]
  omega

theorem localtime_min_sec (tz : timezone) (t : Int) :
    0 ≤ (localtime tz t).tm_min ∧ (localtime tz t).tm_min ≤ 59 ∧
    0 ≤ (localtime tz t).tm_sec ∧ (localtime tz t).tm_sec ≤ 59 := by
  unfold localtime
  split
  · exact gmtime_min_sec _
  · exact gmtime_min_sec _

theorem my_timegm_isdst (t : tm) (v : Int) :
    my_timegm { t with tm_isdst := v } = my_timegm t := rfl

theorem mktime_min_sec (tz : timezone) (t : tm) (a b : Int) :
    mktime tz { t with tm_min := a, tm_sec := b } =
      mktime tz t - t.tm_min * 60 - t.tm_sec + a * 60 + b := by
  unfold mktime
  simp only [my_timegm_min_sec]
  split <;> omega

theorem mktime_localtime (tz : timezone) (t : Int) : mktime tz (localtime tz t) = t := by
  unfold mktime localtime
  by_cases hd : tz.is_dst t = true
  · rw [if_pos hd]
    show (if (1 : Int) > 0 then my_timegm (gmtime (t + tz.dst_offset)) - tz.dst_offset
      else my_timegm (gmtime (t + tz.dst_offset)) - tz.utc_offset) = t
    rw [if_pos (by decide), my_timegm_gmtime]
    omega
  · rw [if_neg hd]
    show (if (0 : Int) > 0 then my_timegm (gmtime (t + tz.utc_offset)) - tz.dst_offset
      else my_timegm (gmtime (t + tz.utc_offset)) - tz.utc_offset) = t
    rw [if_neg (by decide), my_timegm_gmtime]
    omega

theorem normalised_instant (tz : timezone) (now_t : Int) :
    mktime tz (five_minute_tm (localtime tz now_t)) =
      now_t - (localtime tz now_t).tm_min % 5 * 60 -
        (localtime tz now_t).tm_sec := by
  have hb := localtime_min_sec tz now_t
  rw [five_minute_tm_eq _ hb.1, mktime_min_sec, mktime_localtime]
  omega

/-- C17 (evaluation at the failing input). With a running timer and the last
astronomical fetch at 2024-01-15 12:00:00, `need_astro_update` at 2024-02-15
12:00:00 in the same time zone returns false: the two local dates differ in
the month, but only the day of the month is compared. One day after the
fetch it returns true. -/
theorem C17_same_day_of_month_not_due :
    (localtime UTC 1705320000).tm_mday = 15 ∧ (localtime UTC 1705320000).tm_mon = 0 ∧
    (localtime UTC 1705320000).tm_year = 124 ∧
    (localtime UTC 1707998400).tm_mday = 15 ∧ (localtime UTC 1707998400).tm_mon = 1 ∧
    (localtime UTC 1707998400).tm_year = 124 ∧
    need_astro_update UTC 1707998400
      { example_context with updatetimeout := 1, last_astro_update := 1705320000 } = false ∧
    need_astro_update UTC 1705406400
      { example_context with updatetimeout := 1, last_astro_update := 1705320000 } = true := by
  decide

/-- C18 (evaluation at the failing input). With a running timer and the last
forecast fetch at instant 1704067200, `need_data_update` returns true at an
elapsed time of exactly 1200 seconds, and false one second earlier: the
comparison with `DATA_MAX_AGE` is `>=`. -/
theorem C18_due_at_exactly_max_age :
    DATA_MAX_AGE = 1200 ∧
    need_data_update (1704067200 + 1200)
      { example_context with updatetimeout := 1, last_data_update := 1704067200 } = true ∧
    need_data_update (1704067200 + 1199)
      { example_context with updatetimeout := 1, last_data_update := 1704067200 } = false ∧
    need_data_update (1704067200 + 1201)
      { example_context with updatetimeout := 1, last_data_update := 1704067200 } = true := by
  decide

theorem need_astro_update_congr (tz : timezone) (now_t : Int) (d1 d2 : plugin_data)
    (h1 : d1.updatetimeout = d2.updatetimeout)
    (h2 : d1.last_astro_update = d2.last_astro_update) :
    need_astro_update tz now_t d1 = need_astro_update tz now_t d2 := by
  unfold need_astro_update
  rw [h1, h2]

theorem need_data_update_congr (now_t : Int) (d1 d2 : plugin_data)
    (h1 : d1.updatetimeout = d2.updatetimeout)
    (h2 : d1.last_data_update = d2.last_data_update) :
    need_data_update now_t d1 = need_data_update now_t d2 := by
  unfold need_data_update
  rw [h1, h2]

theorem outstanding_queue (data : plugin_data) (uri : String)
    (cb cb2 : SoupSessionCallback) :
    outstanding cb (weather_http_queue_request data uri cb2) =
      outstanding cb data + (if cb2 = cb then 1 else 0) := by
  unfold outstanding weather_http_queue_request
  by_cases h : cb2 = cb
  · simp [List.filter_append, h]
  · simp [List.filter_append, h]

theorem update_current_conditions_frame (env : plugin_env) (now_t : Int)
    (data : plugin_data) :
    (update_current_conditions env now_t data).session = data.session ∧
    (update_current_conditions env now_t data).updatetimeout = data.updatetimeout ∧
    (update_current_conditions env now_t data).last_astro_update = data.last_astro_update ∧
    (update_current_conditions env now_t data).last_data_update = data.last_data_update :=
  ⟨rfl, rfl, rfl, rfl⟩

theorem update_weatherdata_tick (env : plugin_env) (now_t : Int) (data : plugin_data)
    (lat lon : String) (hlat : data.lat = some lat) (hlon : data.lon = some lon)
    (hne : ¬ (lat.length = 0 ∨ lon.length = 0)) :
    outstanding SoupSessionCallback.cb_astro_update (update_weatherdata env now_t data) =
      outstanding SoupSessionCallback.cb_astro_update data +
        (if need_astro_update env.tz now_t data then 1 else 0) ∧
    outstanding SoupSessionCallback.cb_weather_update (update_weatherdata env now_t data) =
      outstanding SoupSessionCallback.cb_weather_update data +
        (if need_data_update now_t data then 1 else 0) ∧
    (update_weatherdata env now_t data).updatetimeout = data.updatetimeout ∧
    (update_weatherdata env now_t data).last_astro_update = data.last_astro_update ∧
    (update_weatherdata env now_t data).last_data_update = data.last_data_update := by
  unfold update_weatherdata
  simp only [hlat, hlon, if_neg hne]
  cases ha : need_astro_update env.tz now_t data <;>
    cases hd : need_data_update now_t data
  · have hd2 : need_data_update now_t data = false := hd
    simp only [Bool.false_eq_true, if_false, hd2]
    cases hc : need_conditions_update env.tz now_t data
    · simp only [Bool.false_eq_true, if_false]
      split <;> simp [outstanding]
    · simp only [if_true]
      split <;> simp [outstanding, update_current_conditions]
  · simp only [Bool.false_eq_true, if_false, hd, if_true]
    simp [outstanding_queue]
    exact ⟨rfl, rfl, rfl⟩
  · have hd2 : need_data_update now_t
        (weather_http_queue_request data (astro_uri env.tz now_t lat lon)
          SoupSessionCallback.cb_astro_update) = false := by
      rw [← hd]; exact need_data_update_congr _ _ _ rfl rfl
    have hc2 : need_conditions_update env.tz now_t
        (weather_http_queue_request data (astro_uri env.tz now_t lat lon)
          SoupSessionCallback.cb_astro_update) =
        need_conditions_update env.tz now_t data := rfl
    simp only [if_true, hd2, Bool.false_eq_true, if_false, hc2]
    cases hc : need_conditions_update env.tz now_t data
    · simp only [Bool.false_eq_true, if_false]
      split <;> simp [outstanding, weather_http_queue_request, List.filter_append]
    · simp only [if_true]
      split <;> simp [outstanding, weather_http_queue_request, update_current_conditions,
        List.filter_append]
  · have hd2 : need_data_update now_t
        (weather_http_queue_request data (astro_uri env.tz now_t lat lon)
          SoupSessionCallback.cb_astro_update) = true := by
      rw [← hd]; exact need_data_update_congr _ _ _ rfl rfl
    simp only [if_true, hd2]
    simp [outstanding_queue]
    exact ⟨rfl, rfl, rfl⟩

/-- C20 (as amended). Requests of a tick: for every plugin state with
non-empty coordinates, `update_weatherdata` queues one astronomical request
exactly when `need_astro_update` holds and one forecast request exactly when
`need_data_update` holds. Neither check looks at the requests that are queued,
and the tick changes none of `updatetimeout`, `last_astro_update` and
`last_data_update`, so both checks give the same answer on the state after the
tick as on the state before it: as long as no completion callback has changed
the timestamps, a later tick at which a check still holds queues a further
request of that category. -/
theorem C20_tick_requests (env : plugin_env) (now_t : Int) (data : plugin_data)
    (lat lon : String) (hlat : data.lat = some lat) (hlon : data.lon = some lon)
    (hne : ¬ (lat.length = 0 ∨ lon.length = 0)) :
    outstanding SoupSessionCallback.cb_astro_update (update_weatherdata env now_t data) =
      outstanding SoupSessionCallback.cb_astro_update data +
        (if need_astro_update env.tz now_t data then 1 else 0) ∧
    outstanding SoupSessionCallback.cb_weather_update (update_weatherdata env now_t data) =
      outstanding SoupSessionCallback.cb_weather_update data +
        (if need_data_update now_t data then 1 else 0) ∧
    (∀ later, need_astro_update env.tz later (update_weatherdata env now_t data) =
      need_astro_update env.tz later data) ∧
    (∀ later, need_data_update later (update_weatherdata env now_t data) =
      need_data_update later data) := by
  have h := update_weatherdata_tick env now_t data lat lon hlat hlon hne
  exact ⟨h.1, h.2.1,
    fun later => need_astro_update_congr _ _ _ _ h.2.2.1 h.2.2.2.1,
    fun later => need_data_update_congr _ _ _ h.2.2.1 h.2.2.2.2⟩

/-- Witness of C20: a first tick with a running timer and no fetch so far. -/
theorem C20_tick_requests_witness :
    ({ example_context with updatetimeout := 1 } : plugin_data).lat = some "52.5" ∧
    ({ example_context with updatetimeout := 1 } : plugin_data).lon = some "13.4" ∧
    ¬ (("52.5" : String).length = 0 ∨ ("13.4" : String).length = 0) ∧
    outstanding SoupSessionCallback.cb_astro_update
        (update_weatherdata example_env 1704103650
          { example_context with updatetimeout := 1 }) =
      outstanding SoupSessionCallback.cb_astro_update
          { example_context with updatetimeout := 1 } +
        (if need_astro_update example_env.tz 1704103650
            { example_context with updatetimeout := 1 } then 1 else 0) :=
  ⟨rfl, rfl, by decide,
   (C20_tick_requests example_env 1704103650 { example_context with updatetimeout := 1 }
      "52.5" "13.4" rfl rfl (by decide)).1⟩

/-- Counterexample to C20 as stated: with a running timer and no fetch
completed, a tick queues an astronomical and a forecast request, and the tick
15 seconds later, while both are still outstanding, queues one more of each:
two requests of each category are in flight. -/
theorem C20_counterexample :
    outstanding SoupSessionCallback.cb_astro_update
      (update_weatherdata example_env 1704103650
        { example_context with updatetimeout := 1 }) = 1 ∧
    outstanding SoupSessionCallback.cb_weather_update
      (update_weatherdata example_env 1704103650
        { example_context with updatetimeout := 1 }) = 1 ∧
    outstanding SoupSessionCallback.cb_astro_update
      (update_weatherdata example_env 1704103665
        (update_weatherdata example_env 1704103650
          { example_context with updatetimeout := 1 })) = 2 ∧
    outstanding SoupSessionCallback.cb_weather_update
      (update_weatherdata example_env 1704103665
        (update_weatherdata example_env 1704103650
          { example_context with updatetimeout := 1 })) = 2 := by
  decide

/-! ### Frame properties of expiry and merge -/

/-- C27. Expiry removes nothing else: for every store (whose array length
fits the `guint` length field) and every instant `now_t`, the timeslices left
by `xml_weather_clean` are exactly the timeslices of the input with
`now_t - end <= DATA_EXPIRY_TIME`, in their original order and unchanged, a
`NULL` array stays `NULL`, and the current conditions are not touched. -/
theorem C27_expiry_keeps_the_rest (now_t DATA_EXPIRY_TIME : Int) (wd : xml_weather)
    (hlen : (slices wd).length < 4294967296) :
    ∃ wd1, xml_weather_clean now_t DATA_EXPIRY_TIME wd = some wd1 ∧
      slices wd1 =
        (slices wd).filter (fun x => decide (now_t - x.«end» ≤ DATA_EXPIRY_TIME)) ∧
      wd1.current_conditions = wd.current_conditions ∧
      (wd.timeslices = none ↔ wd1.timeslices = none) := by
  refine ⟨_, xml_weather_clean_eq now_t DATA_EXPIRY_TIME wd hlen, ?_, rfl, ?_⟩
  · cases h : wd.timeslices <;> simp [slices, h]
  · cases h : wd.timeslices <;> simp [h]

/-- Witness of C27 on the store of the witness of C7, with current
conditions. -/
theorem C27_expiry_keeps_the_rest_witness :
    (slices { stale_store with current_conditions := some (slice_ending 5 "now") }).length <
      4294967296 ∧
    ∃ wd1, xml_weather_clean 200000 86400
        { stale_store with current_conditions := some (slice_ending 5 "now") } = some wd1 ∧
      slices wd1 =
        (slices { stale_store with current_conditions := some (slice_ending 5 "now") }).filter
          (fun x => decide ((200000 : Int) - x.«end» ≤ 86400)) ∧
      wd1.current_conditions =
        ({ stale_store with
           current_conditions := some (slice_ending 5 "now") } : xml_weather).current_conditions ∧
      (({ stale_store with
          current_conditions := some (slice_ending 5 "now") } : xml_weather).timeslices = none ↔
        wd1.timeslices = none) :=
  ⟨by decide,
   C27_expiry_keeps_the_rest 200000 86400
     { stale_store with current_conditions := some (slice_ending 5 "now") } (by decide)⟩

theorem upsert_getElem (o : MergeOp) :
    ∀ (S : List xml_time) (i : Nat) (x : xml_time), S[i]? = some x →
      ∃ y, (upsert o S)[i]? = some y ∧ y.start = x.start ∧ y.«end» = x.«end» ∧
        y.point = x.point ∧ (o.hits x = false → y = x) := by
  intro S
  induction S with
  | nil => intro i x h; simp at h
  | cons s rest ih =>
    intro i x h
    cases hs : o.hits s with
    | true =>
      cases i with
      | zero =>
        simp only [List.getElem?_cons_zero, Option.some.injEq] at h
        subst h
        refine ⟨{ s with location := o.2.2 s.location }, by simp [upsert, hs], rfl, rfl, rfl, ?_⟩
        intro hf
        rw [hs] at hf
        cases hf
      | succ i =>
        simp only [List.getElem?_cons_succ] at h
        exact ⟨x, by simp [upsert, hs, h], rfl, rfl, rfl, fun _ => rfl⟩
    | false =>
      cases i with
      | zero =>
        simp only [List.getElem?_cons_zero, Option.some.injEq] at h
        subst h
        exact ⟨s, by simp [upsert, hs], rfl, rfl, rfl, fun _ => rfl⟩
      | succ i =>
        simp only [List.getElem?_cons_succ] at h
        obtain ⟨y, hy, h1, h2, h3, h4⟩ := ih i x h
        exact ⟨y, by simp [upsert, hs, hy], h1, h2, h3, h4⟩

theorem run_ops_getElem (ops : List MergeOp) :
    ∀ (S : List xml_time) (i : Nat) (x : xml_time), S[i]? = some x →
      ∃ y, (run_ops ops S)[i]? = some y ∧ y.start = x.start ∧ y.«end» = x.«end» ∧
        y.point = x.point ∧ ((∀ o ∈ ops, o.hits x = false) → y = x) := by
  induction ops with
  | nil => intro S i x h; exact ⟨x, h, rfl, rfl, rfl, fun _ => rfl⟩
  | cons o rest ih =>
    intro S i x h
    obtain ⟨y, hy, h1, h2, h3, h4⟩ := upsert_getElem o S i x h
    obtain ⟨z, hz, g1, g2, g3, g4⟩ := ih (upsert o S) i y hy
    refine ⟨z, hz, g1.trans h1, g2.trans h2, g3.trans h3, ?_⟩
    intro hall
    have hyx : y = x := h4 (hall o (List.mem_cons_self _ _))
    subst hyx
    exact g4 (fun o2 ho2 => hall o2 (List.mem_cons_of_mem _ ho2))

theorem run_ops_keys (ops : List MergeOp) :
    ∀ S : List xml_time,
      (run_ops ops S).map key =
        ops.foldl (fun ks o => if (o.1, o.2.1) ∈ ks then ks else ks ++ [(o.1, o.2.1)])
          (S.map key) := by
  induction ops with
  | nil => intro S; rfl
  | cons o rest ih =>
    intro S
    simp only [run_ops, List.foldl_cons]
    have := ih (upsert o S)
    simp only [run_ops] at this
    rw [this, upsert_keys]

theorem upsert_length (o : MergeOp) (S : List xml_time) :
    S.length ≤ (upsert o S).length ∧ (upsert o S).length ≤ S.length + 1 := by
  have h := congrArg List.length (upsert_keys o S)
  simp only [List.length_map] at h
  split at h
  · simp only [List.length_map] at h; omega
  · simp only [List.length_append, List.length_map, List.length_singleton] at h; omega

theorem run_ops_length (ops : List MergeOp) :
    ∀ S : List xml_time,
      S.length ≤ (run_ops ops S).length ∧ (run_ops ops S).length ≤ S.length + ops.length := by
  induction ops with
  | nil => intro S; simp [run_ops]
  | cons o rest ih =>
    intro S
    have h1 := upsert_length o S
    have h2 := ih (upsert o S)
    simp only [run_ops, List.foldl_cons, List.length_cons] at h2 ⊢
    omega

theorem parse_weather_slices (root : xmlNode) (wd wd1 : xml_weather)
    (h : parse_weather root wd = some wd1) :
    slices wd1 = run_ops (doc_ops root) (slices wd) ∧
    wd1.current_conditions = wd.current_conditions := by
  rw [parse_weather_eq] at h
  by_cases hr : NODE_IS_TYPE root "weatherdata" = true
  · by_cases hok : doc_ok root = true
    · simp only [hr, hok, if_true, Option.some.injEq] at h
      subst h
      exact ⟨rfl, rfl⟩
    · simp [hr, hok] at h
  · simp only [hr, Bool.false_eq_true, if_false, Option.some.injEq] at h
    subst h
    simp [doc_ops, hr, run_ops]

/-- C28. Merging never loses data: for every store and every document on
which `parse_weather` returns, every stored timeslice keeps its position, its
start, end and point, and, when no accepted time element of the document has
its start and end, all of its attributes; the keys afterwards are the keys
before followed by the new keys of the document in document order; the count
does not decrease and grows by at most the number of accepted time elements;
the current conditions are not touched. -/
theorem C28_merge_keeps_data (root : xmlNode) (wd wd1 : xml_weather)
    (h : parse_weather root wd = some wd1) :
    (∀ (i : Nat) (x : xml_time), (slices wd)[i]? = some x →
      ∃ y, (slices wd1)[i]? = some y ∧ y.start = x.start ∧ y.«end» = x.«end» ∧
        y.point = x.point ∧
        ((∀ o ∈ doc_ops root, ¬ (x.start = o.1 ∧ x.«end» = o.2.1)) → y = x)) ∧
    (slices wd1).map key =
      (doc_ops root).foldl
        (fun ks o => if (o.1, o.2.1) ∈ ks then ks else ks ++ [(o.1, o.2.1)])
        ((slices wd).map key) ∧
    (slices wd).length ≤ (slices wd1).length ∧
    (slices wd1).length ≤ (slices wd).length + (doc_ops root).length ∧
    wd1.current_conditions = wd.current_conditions := by
  obtain ⟨hs, hc⟩ := parse_weather_slices root wd wd1 h
  rw [hs]
  refine ⟨?_, run_ops_keys _ _, (run_ops_length _ _).1, (run_ops_length _ _).2, hc⟩
  intro i x hx
  obtain ⟨y, hy, h1, h2, h3, h4⟩ := run_ops_getElem (doc_ops root) (slices wd) i x hx
  refine ⟨y, hy, h1, h2, h3, ?_⟩
  intro hall
  apply h4
  intro o ho
  have := hall o ho
  simp only [MergeOp.hits, decide_eq_false_iff_not]
  exact this

/-- Witness of C28: a store with two timeslices, of which the document has the
key of the second. -/
theorem C28_merge_keeps_data_witness :
    parse_weather (example_doc "6.0") two_slice_store = some two_slice_store_merged ∧
    (slices two_slice_store_merged).map key =
      (doc_ops (example_doc "6.0")).foldl
        (fun ks o => if (o.1, o.2.1) ∈ ks then ks else ks ++ [(o.1, o.2.1)])
        ((slices two_slice_store).map key) ∧
    (slices two_slice_store).length ≤ (slices two_slice_store_merged).length :=
  ⟨by decide,
   (C28_merge_keeps_data (example_doc "6.0") two_slice_store two_slice_store_merged
      (by decide)).2.1,
   (C28_merge_keeps_data (example_doc "6.0") two_slice_store two_slice_store_merged
      (by decide)).2.2.1⟩

/-! ### Completion callback of the forecast request -/

theorem cb_weather_update_no_root (env : plugin_env) (now_t E : Int)
    (doc : Option (Option xmlNode)) (data : plugin_data)
    (hdoc : doc = none ∨ doc = some none)
    (hlen : (slices data.weatherdata).length < 4294967296) :
    cb_weather_update env now_t E doc data =
      (write_cache_file now_t
          (update_current_conditions env now_t
            { data with weatherdata := without_expired now_t E data.weatherdata })).map
        fun file =>
          (update_current_conditions env now_t
            { data with weatherdata := without_expired now_t E data.weatherdata }, file) := by
  unfold cb_weather_update without_expired
  rcases hdoc with h | h <;> subst h <;> simp only [xml_weather_clean_eq now_t E _ hlen]

theorem write_cache_file_isSome (now_t : Int) (data : plugin_data)
    (h : data.weatherdata.timeslices ≠ none ∨ data.lat = none ∨ data.lon = none) :
    (write_cache_file now_t data).isSome = true := by
  unfold write_cache_file
  by_cases h1 : data.lat = none ∨ data.lon = none
  · rw [if_pos h1]; rfl
  · rw [if_neg h1]
    cases hts : data.weatherdata.timeslices with
    | none =>
      rcases h with h | h | h
      · exact absurd hts h
      · exact absurd (Or.inl h) h1
      · exact absurd (Or.inr h) h1
    | some ts => rfl

/-- C21 (as amended). No document: when `cb_weather_update` receives no
document, or a document without root element, `last_data_update` is left
unchanged and no timeslice is added or altered; `xml_weather_clean` still
runs, so the timeslices afterwards are those before with
`now_t - end <= DATA_EXPIRY_TIME`, in their order: expired timeslices are
removed. The callback returns whenever the timeslice array is not `NULL` or a
coordinate is `NULL`. -/
theorem C21_no_document (env : plugin_env) (now_t DATA_EXPIRY_TIME : Int)
    (doc : Option (Option xmlNode)) (data : plugin_data)
    (hdoc : doc = none ∨ doc = some none)
    (hlen : (slices data.weatherdata).length < 4294967296) :
    (∀ out, cb_weather_update env now_t DATA_EXPIRY_TIME doc data = some out →
      out.1.last_data_update = data.last_data_update ∧
      slices out.1.weatherdata =
        (slices data.weatherdata).filter
          (fun x => decide (now_t - x.«end» ≤ DATA_EXPIRY_TIME))) ∧
    ((data.weatherdata.timeslices ≠ none ∨ data.lat = none ∨ data.lon = none) →
      (cb_weather_update env now_t DATA_EXPIRY_TIME doc data).isSome = true) := by
  rw [cb_weather_update_no_root env now_t DATA_EXPIRY_TIME doc data hdoc hlen]
  constructor
  · intro out hout
    simp only [Option.map_eq_some'] at hout
    obtain ⟨file, _, rfl⟩ := hout
    refine ⟨rfl, ?_⟩
    cases hts : data.weatherdata.timeslices <;>
      simp [update_current_conditions, without_expired, slices, hts]
  · intro h
    rw [Option.isSome_map']
    apply write_cache_file_isSome
    rcases h with h | h | h
    · left
      cases hts : data.weatherdata.timeslices with
      | none => exact absurd hts h
      | some ts => simp [update_current_conditions, without_expired, hts]
    · right; left; exact h
    · right; right; exact h

set_option maxRecDepth 100000 in
/-- Witness of C21: no document arrives for a store without expired
timeslices. -/
theorem C21_no_document_witness :
    ((none : Option (Option xmlNode)) = none ∨ (none : Option (Option xmlNode)) = some none) ∧
    (slices example_dataset.weatherdata).length < 4294967296 ∧
    (∀ out, cb_weather_update example_env 1704070000 86400 none example_dataset = some out →
      out.1.last_data_update = example_dataset.last_data_update ∧
      slices out.1.weatherdata =
        (slices example_dataset.weatherdata).filter
          (fun x => decide ((1704070000 : Int) - x.«end» ≤ 86400))) ∧
    (cb_weather_update example_env 1704070000 86400 none example_dataset).isSome = true :=
  ⟨Or.inl rfl, by decide,
   (C21_no_document example_env 1704070000 86400 none example_dataset (Or.inl rfl)
      (by decide)).1,
   by decide⟩

set_option maxRecDepth 100000 in
/-- Counterexample to C21 as stated: no document arrives at instant 200000
for a store of six timeslices of which four have expired; after the callback
`last_data_update` is unchanged but only two timeslices are left. -/
theorem C21_counterexample :
    (slices stale_data.weatherdata).length = 6 ∧
    (cb_weather_update example_env 200000 86400 none stale_data).map
      (fun out => (out.1.last_data_update, (slices out.1.weatherdata).length)) =
        some (5, 2) ∧
    (cb_weather_update example_env 200000 86400 none stale_data).map
      (fun out => slices out.1.weatherdata) ≠ some (slices stale_data.weatherdata) := by
  decide

set_option maxRecDepth 100000 in
/-- C22 (evaluation at the failing input). `cb_weather_update` receives at
instant 1704103650 a document whose root is named `astrodata`: no timeslice is
added, but `last_data_update` is set to that instant, so that the tick 15
seconds later finds no forecast refresh due. When no document is received
`last_data_update` stays 5 and the refresh is due. The sibling
`cb_astro_update` leaves `last_astro_update` unchanged for a wrong root. -/
theorem C22_wrong_root_sets_last_data_update :
    NODE_IS_TYPE wrong_root_doc "weatherdata" = false ∧
    (cb_weather_update example_env 1704103650 86400 (some (some wrong_root_doc))
        { example_context with updatetimeout := 1, last_data_update := 5 }).map
      (fun out => (out.1.last_data_update, slices out.1.weatherdata,
        need_data_update 1704103665 out.1)) = some (1704103650, [], false) ∧
    (cb_weather_update example_env 1704103650 86400 none
        { example_context with updatetimeout := 1, last_data_update := 5 }).map
      (fun out => (out.1.last_data_update, slices out.1.weatherdata,
        need_data_update 1704103665 out.1)) = some (5, [], true) ∧
    (cb_astro_update 1704103650 (some (some (example_doc "5.0")))
        { example_context with updatetimeout := 1, last_astro_update := 5 }).last_astro_update
      = 5 := by
  decide

/-! ### Reset, preemption and the night-time flag -/

theorem update_weatherdata_forecast_due (env : plugin_env) (now_t : Int)
    (data : plugin_data) (lat lon : String) (hlat : data.lat = some lat)
    (hlon : data.lon = some lon) (hne : ¬ (lat.length = 0 ∨ lon.length = 0))
    (hdue : need_data_update now_t data = true) :
    (update_weatherdata env now_t data).weatherdata = data.weatherdata ∧
    (update_weatherdata env now_t data).last_conditions_update =
      data.last_conditions_update ∧
    (update_weatherdata env now_t data).night_time = data.night_time ∧
    (update_weatherdata env now_t data).astrodata = data.astrodata := by
  unfold update_weatherdata
  simp only [hlat, hlon, if_neg hne]
  cases ha : need_astro_update env.tz now_t data
  · simp only [Bool.false_eq_true, if_false, hdue, if_true]
    exact ⟨rfl, rfl, rfl, rfl⟩
  · have hd2 : need_data_update now_t
        (weather_http_queue_request data (astro_uri env.tz now_t lat lon)
          SoupSessionCallback.cb_astro_update) = true := by
      rw [← hdue]; exact need_data_update_congr _ _ _ rfl rfl
    simp only [if_true, hd2]
    exact ⟨rfl, rfl, rfl, rfl⟩

theorem update_weatherdata_not_due (env : plugin_env) (now_t : Int)
    (data : plugin_data) (lat lon : String) (hlat : data.lat = some lat)
    (hlon : data.lon = some lon) (hne : ¬ (lat.length = 0 ∨ lon.length = 0))
    (hdue : need_data_update now_t data = false) :
    (update_weatherdata env now_t data).night_time =
      env.is_night_time data.astrodata now_t := by
  unfold update_weatherdata
  simp only [hlat, hlon, if_neg hne]
  cases ha : need_astro_update env.tz now_t data
  · simp only [Bool.false_eq_true, if_false, hdue]
    cases hc : need_conditions_update env.tz now_t data
    · simp only [Bool.false_eq_true, if_false]
      split
      · rfl
      · rename_i h
        simpa using h
    · simp only [if_true]
      split
      · rfl
      · rename_i h
        simpa using h
  · have hd2 : need_data_update now_t
        (weather_http_queue_request data (astro_uri env.tz now_t lat lon)
          SoupSessionCallback.cb_astro_update) = false := by
      rw [← hdue]; exact need_data_update_congr _ _ _ rfl rfl
    have hc2 : need_conditions_update env.tz now_t
        (weather_http_queue_request data (astro_uri env.tz now_t lat lon)
          SoupSessionCallback.cb_astro_update) =
        need_conditions_update env.tz now_t data := rfl
    simp only [if_true, hd2, Bool.false_eq_true, if_false, hc2]
    cases hc : need_conditions_update env.tz now_t data
    · simp only [Bool.false_eq_true, if_false]
      split
      · rfl
      · rename_i h
        simpa [weather_http_queue_request] using h
    · simp only [if_true]
      split
      · rfl
      · rename_i h
        simpa [weather_http_queue_request] using h

theorem read_cache_file_frame (err : Bool) (now_t : Int) (keyfile : Option GKeyFile)
    (data r : plugin_data) (h : read_cache_file err now_t keyfile data = some r) :
    r = { data with weatherdata := r.weatherdata } := by
  unfold read_cache_file at h
  split at h
  · cases h; rfl
  · split at h
    · cases h; rfl
    · split at h
      · cases h; rfl
      · simp only at h
        split at h
        · cases h; rfl
        · split at h
          · cases h; rfl
          · split at h
            · cases h; rfl
            · split at h
              · cases h
              · split at h
                · cases h; rfl
                · simp only [Option.map_eq_some'] at h
                  obtain ⟨wd, _, rfl⟩ := h
                  rfl

/-- C23. Reset: for every plugin state with non-empty latitude and longitude,
`update_weatherdata_with_reset` leaves `last_data_update`, `last_astro_update`
and `last_conditions_update` at zero, its tick queues one astronomical and one
forecast request, and the new timer runs. Without `clear` the weather data is
the one before; with `clear` it is what `read_cache_file` makes of the fresh
store of `make_weather_data`, and the function returns exactly when
`read_cache_file` does. -/
theorem C23_reset (env : plugin_env) (now_t : Int) (err : Bool)
    (keyfile : Option GKeyFile) (make_weather_data : xml_weather) (timeout_id : Nat)
    (data : plugin_data) (lat lon : String) (hlat : data.lat = some lat)
    (hlon : data.lon = some lon) (hne : ¬ (lat.length = 0 ∨ lon.length = 0)) :
    (∃ d, update_weatherdata_with_reset env now_t err keyfile make_weather_data timeout_id
        data false = some d ∧
      d.last_data_update = 0 ∧ d.last_astro_update = 0 ∧ d.last_conditions_update = 0 ∧
      outstanding SoupSessionCallback.cb_astro_update d =
        outstanding SoupSessionCallback.cb_astro_update data + 1 ∧
      outstanding SoupSessionCallback.cb_weather_update d =
        outstanding SoupSessionCallback.cb_weather_update data + 1 ∧
      d.updatetimeout = timeout_id ∧
      d.weatherdata = data.weatherdata) ∧
    (∀ r, read_cache_file err now_t keyfile
        { data with updatetimeout := 0, last_data_update := 0,
                    last_astro_update := 0, last_conditions_update := 0,
                    weatherdata := make_weather_data } = some r →
      ∃ d, update_weatherdata_with_reset env now_t err keyfile make_weather_data timeout_id
          data true = some d ∧
        d.last_data_update = 0 ∧ d.last_astro_update = 0 ∧ d.last_conditions_update = 0 ∧
        outstanding SoupSessionCallback.cb_astro_update d =
          outstanding SoupSessionCallback.cb_astro_update data + 1 ∧
        outstanding SoupSessionCallback.cb_weather_update d =
          outstanding SoupSessionCallback.cb_weather_update data + 1 ∧
        d.updatetimeout = timeout_id ∧
        d.weatherdata = r.weatherdata) ∧
    (read_cache_file err now_t keyfile
        { data with updatetimeout := 0, last_data_update := 0,
                    last_astro_update := 0, last_conditions_update := 0,
                    weatherdata := make_weather_data } = none →
      update_weatherdata_with_reset env now_t err keyfile make_weather_data timeout_id
        data true = none) := by
  have key : ∀ d0 : plugin_data, d0.lat = some lat → d0.lon = some lon →
      d0.updatetimeout = 0 → d0.last_data_update = 0 → d0.last_astro_update = 0 →
      d0.last_conditions_update = 0 → d0.session = data.session →
      (update_weatherdata env now_t d0).last_data_update = 0 ∧
      (update_weatherdata env now_t d0).last_astro_update = 0 ∧
      (update_weatherdata env now_t d0).last_conditions_update = 0 ∧
      outstanding SoupSessionCallback.cb_astro_update (update_weatherdata env now_t d0) =
        outstanding SoupSessionCallback.cb_astro_update data + 1 ∧
      outstanding SoupSessionCallback.cb_weather_update (update_weatherdata env now_t d0) =
        outstanding SoupSessionCallback.cb_weather_update data + 1 ∧
      (update_weatherdata env now_t d0).weatherdata = d0.weatherdata := by
    intro d0 h1 h2 h3 h4 h5 h6 h7
    have ha : need_astro_update env.tz now_t d0 = true := by
      simp [need_astro_update, h3]
    have hd : need_data_update now_t d0 = true := by
      simp [need_data_update, h3]
    have ht := update_weatherdata_tick env now_t d0 lat lon h1 h2 hne
    have hf := update_weatherdata_forecast_due env now_t d0 lat lon h1 h2 hne hd
    rw [ha, hd] at ht
    have ho : ∀ cb, outstanding cb d0 = outstanding cb data := by
      intro cb; simp [outstanding, h7]
    simp only [if_true, ho] at ht
    exact ⟨ht.2.2.2.2.trans h4, ht.2.2.2.1.trans h5, hf.2.1.trans h6, ht.1, ht.2.1, hf.1⟩
  refine ⟨?_, ?_, ?_⟩
  · have h := key { data with updatetimeout := 0, last_data_update := 0,
                                last_astro_update := 0, last_conditions_update := 0 }
      hlat hlon rfl rfl rfl rfl rfl
    exact ⟨_, rfl, h.1, h.2.1, h.2.2.1, h.2.2.2.1, h.2.2.2.2.1, rfl, h.2.2.2.2.2⟩
  · intro r hr
    have hfr := read_cache_file_frame _ _ _ _ _ hr
    have h := key r (by rw [hfr]; exact hlat) (by rw [hfr]; exact hlon)
      (by rw [hfr]) (by rw [hfr]) (by rw [hfr]) (by rw [hfr]) (by rw [hfr])
    refine ⟨{ update_weatherdata env now_t r with updatetimeout := timeout_id }, ?_,
      h.1, h.2.1, h.2.2.1, h.2.2.2.1, h.2.2.2.2.1, rfl, h.2.2.2.2.2⟩
    unfold update_weatherdata_with_reset
    simp only [if_true, hr, Option.map_some']
  · intro hr
    unfold update_weatherdata_with_reset
    simp only [if_true, hr, Option.map_none']

set_option maxRecDepth 100000 in
/-- Witness of C23: a reset of a dataset with one timeslice, without `clear`
and with `clear` and the cache of `example_keyfile`. -/
theorem C23_reset_witness :
    conditions_data.lat = some "52.5" ∧ conditions_data.lon = some "13.4" ∧
    ¬ (("52.5" : String).length = 0 ∨ ("13.4" : String).length = 0) ∧
    (∃ d, update_weatherdata_with_reset example_env 1704070100 false (some example_keyfile)
        empty_store 7 conditions_data false = some d ∧
      d.last_data_update = 0 ∧ d.last_astro_update = 0 ∧ d.last_conditions_update = 0 ∧
      outstanding SoupSessionCallback.cb_astro_update d =
        outstanding SoupSessionCallback.cb_astro_update conditions_data + 1 ∧
      outstanding SoupSessionCallback.cb_weather_update d =
        outstanding SoupSessionCallback.cb_weather_update conditions_data + 1 ∧
      d.updatetimeout = 7 ∧
      d.weatherdata = conditions_data.weatherdata) ∧
    (update_weatherdata_with_reset example_env 1704070100 false (some example_keyfile)
        empty_store 7 conditions_data true).map
      (fun d => (slices d.weatherdata).length) = some 1 :=
  ⟨rfl, rfl, by decide,
   (C23_reset example_env 1704070100 false (some example_keyfile) empty_store 7
      conditions_data "52.5" "13.4" rfl rfl (by decide)).1,
   by decide⟩

/-- C24 (as amended). Current conditions after a recomputation: after
`update_current_conditions` the current conditions are exactly what the
selector returns for the store, with its current conditions already freed,
and the normalised instant, and the timeslices are unchanged; so when the
selector produces no value the current conditions are empty, whatever they
were before. -/
theorem C24_conditions_replaced (env : plugin_env) (now_t : Int) (data : plugin_data) :
    (update_current_conditions env now_t data).weatherdata.current_conditions =
      env.make_current_conditions
        { data.weatherdata with current_conditions := none }
        (mktime env.tz (five_minute_tm (localtime env.tz now_t))) ∧
    (update_current_conditions env now_t data).weatherdata.timeslices =
      data.weatherdata.timeslices ∧
    (env.make_current_conditions
        { data.weatherdata with current_conditions := none }
        (mktime env.tz (five_minute_tm (localtime env.tz now_t))) = none →
      (update_current_conditions env now_t data).weatherdata.current_conditions = none) := by
  unfold update_current_conditions
  exact ⟨rfl, rfl, fun h => h⟩

/-- Witness of C24: a selector that finds nothing leaves no current
conditions, and a selector that finds the second timeslice leaves that one. -/
theorem C24_conditions_replaced_witness :
    (example_env.make_current_conditions
        { conditions_data.weatherdata with current_conditions := none }
        (mktime example_env.tz
          (five_minute_tm (localtime example_env.tz 1704103650))) = none ∧
      (update_current_conditions example_env 1704103650
        conditions_data).weatherdata.current_conditions = none) ∧
    (update_current_conditions fall_back_env 1729991110
        fall_back_data).weatherdata.current_conditions =
      enclosing_timeslice
        { fall_back_data.weatherdata with current_conditions := none } 1729991100 :=
  ⟨⟨rfl, (C24_conditions_replaced example_env 1704103650 conditions_data).2.2 rfl⟩,
   (C24_conditions_replaced fall_back_env 1729991110 fall_back_data).1.trans (by decide)⟩

/-- Counterexample to C24 as stated: the store has current conditions, the
selector produces no value, and after `update_current_conditions` the current
conditions are not the previous ones but empty. -/
theorem C24_counterexample :
    conditions_data.weatherdata.current_conditions = some example_timeslice ∧
    example_env.make_current_conditions
      { conditions_data.weatherdata with current_conditions := none }
      (mktime example_env.tz
        (five_minute_tm (localtime example_env.tz 1704103650))) = none ∧
    (update_current_conditions example_env 1704103650
      conditions_data).weatherdata.current_conditions = none ∧
    (update_current_conditions example_env 1704103650
      conditions_data).weatherdata.current_conditions ≠
        conditions_data.weatherdata.current_conditions := by
  decide

/-- C25. Forecast refresh preempts recomputation: for every tick with
non-empty coordinates on which `need_data_update` holds, one forecast request
is queued and the tick leaves the weather data, with its current conditions,
and `last_conditions_update` as they were, whatever `need_conditions_update`
says. -/
theorem C25_forecast_preempts (env : plugin_env) (now_t : Int) (data : plugin_data)
    (lat lon : String) (hlat : data.lat = some lat) (hlon : data.lon = some lon)
    (hne : ¬ (lat.length = 0 ∨ lon.length = 0))
    (hdue : need_data_update now_t data = true) :
    outstanding SoupSessionCallback.cb_weather_update (update_weatherdata env now_t data) =
      outstanding SoupSessionCallback.cb_weather_update data + 1 ∧
    (update_weatherdata env now_t data).weatherdata.current_conditions =
      data.weatherdata.current_conditions ∧
    (update_weatherdata env now_t data).weatherdata = data.weatherdata ∧
    (update_weatherdata env now_t data).last_conditions_update =
      data.last_conditions_update := by
  have ht := update_weatherdata_tick env now_t data lat lon hlat hlon hne
  have hf := update_weatherdata_forecast_due env now_t data lat lon hlat hlon hne hdue
  rw [hdue] at ht
  exact ⟨ht.2.1, by rw [hf.1], hf.1, hf.2.1⟩

/-- Witness of C25: a tick at 10:10:00, more than 20 minutes after the last
forecast fetch and more than 5 minutes after the last recomputation. -/
theorem C25_forecast_preempts_witness :
    need_data_update 1704103800
      { conditions_data with updatetimeout := 1, last_data_update := 1704100000,
                             last_conditions_update := 1704103200 } = true ∧
    need_conditions_update example_env.tz 1704103800
      { conditions_data with updatetimeout := 1, last_data_update := 1704100000,
                             last_conditions_update := 1704103200 } = true ∧
    (update_weatherdata example_env 1704103800
      { conditions_data with updatetimeout := 1, last_data_update := 1704100000,
                             last_conditions_update := 1704103200 }).weatherdata.current_conditions =
      some example_timeslice ∧
    (update_weatherdata example_env 1704103800
      { conditions_data with updatetimeout := 1, last_data_update := 1704100000,
                             last_conditions_update := 1704103200 }).last_conditions_update =
      1704103200 :=
  ⟨by decide, by decide,
   (C25_forecast_preempts example_env 1704103800
      { conditions_data with updatetimeout := 1, last_data_update := 1704100000,
                             last_conditions_update := 1704103200 }
      "52.5" "13.4" rfl rfl (by decide) (by decide)).2.1,
   (C25_forecast_preempts example_env 1704103800
      { conditions_data with updatetimeout := 1, last_data_update := 1704100000,
                             last_conditions_update := 1704103200 }
      "52.5" "13.4" rfl rfl (by decide) (by decide)).2.2.2⟩

/-- C26 (as amended). Night-time flag: after every tick with non-empty
coordinates that queues no forecast request, `night_time` equals the status
derived from the astronomical data, also when no data refresh occurs. A tick
that queues a forecast request returns before the flag is looked at and
leaves `night_time` as it was; a tick without coordinates, `NULL` or empty,
changes nothing. -/
theorem C26_night_time_flag (env : plugin_env) (now_t : Int) (data : plugin_data)
    (lat lon : String) (hlat : data.lat = some lat) (hlon : data.lon = some lon)
    (hne : ¬ (lat.length = 0 ∨ lon.length = 0)) :
    (need_data_update now_t data = false →
      (update_weatherdata env now_t data).night_time =
        env.is_night_time data.astrodata now_t) ∧
    (need_data_update now_t data = true →
      (update_weatherdata env now_t data).night_time = data.night_time) ∧
    (∀ d : plugin_data, (d.lat = none ∨ d.lon = none) →
      update_weatherdata env now_t d = d) ∧
    (∀ (d : plugin_data) (la lo : String), d.lat = some la → d.lon = some lo →
      (la.length = 0 ∨ lo.length = 0) → update_weatherdata env now_t d = d) := by
  refine ⟨update_weatherdata_not_due env now_t data lat lon hlat hlon hne, ?_, ?_, ?_⟩
  · intro hdue
    exact (update_weatherdata_forecast_due env now_t data lat lon hlat hlon hne hdue).2.2.1
  · intro d hd
    unfold update_weatherdata
    rcases hd with h | h
    · rw [h]
    · rw [h]
      cases d.lat <;> rfl
  · intro d la lo h1 h2 h3
    unfold update_weatherdata
    simp only [h1, h2, if_pos h3]

/-- Witness of C26: a tick one minute after the last forecast fetch, at
night, with the flag still on day. -/
theorem C26_night_time_flag_witness :
    need_data_update 1704103800
      { conditions_data with updatetimeout := 1, last_data_update := 1704103740,
                             last_conditions_update := 1704103740 } = false ∧
    (update_weatherdata night_env 1704103800
      { conditions_data with updatetimeout := 1, last_data_update := 1704103740,
                             last_conditions_update := 1704103740 }).night_time =
      night_env.is_night_time
        ({ conditions_data with updatetimeout := 1, last_data_update := 1704103740,
                                last_conditions_update := 1704103740 } : plugin_data).astrodata
        1704103800 :=
  ⟨by decide,
   (C26_night_time_flag night_env 1704103800
      { conditions_data with updatetimeout := 1, last_data_update := 1704103740,
                             last_conditions_update := 1704103740 }
      "52.5" "13.4" rfl rfl (by decide)).1 (by decide)⟩

/-- Counterexample to C26 as stated: it is night, the recorded flag says day,
and the tick queues a forecast request; after the tick the flag still says
day. -/
theorem C26_counterexample :
    ({ conditions_data with updatetimeout := 1 } : plugin_data).night_time = false ∧
    night_env.is_night_time
      ({ conditions_data with updatetimeout := 1 } : plugin_data).astrodata 1704103800 = true ∧
    outstanding SoupSessionCallback.cb_weather_update
      (update_weatherdata night_env 1704103800
        { conditions_data with updatetimeout := 1 }) = 1 ∧
    (update_weatherdata night_env 1704103800
      { conditions_data with updatetimeout := 1 }).night_time = false := by
  decide

/-- The inner loop of `update_scrollbox` ends with `j` the smaller of the
number of lines and the number of labels left. -/
theorem scrollbox_group_spec (make_label : Nat → String) (labels : List Nat)
    (scrollbox_lines : Int) (i : Nat) :
    ∀ (fuel j : Nat) (out : String),
      j ≤ min (to_guint scrollbox_lines) (labels.length - i) →
      min (to_guint scrollbox_lines) (labels.length - i) - j < fuel →
      ∃ out', scrollbox_group make_label labels scrollbox_lines i fuel j out =
        some (min (to_guint scrollbox_lines) (labels.length - i), out') := by
  intro fuel
  induction fuel with
  | zero => intro j out _ h; omega
  | succ fuel ih =>
    intro j out hj hf
    unfold scrollbox_group
    by_cases hg : i + j < labels.length ∧ j < to_guint scrollbox_lines
    · rw [if_pos hg]
      have hlt : j < min (to_guint scrollbox_lines) (labels.length - i) := by
        rw [Nat.lt_min]; omega
      exact ih (j + 1) _ hlt (by omega)
    · rw [if_neg hg]
      have hge : min (to_guint scrollbox_lines) (labels.length - i) ≤ j := by
        refine min_le_iff.mpr ?_
        omega
      have : j = min (to_guint scrollbox_lines) (labels.length - i) := by omega
      exact ⟨out, by rw [← this]⟩

/-- Rounding up: with one more group of at most `L` labels taken off, the
number of groups left drops by one. -/
theorem ceil_div_step (L m : Nat) (hL : 1 ≤ L) (hm : 1 ≤ m) :
    (m - min L m + L - 1) / L + 1 = (m + L - 1) / L := by
  by_cases h : L ≤ m
  · rw [Nat.min_eq_left h]
    have e : m + L - 1 = (m - L + L - 1) + L := by omega
    rw [e, Nat.add_div_right _ (by omega)]
  · have h' : m ≤ L := by omega
    rw [Nat.min_eq_right h']
    have e1 : (m - m + L - 1) / L = 0 := Nat.div_eq_of_lt (by omega)
    have e2 : (m + L - 1) / L = 1 := by
      have e : m + L - 1 = (m - 1) + L := by omega
      rw [e, Nat.add_div_right _ (by omega), Nat.div_eq_of_lt (by omega)]
    rw [e1, e2]

/-- The outer loop of `update_scrollbox` ends when the number of lines is
positive, with one more entry for each group of labels. -/
theorem scrollbox_entries_spec (make_label : Nat → String) (labels : List Nat)
    (scrollbox_lines : Int) (hL : 1 ≤ to_guint scrollbox_lines) :
    ∀ (fuel i : Nat) (entries : List String),
      labels.length - i < fuel →
      ∃ es, scrollbox_entries make_label labels scrollbox_lines fuel i entries = some es ∧
        es.length = entries.length +
          (labels.length - i + to_guint scrollbox_lines - 1) / to_guint scrollbox_lines := by
  intro fuel
  induction fuel with
  | zero => intro i entries h; omega
  | succ fuel ih =>
    intro i entries hf
    unfold scrollbox_entries
    by_cases hi : i < labels.length
    · rw [if_pos hi]
      obtain ⟨out, hout⟩ := scrollbox_group_spec make_label labels scrollbox_lines i
        (labels.length + 1) 0 "" (Nat.zero_le _) (by
          have := Nat.min_le_right (to_guint scrollbox_lines) (labels.length - i)
          omega)
      rw [hout]
      have hmin : 1 ≤ min (to_guint scrollbox_lines) (labels.length - i) := by
        rw [Nat.le_min]; omega
      have hmin' := Nat.min_le_right (to_guint scrollbox_lines) (labels.length - i)
      obtain ⟨es, hes, hlen⟩ := ih (i + min (to_guint scrollbox_lines) (labels.length - i))
        (entries ++ [out]) (by omega)
      refine ⟨es, hes, ?_⟩
      rw [hlen, List.length_append, List.length_singleton]
      have hstep := ceil_div_step (to_guint scrollbox_lines) (labels.length - i) hL (by omega)
      have e : labels.length - (i + min (to_guint scrollbox_lines) (labels.length - i)) =
          labels.length - i - min (to_guint scrollbox_lines) (labels.length - i) := by omega
      rw [e]
      omega
    · rw [if_neg hi]
      refine ⟨entries, rfl, ?_⟩
      have e : labels.length - i = 0 := by omega
      rw [e, Nat.zero_add, Nat.div_eq_of_lt (by omega)]
      rfl

/-- A line count in the range of a positive `gint` is its own `guint` value. -/
theorem to_guint_of_pos (v : Int) (h1 : 1 ≤ v) (h2 : v ≤ 2147483647) :
    to_guint v = v.toNat := by
  unfold to_guint
  rw [Int.emod_eq_of_lt (by omega) (by omega)]

/-- Claim C30: a stored configuration is clamped on read. With at least one
scrollbox line allowed and a default number of forecast days between 1 and the
maximum, after `xfceweather_read_config` the number of scrollbox lines lies in
`1..MAX_SCROLLBOX_LINES` and is 1 when the stored value lies outside, the
number of forecast days lies in `1..MAX_FORECAST_DAYS` and is
`DEFAULT_FORECAST_DAYS` when the stored value lies outside, and the forecast
layout is the list or the calendar layout. With at least one scrollbox line
and current conditions at hand, the grouping loop of `update_scrollbox` ends
and sets the number of labels divided by the number of lines, rounded up,
scrollbox entries. -/
theorem C30_config_clamped (c : config_constants) (rc : XfceRc) (data0 : plugin_data)
    (make_label : Nat → String) (data : plugin_data)
    (hmax : 1 ≤ c.MAX_SCROLLBOX_LINES)
    (hdef : 1 ≤ c.DEFAULT_FORECAST_DAYS)
    (hdays : c.DEFAULT_FORECAST_DAYS ≤ c.MAX_FORECAST_DAYS)
    (hlines : 1 ≤ data.scrollbox_lines) (hgint : data.scrollbox_lines ≤ 2147483647)
    (hcur : data.weatherdata.current_conditions ≠ none) :
    (1 ≤ (xfceweather_read_config c (some rc) data0).scrollbox_lines ∧
      (xfceweather_read_config c (some rc) data0).scrollbox_lines ≤ c.MAX_SCROLLBOX_LINES ∧
      (xfceweather_read_config c (some rc) data0).scrollbox_lines =
        (if 1 ≤ xfce_rc_read_int_entry rc "scrollbox_lines" 1 ∧
            xfce_rc_read_int_entry rc "scrollbox_lines" 1 ≤ c.MAX_SCROLLBOX_LINES
          then xfce_rc_read_int_entry rc "scrollbox_lines" 1 else 1)) ∧
    (1 ≤ (xfceweather_read_config c (some rc) data0).forecast_days ∧
      (xfceweather_read_config c (some rc) data0).forecast_days ≤ c.MAX_FORECAST_DAYS ∧
      (xfceweather_read_config c (some rc) data0).forecast_days =
        (if 1 ≤ xfce_rc_read_int_entry rc "forecast_days" c.DEFAULT_FORECAST_DAYS ∧
            xfce_rc_read_int_entry rc "forecast_days" c.DEFAULT_FORECAST_DAYS ≤
              c.MAX_FORECAST_DAYS
          then xfce_rc_read_int_entry rc "forecast_days" c.DEFAULT_FORECAST_DAYS
          else c.DEFAULT_FORECAST_DAYS)) ∧
    ((xfceweather_read_config c (some rc) data0).forecast_layout = c.FC_LAYOUT_LIST ∨
      (xfceweather_read_config c (some rc) data0).forecast_layout = c.FC_LAYOUT_CALENDAR) ∧
    ∃ entries, update_scrollbox make_label data = some entries ∧
      entries.length =
        (data.labels.length + data.scrollbox_lines.toNat - 1) / data.scrollbox_lines.toNat := by
  refine ⟨?_, ?_, ?_, ?_⟩
  · simp only [xfceweather_read_config]
    split_ifs <;> omega
  · simp only [xfceweather_read_config]
    split_ifs <;> omega
  · simp only [xfceweather_read_config]
    split_ifs with h
    · rcases h with h | h
      · exact Or.inr h
      · exact Or.inl h
    · exact Or.inl rfl
  · have hg := to_guint_of_pos data.scrollbox_lines hlines hgint
    have hL : 1 ≤ to_guint data.scrollbox_lines := by rw [hg]; omega
    obtain ⟨es, hes, hlen⟩ := scrollbox_entries_spec make_label data.labels
      data.scrollbox_lines hL (data.labels.length + 1) 0 [] (by omega)
    refine ⟨es, ?_, ?_⟩
    · unfold update_scrollbox
      cases hc : data.weatherdata.current_conditions with
      | none => exact absurd hc hcur
      | some _ => exact hes
    · rw [hlen, hg]
      simp

/-- Witness for C30: the stored values 0 lines, 42 days and layout 7 are read
as 1 line, 5 days and the list layout, and five labels in groups of two give
three scrollbox entries. -/
theorem C30_config_clamped_witness :
    ((xfceweather_read_config example_constants (some example_rc) example_context).scrollbox_lines
        = 1 ∧
      (xfceweather_read_config example_constants (some example_rc) example_context).forecast_days
        = 5 ∧
      (xfceweather_read_config example_constants (some example_rc) example_context).forecast_layout
        = 0) ∧
    update_scrollbox (fun t => toString t)
        { conditions_data with labels := [1, 2, 3, 4, 5], scrollbox_lines := 2 } =
      some ["1\n2", "3\n4", "5\n"] ∧
    ∃ entries, update_scrollbox (fun t => toString t)
        { conditions_data with labels := [1, 2, 3, 4, 5], scrollbox_lines := 2 } = some entries ∧
      entries.length = 3 :=
  ⟨by decide, by decide,
    (C30_config_clamped example_constants example_rc example_context (fun t => toString t)
      { conditions_data with labels := [1, 2, 3, 4, 5], scrollbox_lines := 2 }
      (by decide) (by decide) (by decide) (by decide) (by decide) (by decide)).2.2.2⟩

/-- Claim C29 (evaluation): a name of 60 two-byte characters without a comma
is returned unchanged by `sanitize_location_name`, with its 60 characters:
the length that decides about cutting counts the characters within the first
50 bytes only, here 25. A name of 60 one-byte characters is cut to 50, a name
with two commas is cut before the second, and the empty name gives `Unset`. -/
theorem C29_multibyte_name_not_bounded :
    long_name.length = 60 ∧ ',' ∉ long_name.data ∧
    g_utf8_strlen long_name.data LOC_NAME_MAX_LEN = 25 ∧
    sanitize_location_name long_name = some long_name ∧
    (sanitize_location_name (String.mk (List.replicate 60 'a'))).map String.length = some 50 ∧
    sanitize_location_name "Berlin, Deutschland, Europa" = some "Berlin, Deutschland" ∧
    sanitize_location_name "" = some "Unset" := by
  refine ⟨by decide, by decide, by decide, by decide, by decide, by decide, by decide⟩

/-! ### The due-check of the current conditions -/

/-! The due-check of the current conditions is consulted by the tick only, and
only after `need_data_update` returned false: the timer runs and a forecast
fetch is recorded. The next lemmas show that a recorded forecast fetch comes
with a recorded recomputation in every state that the reset, the tick and the
two completion callbacks produce at instants from 300 seconds on. -/

theorem update_current_conditions_stamp (env : plugin_env) (now_t : Int)
    (data : plugin_data) (hnow : 300 ≤ now_t) :
    (update_current_conditions env now_t data).last_conditions_update ≠ 0 := by
  show mktime env.tz (five_minute_tm (localtime env.tz now_t)) ≠ 0
  rw [normalised_instant]
  have hb := localtime_min_sec env.tz now_t
  omega

theorem cb_weather_update_stamp (env : plugin_env) (now_t E : Int)
    (doc : Option (Option xmlNode)) (data : plugin_data) (out : plugin_data × Option String)
    (hnow : 300 ≤ now_t) (h : cb_weather_update env now_t E doc data = some out) :
    out.1.last_conditions_update ≠ 0 := by
  unfold cb_weather_update at h
  simp only at h
  split at h
  · cases h
  · split at h
    · cases h
    · simp only [Option.map_eq_some'] at h
      obtain ⟨file, _, rfl⟩ := h
      exact update_current_conditions_stamp env now_t _ hnow

theorem cb_astro_update_stamp (now_t : Int) (doc : Option (Option xmlNode))
    (data : plugin_data) :
    (cb_astro_update now_t doc data).last_data_update = data.last_data_update ∧
    (cb_astro_update now_t doc data).last_conditions_update =
      data.last_conditions_update := by
  unfold cb_astro_update
  split
  · cases parse_astro (some _) <;> exact ⟨rfl, rfl⟩
  · exact ⟨rfl, rfl⟩

theorem update_weatherdata_stamps (env : plugin_env) (now_t : Int) (data : plugin_data) :
    (update_weatherdata env now_t data).last_data_update = data.last_data_update ∧
    ((update_weatherdata env now_t data).last_conditions_update =
        data.last_conditions_update ∨
      (update_weatherdata env now_t data).last_conditions_update =
        mktime env.tz (five_minute_tm (localtime env.tz now_t))) := by
  unfold update_weatherdata
  cases data.lat with
  | none => exact ⟨rfl, Or.inl rfl⟩
  | some lat =>
    cases data.lon with
    | none => exact ⟨rfl, Or.inl rfl⟩
    | some lon =>
      simp only []
      split_ifs <;>
        first
          | exact ⟨rfl, Or.inl rfl⟩
          | exact ⟨rfl, Or.inr rfl⟩

theorem update_weatherdata_stamp (env : plugin_env) (now_t : Int) (data : plugin_data)
    (hnow : 300 ≤ now_t)
    (hinv : data.last_data_update ≠ 0 → data.last_conditions_update ≠ 0) :
    (update_weatherdata env now_t data).last_data_update ≠ 0 →
      (update_weatherdata env now_t data).last_conditions_update ≠ 0 := by
  obtain ⟨h1, h2 | h2⟩ := update_weatherdata_stamps env now_t data
  · rw [h1, h2]
    exact hinv
  · rw [h2]
    exact fun _ => update_current_conditions_stamp env now_t data hnow

theorem update_weatherdata_with_reset_stamp (env : plugin_env) (now_t : Int) (err : Bool)
    (keyfile : Option GKeyFile) (make_weather_data : xml_weather) (timeout_id : Nat)
    (data d : plugin_data) (clear : Bool)
    (h : update_weatherdata_with_reset env now_t err keyfile make_weather_data timeout_id
      data clear = some d) :
    d.last_data_update = 0 := by
  unfold update_weatherdata_with_reset at h
  simp only [Option.map_eq_some'] at h
  obtain ⟨r, hr, rfl⟩ := h
  show (update_weatherdata env now_t r).last_data_update = 0
  rw [(update_weatherdata_stamps env now_t r).1]
  cases clear
  · simp only [Bool.false_eq_true, if_false, Option.some.injEq] at hr
    rw [← hr]
  · simp only [if_true] at hr
    rw [read_cache_file_frame _ _ _ _ _ hr]

/-- C19. Current-conditions due-check: in every state in which the tick
consults it, that is after `need_data_update` returned false, so that the
timer runs and a forecast fetch is recorded, and with it a recomputation,
`need_conditions_update` returns true exactly when more than 300 seconds have
elapsed since the last recomputation and the local minute-of-hour of now is a
multiple of 5; in particular it is false whenever the minute is not a multiple
of 5. -/
theorem C19_conditions_due (tz : timezone) (now_t : Int) (data : plugin_data)
    (hreach : need_data_update now_t data = false)
    (hstamp : data.last_data_update ≠ 0 → data.last_conditions_update ≠ 0) :
    (need_conditions_update tz now_t data = true ↔
      (now_t - data.last_conditions_update > 300 ∧
        (localtime tz now_t).tm_min % 5 = 0)) ∧
    ((localtime tz now_t).tm_min % 5 ≠ 0 →
      need_conditions_update tz now_t data = false) := by
  have hb := localtime_min_sec tz now_t
  have hmod : c_mod (localtime tz now_t).tm_min 5 =
      (localtime tz now_t).tm_min % 5 := c_mod_five _ hb.1
  have hguard : ¬ (data.updatetimeout = 0 ∨ data.last_data_update = 0) := by
    intro hg
    unfold need_data_update at hreach
    rw [if_pos hg] at hreach
    cases hreach
  have ht : data.updatetimeout ≠ 0 := fun e => hguard (Or.inl e)
  have hl : data.last_conditions_update ≠ 0 := hstamp (fun e => hguard (Or.inr e))
  have hiff : need_conditions_update tz now_t data = true ↔
      (now_t - data.last_conditions_update > 300 ∧
        (localtime tz now_t).tm_min % 5 = 0) := by
    unfold need_conditions_update
    rw [if_neg (by simp [ht, hl]), hmod]
    simp only [Bool.and_eq_true, Bool.or_eq_true, decide_eq_true_eq]
    constructor
    · rintro ⟨h1, h2 | h2⟩
      · exact ⟨h1, h2⟩
      · exact ⟨h1, by omega⟩
    · rintro ⟨h1, h2⟩
      exact ⟨h1, Or.inl h2⟩
  refine ⟨hiff, ?_⟩
  intro hne
  cases hv : need_conditions_update tz now_t data with
  | false => rfl
  | true => exact absurd (hiff.1 hv).2 hne

/-- Witness of C19: 50 seconds after a forecast fetch, with the last
recomputation one hour before, at 10:07:30 the check is false, the minute
not being a multiple of 5, and at 10:10:00 it is true. -/
theorem C19_conditions_due_witness :
    need_data_update 1704103650
      { example_context with updatetimeout := 1, last_data_update := 1704103600,
                             last_conditions_update := 1704100050 } = false ∧
    ((localtime UTC 1704103650).tm_min % 5 ≠ 0 ∧
      need_conditions_update UTC 1704103650
        { example_context with updatetimeout := 1, last_data_update := 1704103600,
                               last_conditions_update := 1704100050 } = false) ∧
    need_conditions_update UTC 1704103800
      { example_context with updatetimeout := 1, last_data_update := 1704103600,
                             last_conditions_update := 1704100050 } = true :=
  ⟨by decide,
   ⟨by decide,
    (C19_conditions_due UTC 1704103650
      { example_context with updatetimeout := 1, last_data_update := 1704103600,
                             last_conditions_update := 1704100050 }
      (by decide) (by decide)).2 (by decide)⟩,
   (C19_conditions_due UTC 1704103800
      { example_context with updatetimeout := 1, last_data_update := 1704103600,
                             last_conditions_update := 1704100050 }
      (by decide) (by decide)).1.2 ⟨by decide, by decide⟩⟩

end Weather
